import Mathlib

/-!
# RAGNAREK overlay skin: a verification development

Shallow embedding of the parts of the repository that carry behaviour:

* `edited` : the widget shim of `ragnarek-imgui/imgui_edited_simple.cpp`;
* `Boundary` : the C-linkage symbol tables of `wrapper.h`, `ragnarek_wrapper.cpp`
  and `standalone_ragnarek.cpp`;
* `Bootstrap` : device creation, teardown, the message loop and the tab fade of
  `RAGNAREK-v2-imgui/example_win32_directx11/main.cpp`.

Conventions.  C `int` values are `Int` (the 32-bit range is a hypothesis where
it matters), C `float` values are rationals `ℚ` (passed through unrounded by the
widget shim, which does no arithmetic on them; rounded to binary32 after every
operation in `Bootstrap.fadeUpdate32`), a pointer argument
`T* p` becomes the value read through it on entry together with the value left
behind it on return, and distinct pointer arguments are taken not to alias.
-/

/-! ## Definitions -/

namespace edited

/-- Text produced by the C conversion `%c` applied to the `int` argument `k`: the
argument is converted to `unsigned char` and that single character is written. -/
def sprintf_c (k : Int) : String :=
  String.singleton (Char.ofNat (k % 256).toNat)

/-- Text produced by the C conversion `%d` applied to the `int` argument `k`. -/
def sprintf_d (k : Int) : String :=
  toString k

/-- Contents of the local buffer `key_name` that `edited::Keybind` hands to
`ImGui::Button`, as a function of `*key` (imgui_edited_simple.cpp, lines 156-167). -/
def key_name (key : Int) : String :=
  if key = 0 then "None"
  else if key = 1 then "LMB"
  else if key = 2 then "RMB"
  else if key ≥ 65 ∧ key ≤ 90 then sprintf_c key
  else "Key " ++ sprintf_d key

end edited

/-! ### The GUI toolkit seen from the shim

The toolkit is an external collaborator.  Its answers are given by an oracle over
a hidden toolkit state `σ`; every call the shim makes is appended to a log
together with the answer it received, so that statements about what a shim
function called, in which order and with which result can be read off the log. -/

namespace ImGui

/-- Three colour channels behind a `float col[3]` argument. -/
abbrev Color3 := ℚ × ℚ × ℚ

/-- Four colour channels: a `float col[4]` argument or an `ImVec4`. -/
abbrev Color4 := ℚ × ℚ × ℚ × ℚ

/-- The toolkit's 2-vector `ImVec2`. -/
abbrev ImVec2 := ℚ × ℚ

/-- Sum of two 2-vectors. -/
def vadd (a b : ImVec2) : ImVec2 := (a.1 + b.1, a.2 + b.2)

/-- Difference of two 2-vectors. -/
def vsub (a b : ImVec2) : ImVec2 := (a.1 - b.1, a.2 - b.2)

/-- A 2-vector times a scalar. -/
def vscale (a : ImVec2) (k : ℚ) : ImVec2 := (a.1 * k, a.2 * k)

/-- The toolkit's rectangle `ImRect`. -/
structure ImRect where
  Min : ImVec2
  Max : ImVec2
  deriving DecidableEq

/-- `ImRect::GetSize`. -/
def ImRect.GetSize (bb : ImRect) : ImVec2 := vsub bb.Max bb.Min

/-- The style colour slots the shim names. -/
inductive ImGuiCol
  | Text | Button | ButtonHovered | ButtonActive
  deriving DecidableEq

/-- One toolkit call made by the shim, with its by-value arguments, the value read
through its pointer argument and the answer of the toolkit (the returned flag and
the value left behind the pointer). -/
inductive Event
  | Text (text : String)
  | SameLine
  | Checkbox (label : String) (v : Bool) (changed : Bool) (v_out : Bool)
  | ColorEdit3 (label : String) (col : Color3) (flags : Nat) (changed : Bool) (col_out : Color3)
  | SliderFloat (label : String) (v v_min v_max : ℚ) (format : String) (flags : Nat)
      (changed : Bool) (v_out : ℚ)
  | Button (label : String) (pressed : Bool)
  | BeginChild (str_id : String) (size : ImVec2) (child_flags window_flags : Nat) (ret : Bool)
  | EndChild
  | SliderInt (label : String) (v v_min v_max : Int) (format : String) (flags : Nat)
      (changed : Bool) (v_out : Int)
  | ColorEdit4 (label : String) (col : Color4) (flags : Nat) (changed : Bool) (col_out : Color4)
  | ColorPicker4 (label : String) (col : Color4) (flags : Nat) (ref_col : Option Color4)
      (changed : Bool) (col_out : Color4)
  | ColorButton (desc_id : String) (col : Color4) (flags : Nat) (size : ImVec2) (pressed : Bool)
  | Selectable (label : String) (selected : Bool) (flags : Nat) (size : ImVec2) (pressed : Bool)
  | SelectablePtr (label : String) (selected : Bool) (flags : Nat) (size : ImVec2)
      (pressed : Bool) (selected_out : Bool)
  | BeginCombo (label : String) (preview_value : String) (flags : Nat) (opened : Bool)
  | EndCombo
  | Combo (label : String) (current_item : Int) (items : List String) (items_count : Int)
      (popup_max_height_in_items : Int) (changed : Bool) (item_out : Int)
  | PushStyleColor (idx : ImGuiCol) (col : Nat)
  | PopStyleColor
  | RenderTextClipped (p_min p_max : ImVec2) (text : String) (align : ImVec2)
  | Separator
  | TextColored (col : Color4) (text : String)
  | ItemSize (bb : ImRect)
  | ItemAdd (bb : ImRect) (id : Nat) (ret : Bool)
  | ButtonBehavior (bb : ImRect) (id : Nat) (flags : Nat) (pressed hovered held : Bool)
  | RenderNavHighlight (bb : ImRect) (id : Nat)
  | RenderFrame (p_min p_max : ImVec2) (fill_col : Nat) (border : Bool) (rounding : ℚ)
  | RenderText (pos : ImVec2) (text : String)
  | AddRectFilled (p_min p_max : ImVec2) (col : Nat)
  | AddRect (p_min p_max : ImVec2) (col : Nat)
  | AddText (pos : ImVec2) (col : Nat) (text : String)
  deriving DecidableEq

/-- Answer of `ImGui::ButtonBehavior`: the returned flag and the two flags it stores
through `out_hovered` and `out_held`. -/
structure ButtonState where
  pressed : Bool
  hovered : Bool
  held : Bool

/-- Behaviour of the toolkit primitives the shim calls: each maps its arguments and
the hidden toolkit state to its answer and the next hidden state. -/
structure Toolkit (σ : Type) where
  Text : String → σ → σ
  SameLine : σ → σ
  Checkbox : String → Bool → σ → (Bool × Bool) × σ
  ColorEdit3 : String → Color3 → Nat → σ → (Bool × Color3) × σ
  SliderFloat : String → ℚ → ℚ → ℚ → String → Nat → σ → (Bool × ℚ) × σ
  Button : String → σ → Bool × σ
  BeginChild : String → ImVec2 → Nat → Nat → σ → Bool × σ
  EndChild : σ → σ
  SliderInt : String → Int → Int → Int → String → Nat → σ → (Bool × Int) × σ
  ColorEdit4 : String → Color4 → Nat → σ → (Bool × Color4) × σ
  ColorPicker4 : String → Color4 → Nat → Option Color4 → σ → (Bool × Color4) × σ
  ColorButton : String → Color4 → Nat → ImVec2 → σ → Bool × σ
  Selectable : String → Bool → Nat → ImVec2 → σ → Bool × σ
  SelectablePtr : String → Bool → Nat → ImVec2 → σ → (Bool × Bool) × σ
  BeginCombo : String → String → Nat → σ → Bool × σ
  EndCombo : σ → σ
  Combo : String → Int → List String → Int → Int → σ → (Bool × Int) × σ
  PushStyleColor : ImGuiCol → Nat → σ → σ
  PopStyleColor : σ → σ
  RenderTextClipped : ImVec2 → ImVec2 → String → ImVec2 → σ → σ
  Separator : σ → σ
  TextColored : Color4 → String → σ → σ
  ItemSize : ImRect → σ → σ
  ItemAdd : ImRect → Nat → σ → Bool × σ
  ButtonBehavior : ImRect → Nat → Nat → σ → ButtonState × σ
  RenderNavHighlight : ImRect → Nat → σ → σ
  RenderFrame : ImVec2 → ImVec2 → Nat → Bool → ℚ → σ → σ
  RenderText : ImVec2 → String → σ → σ
  AddRectFilled : ImVec2 → ImVec2 → Nat → σ → σ
  AddRect : ImVec2 → ImVec2 → Nat → σ → σ
  AddText : ImVec2 → Nat → String → σ → σ
  /-- `window->SkipItems` of the current window. -/
  SkipItems : σ → Bool
  /-- `window->DC.CursorPos` of the current window. -/
  CursorPos : σ → ImVec2
  /-- `g.Style.FrameRounding`. -/
  FrameRounding : σ → ℚ
  /-- `window->GetID(int)`. -/
  GetID_int : Nat → σ → Nat
  /-- `ImGui::GetID(const char*)`; the argument may be null. -/
  GetID_str : Option String → σ → Nat
  /-- `ImGui::GetColorU32(ImGuiCol)`. -/
  GetColorU32 : ImGuiCol → σ → Nat
  /-- `ImGui::CalcTextSize(text)`. -/
  CalcTextSize : String → σ → ImVec2
  /-- The header constant `ImGuiButtonFlags_None`. -/
  ImGuiButtonFlags_None : Nat
  /-- The header constant `ImGuiSelectableFlags_DontClosePopups`. -/
  ImGuiSelectableFlags_DontClosePopups : Nat
  /-- The header constant `IM_COL32_WHITE`. -/
  IM_COL32_WHITE : Nat
  /-- The header constant `IM_COL32_BLACK`. -/
  IM_COL32_BLACK : Nat

/-- Hidden toolkit state together with the log of the calls made so far. -/
structure World (σ : Type) where
  tk : σ
  log : List Event

/-- Answer of a widget taking one pointer: the returned flag and the value left
behind the pointer. -/
structure Ret (α : Type) where
  changed : Bool
  out : α

variable {σ : Type}

/-- Call of `ImGui::Text("%s", text)`. -/
def Text (T : Toolkit σ) (text : String) (w : World σ) : World σ :=
  { tk := T.Text text w.tk, log := w.log ++ [Event.Text text] }

/-- Call of `ImGui::SameLine()`. -/
def SameLine (T : Toolkit σ) (w : World σ) : World σ :=
  { tk := T.SameLine w.tk, log := w.log ++ [Event.SameLine] }

/-- Call of `ImGui::Checkbox(label, v)`. -/
def Checkbox (T : Toolkit σ) (label : String) (v : Bool) (w : World σ) :
    Ret Bool × World σ :=
  let r := T.Checkbox label v w.tk
  (⟨r.1.1, r.1.2⟩, { tk := r.2, log := w.log ++ [Event.Checkbox label v r.1.1 r.1.2] })

/-- Call of `ImGui::ColorEdit3(label, col, flags)`. -/
def ColorEdit3 (T : Toolkit σ) (label : String) (col : Color3) (flags : Nat) (w : World σ) :
    Ret Color3 × World σ :=
  let r := T.ColorEdit3 label col flags w.tk
  (⟨r.1.1, r.1.2⟩,
    { tk := r.2, log := w.log ++ [Event.ColorEdit3 label col flags r.1.1 r.1.2] })

/-- Call of `ImGui::SliderFloat(label, v, v_min, v_max, format, flags)`. -/
def SliderFloat (T : Toolkit σ) (label : String) (v v_min v_max : ℚ) (format : String)
    (flags : Nat) (w : World σ) : Ret ℚ × World σ :=
  let r := T.SliderFloat label v v_min v_max format flags w.tk
  (⟨r.1.1, r.1.2⟩,
    { tk := r.2,
      log := w.log ++ [Event.SliderFloat label v v_min v_max format flags r.1.1 r.1.2] })

/-- Call of `ImGui::Button(label)`. -/
def Button (T : Toolkit σ) (label : String) (w : World σ) : Bool × World σ :=
  let r := T.Button label w.tk
  (r.1, { tk := r.2, log := w.log ++ [Event.Button label r.1] })

/-- Call of `ImGui::BeginChild(str_id, size, child_flags, window_flags)`. -/
def BeginChild (T : Toolkit σ) (str_id : String) (size : ImVec2)
    (child_flags window_flags : Nat) (w : World σ) : Bool × World σ :=
  let r := T.BeginChild str_id size child_flags window_flags w.tk
  (r.1, { tk := r.2,
          log := w.log ++ [Event.BeginChild str_id size child_flags window_flags r.1] })

/-- Call of `ImGui::EndChild()`. -/
def EndChild (T : Toolkit σ) (w : World σ) : World σ :=
  { tk := T.EndChild w.tk, log := w.log ++ [Event.EndChild] }

/-- Call of `ImGui::SliderInt(label, v, v_min, v_max, format, flags)`. -/
def SliderInt (T : Toolkit σ) (label : String) (v v_min v_max : Int) (format : String)
    (flags : Nat) (w : World σ) : Ret Int × World σ :=
  let r := T.SliderInt label v v_min v_max format flags w.tk
  (⟨r.1.1, r.1.2⟩,
    { tk := r.2,
      log := w.log ++ [Event.SliderInt label v v_min v_max format flags r.1.1 r.1.2] })

/-- Call of `ImGui::ColorEdit4(label, col, flags)`. -/
def ColorEdit4 (T : Toolkit σ) (label : String) (col : Color4) (flags : Nat) (w : World σ) :
    Ret Color4 × World σ :=
  let r := T.ColorEdit4 label col flags w.tk
  (⟨r.1.1, r.1.2⟩,
    { tk := r.2, log := w.log ++ [Event.ColorEdit4 label col flags r.1.1 r.1.2] })

/-- Call of `ImGui::ColorPicker4(label, col, flags, ref_col)`. -/
def ColorPicker4 (T : Toolkit σ) (label : String) (col : Color4) (flags : Nat)
    (ref_col : Option Color4) (w : World σ) : Ret Color4 × World σ :=
  let r := T.ColorPicker4 label col flags ref_col w.tk
  (⟨r.1.1, r.1.2⟩,
    { tk := r.2, log := w.log ++ [Event.ColorPicker4 label col flags ref_col r.1.1 r.1.2] })

/-- Call of `ImGui::ColorButton(desc_id, col, flags, size)`. -/
def ColorButton (T : Toolkit σ) (desc_id : String) (col : Color4) (flags : Nat)
    (size : ImVec2) (w : World σ) : Bool × World σ :=
  let r := T.ColorButton desc_id col flags size w.tk
  (r.1, { tk := r.2, log := w.log ++ [Event.ColorButton desc_id col flags size r.1] })

/-- Call of `ImGui::Selectable(label, selected, flags, size)` with `selected` passed
by value. -/
def Selectable (T : Toolkit σ) (label : String) (selected : Bool) (flags : Nat)
    (size : ImVec2) (w : World σ) : Bool × World σ :=
  let r := T.Selectable label selected flags size w.tk
  (r.1, { tk := r.2, log := w.log ++ [Event.Selectable label selected flags size r.1] })

/-- Call of `ImGui::Selectable(label, p_selected, flags, size)` with a pointer to the
selection flag. -/
def SelectablePtr (T : Toolkit σ) (label : String) (selected : Bool) (flags : Nat)
    (size : ImVec2) (w : World σ) : Ret Bool × World σ :=
  let r := T.SelectablePtr label selected flags size w.tk
  (⟨r.1.1, r.1.2⟩,
    { tk := r.2,
      log := w.log ++ [Event.SelectablePtr label selected flags size r.1.1 r.1.2] })

/-- Call of `ImGui::BeginCombo(label, preview_value, flags)`. -/
def BeginCombo (T : Toolkit σ) (label preview_value : String) (flags : Nat) (w : World σ) :
    Bool × World σ :=
  let r := T.BeginCombo label preview_value flags w.tk
  (r.1, { tk := r.2, log := w.log ++ [Event.BeginCombo label preview_value flags r.1] })

/-- Call of `ImGui::EndCombo()`. -/
def EndCombo (T : Toolkit σ) (w : World σ) : World σ :=
  { tk := T.EndCombo w.tk, log := w.log ++ [Event.EndCombo] }

/-- Call of `ImGui::Combo(label, current_item, items, items_count,
popup_max_height_in_items)`. -/
def Combo (T : Toolkit σ) (label : String) (current_item : Int) (items : List String)
    (items_count popup_max_height_in_items : Int) (w : World σ) : Ret Int × World σ :=
  let r := T.Combo label current_item items items_count popup_max_height_in_items w.tk
  (⟨r.1.1, r.1.2⟩,
    { tk := r.2,
      log := w.log ++ [Event.Combo label current_item items items_count
        popup_max_height_in_items r.1.1 r.1.2] })

/-- Call of `ImGui::PushStyleColor(idx, col)`. -/
def PushStyleColor (T : Toolkit σ) (idx : ImGuiCol) (col : Nat) (w : World σ) : World σ :=
  { tk := T.PushStyleColor idx col w.tk, log := w.log ++ [Event.PushStyleColor idx col] }

/-- Call of `ImGui::PopStyleColor()`. -/
def PopStyleColor (T : Toolkit σ) (w : World σ) : World σ :=
  { tk := T.PopStyleColor w.tk, log := w.log ++ [Event.PopStyleColor] }

/-- Call of `ImGui::RenderTextClipped(p_min, p_max, text, NULL, NULL, align, NULL)`. -/
def RenderTextClipped (T : Toolkit σ) (p_min p_max : ImVec2) (text : String) (align : ImVec2)
    (w : World σ) : World σ :=
  { tk := T.RenderTextClipped p_min p_max text align w.tk,
    log := w.log ++ [Event.RenderTextClipped p_min p_max text align] }

/-- Call of `ImGui::Separator()`. -/
def Separator (T : Toolkit σ) (w : World σ) : World σ :=
  { tk := T.Separator w.tk, log := w.log ++ [Event.Separator] }

/-- Call of `ImGui::TextColored(col, fmt, ...)`, `text` being the formatted text. -/
def TextColored (T : Toolkit σ) (col : Color4) (text : String) (w : World σ) : World σ :=
  { tk := T.TextColored col text w.tk, log := w.log ++ [Event.TextColored col text] }

/-- Call of `ImGui::ItemSize(bb)`. -/
def ItemSize (T : Toolkit σ) (bb : ImRect) (w : World σ) : World σ :=
  { tk := T.ItemSize bb w.tk, log := w.log ++ [Event.ItemSize bb] }

/-- Call of `ImGui::ItemAdd(bb, id)`. -/
def ItemAdd (T : Toolkit σ) (bb : ImRect) (id : Nat) (w : World σ) : Bool × World σ :=
  let r := T.ItemAdd bb id w.tk
  (r.1, { tk := r.2, log := w.log ++ [Event.ItemAdd bb id r.1] })

/-- Call of `ImGui::ButtonBehavior(bb, id, &hovered, &held, flags)`. -/
def ButtonBehavior (T : Toolkit σ) (bb : ImRect) (id : Nat) (flags : Nat) (w : World σ) :
    ButtonState × World σ :=
  let r := T.ButtonBehavior bb id flags w.tk
  (r.1, { tk := r.2,
          log := w.log ++ [Event.ButtonBehavior bb id flags r.1.pressed r.1.hovered r.1.held] })

/-- Call of `ImGui::RenderNavHighlight(bb, id)`. -/
def RenderNavHighlight (T : Toolkit σ) (bb : ImRect) (id : Nat) (w : World σ) : World σ :=
  { tk := T.RenderNavHighlight bb id w.tk, log := w.log ++ [Event.RenderNavHighlight bb id] }

/-- Call of `ImGui::RenderFrame(p_min, p_max, fill_col, border, rounding)`. -/
def RenderFrame (T : Toolkit σ) (p_min p_max : ImVec2) (fill_col : Nat) (border : Bool)
    (rounding : ℚ) (w : World σ) : World σ :=
  { tk := T.RenderFrame p_min p_max fill_col border rounding w.tk,
    log := w.log ++ [Event.RenderFrame p_min p_max fill_col border rounding] }

/-- Call of `ImGui::RenderText(pos, text)`. -/
def RenderText (T : Toolkit σ) (pos : ImVec2) (text : String) (w : World σ) : World σ :=
  { tk := T.RenderText pos text w.tk, log := w.log ++ [Event.RenderText pos text] }

/-- Call of `AddRectFilled(p_min, p_max, col)` on the window draw list. -/
def AddRectFilled (T : Toolkit σ) (p_min p_max : ImVec2) (col : Nat) (w : World σ) :
    World σ :=
  { tk := T.AddRectFilled p_min p_max col w.tk,
    log := w.log ++ [Event.AddRectFilled p_min p_max col] }

/-- Call of `AddRect(p_min, p_max, col)` on the window draw list. -/
def AddRect (T : Toolkit σ) (p_min p_max : ImVec2) (col : Nat) (w : World σ) : World σ :=
  { tk := T.AddRect p_min p_max col w.tk, log := w.log ++ [Event.AddRect p_min p_max col] }

/-- Call of `AddText(pos, col, text)` on the window draw list. -/
def AddText (T : Toolkit σ) (pos : ImVec2) (col : Nat) (text : String) (w : World σ) :
    World σ :=
  { tk := T.AddText pos col text w.tk, log := w.log ++ [Event.AddText pos col text] }

/-- The log entry is a draw command: it puts a frame, a rectangle or text on screen. -/
def Event.isDraw : Event → Bool
  | .RenderNavHighlight _ _ => true
  | .RenderFrame _ _ _ _ _ => true
  | .RenderText _ _ => true
  | .RenderTextClipped _ _ _ _ => true
  | .AddRectFilled _ _ _ => true
  | .AddRect _ _ _ => true
  | .AddText _ _ _ => true
  | _ => false

/-- The log entry is a button-behaviour query. -/
def Event.isButtonBehavior : Event → Bool
  | .ButtonBehavior _ _ _ _ _ _ => true
  | _ => false

/-- The log entry is a slider call. -/
def Event.isSlider : Event → Bool
  | .SliderFloat _ _ _ _ _ _ _ _ => true
  | _ => false

/-- The log entry is a checkbox call. -/
def Event.isCheckbox : Event → Bool
  | .Checkbox _ _ _ _ => true
  | _ => false

/-- The log entry is a colour-editor call. -/
def Event.isColorEdit : Event → Bool
  | .ColorEdit3 _ _ _ _ _ => true
  | _ => false

/-- The log entry is a button call. -/
def Event.isButton : Event → Bool
  | .Button _ _ => true
  | _ => false

/-- The flag the toolkit returned for a value-editing call (`false` for calls that
return nothing). -/
def Event.reported : Event → Bool
  | .Checkbox _ _ c _ => c
  | .ColorEdit3 _ _ _ c _ => c
  | .SliderFloat _ _ _ _ _ _ c _ => c
  | .Button _ p => p
  | _ => false

/-- The calls a shim function made: what it appended to the log `before`. -/
def issued (before : List Event) (w : World σ) : List Event :=
  w.log.drop before.length

end ImGui

namespace edited

open ImGui

variable {σ : Type}

/-- Result of `edited::CheckboxPicker`: the returned flag, `*v` and `col` on return. -/
structure PickerResult where
  changed : Bool
  v : Bool
  col : Color3

/-- Model of `edited::CheckboxPicker` (imgui_edited_simple.cpp, lines 60-70).  The
local `color_with_alpha` is initialised and never read. -/
def CheckboxPicker (T : Toolkit σ) (label : String) (v : Bool) (col : Color3) (flags : Nat)
    (w : World σ) : PickerResult × World σ :=
  let changed := false
  let r1 := ImGui.Checkbox T label v w
  let changed := changed || r1.1.changed
  let w := ImGui.SameLine T r1.2
  let _color_with_alpha : ℚ × ℚ × ℚ × ℚ := (col.1, col.2.1, col.2.2, 1)
  let r2 := ImGui.ColorEdit3 T "##color" col flags w
  let changed := changed || r2.1.changed
  (⟨changed, r1.1.out, r2.1.out⟩, r2.2)

/-- Result of `edited::CheckboxDoublePicker`. -/
structure DoublePickerResult where
  changed : Bool
  v : Bool
  col1 : Color3
  col2 : Color3

/-- Model of `edited::CheckboxDoublePicker` (imgui_edited_simple.cpp, lines 72-82). -/
def CheckboxDoublePicker (T : Toolkit σ) (label : String) (v : Bool) (col1 col2 : Color3)
    (flags : Nat) (w : World σ) : DoublePickerResult × World σ :=
  let changed := false
  let r1 := ImGui.Checkbox T label v w
  let changed := changed || r1.1.changed
  let w := ImGui.SameLine T r1.2
  let r2 := ImGui.ColorEdit3 T "##color1" col1 flags w
  let changed := changed || r2.1.changed
  let w := ImGui.SameLine T r2.2
  let r3 := ImGui.ColorEdit3 T "##color2" col2 flags w
  let changed := changed || r3.1.changed
  (⟨changed, r1.1.out, r2.1.out, r3.1.out⟩, r3.2)

/-- Result of `edited::RangeSliderFloat`: the returned flag, `*v1` and `*v2` on return. -/
structure RangeResult where
  changed : Bool
  v1 : ℚ
  v2 : ℚ

/-- Model of `edited::RangeSliderFloat` (imgui_edited_simple.cpp, lines 92-99).  The
parameter `power` is not used by the body; the sliders get the default flags 0. -/
def RangeSliderFloat (T : Toolkit σ) (label : String) (v1 v2 v_min v_max : ℚ)
    (display_format : String) (_power : ℚ) (w : World σ) : RangeResult × World σ :=
  let changed := false
  let w := ImGui.Text T label w
  let r1 := ImGui.SliderFloat T "##min" v1 v_min v_max display_format 0 w
  let changed := changed || r1.1.changed
  let w := ImGui.SameLine T r1.2
  let r2 := ImGui.SliderFloat T "##max" v2 v_min v_max display_format 0 w
  let changed := changed || r2.1.changed
  (⟨changed, r1.1.out, r2.1.out⟩, r2.2)

/-- Model of `edited::Keybind` (imgui_edited_simple.cpp, lines 148-175): the returned
flag and `*key` on return. -/
def Keybind (T : Toolkit σ) (label : String) (key : Int) (show_label : Bool) (w : World σ) :
    Ret Int × World σ :=
  let changed := false
  let w := if show_label then ImGui.SameLine T (ImGui.Text T label w) else w
  let r := ImGui.Button T (key_name key) w
  let changed := if r.1 then true else changed
  (⟨changed, key⟩, r.2)

/-- Model of `edited::BeginChild` (lines 8-10). -/
def BeginChild (T : Toolkit σ) (str_id : String) (size : ImVec2)
    (child_flags window_flags : Nat) (w : World σ) : Bool × World σ :=
  ImGui.BeginChild T str_id size child_flags window_flags w

/-- Model of `edited::EndChild` (lines 12-14). -/
def EndChild (T : Toolkit σ) (w : World σ) : World σ :=
  ImGui.EndChild T w

/-- Model of `edited::Tab` (lines 16-48); `icon` may be a null pointer. -/
def Tab (T : Toolkit σ) (selected : Bool) (id : Nat) (icon : Option String)
    (size_arg : ImVec2) (w : World σ) : Bool × World σ :=
  if T.SkipItems w.tk then (false, w)
  else
    let buttonId := T.GetID_int id w.tk
    let pos := T.CursorPos w.tk
    let bb : ImRect := { Min := pos, Max := vadd pos size_arg }
    let w := ImGui.ItemSize T bb w
    let r := ImGui.ItemAdd T bb buttonId w
    if !r.1 then (false, r.2)
    else
      let b := ImGui.ButtonBehavior T bb buttonId T.ImGuiButtonFlags_None r.2
      let col := T.GetColorU32
        (if selected then ImGuiCol.ButtonActive
         else if b.1.hovered then ImGuiCol.ButtonHovered else ImGuiCol.Button) b.2.tk
      let w := ImGui.RenderNavHighlight T bb buttonId b.2
      let w := ImGui.RenderFrame T bb.Min bb.Max col true (T.FrameRounding w.tk) w
      let w := match icon with
        | some text =>
          if text ≠ "" then
            let text_size := T.CalcTextSize text w.tk
            let text_pos := vadd bb.Min (vscale (vsub bb.GetSize text_size) (1 / 2))
            ImGui.RenderText T text_pos text w
          else w
        | none => w
      (b.1.pressed, w)

/-- Model of `edited::Checkbox` (lines 50-52). -/
def Checkbox (T : Toolkit σ) (label : String) (v : Bool) (w : World σ) : Ret Bool × World σ :=
  ImGui.Checkbox T label v w

/-- Model of `edited::CheckboxClicked` (lines 54-58): the value on return. -/
def CheckboxClicked (T : Toolkit σ) (label : String) (v : Bool) (w : World σ) :
    Bool × World σ :=
  let r := ImGui.Checkbox T label v w
  (r.1.out, r.2)

/-- Model of `edited::SliderInt` (lines 84-86). -/
def SliderInt (T : Toolkit σ) (label : String) (v v_min v_max : Int) (format : String)
    (flags : Nat) (w : World σ) : Ret Int × World σ :=
  ImGui.SliderInt T label v v_min v_max format flags w

/-- Model of `edited::SliderFloat` (lines 88-90). -/
def SliderFloat (T : Toolkit σ) (label : String) (v v_min v_max : ℚ) (format : String)
    (flags : Nat) (w : World σ) : Ret ℚ × World σ :=
  ImGui.SliderFloat T label v v_min v_max format flags w

/-- Model of `edited::ColorEdit4` (lines 101-103). -/
def ColorEdit4 (T : Toolkit σ) (label : String) (col : Color4) (flags : Nat) (w : World σ) :
    Ret Color4 × World σ :=
  ImGui.ColorEdit4 T label col flags w

/-- Model of `edited::ColorPicker4` (lines 105-107); `ref_col` may be null. -/
def ColorPicker4 (T : Toolkit σ) (label : String) (col : Color4) (flags : Nat)
    (ref_col : Option Color4) (w : World σ) : Ret Color4 × World σ :=
  ImGui.ColorPicker4 T label col flags ref_col w

/-- Model of `edited::ColorButton` (lines 109-111). -/
def ColorButton (T : Toolkit σ) (desc_id : String) (col : Color4) (flags : Nat)
    (size : ImVec2) (w : World σ) : Bool × World σ :=
  ImGui.ColorButton T desc_id col flags size w

/-- Model of `edited::Selectable` with `selected` by value (lines 113-115). -/
def Selectable (T : Toolkit σ) (label : String) (selected : Bool) (flags : Nat)
    (size : ImVec2) (w : World σ) : Bool × World σ :=
  ImGui.Selectable T label selected flags size w

/-- Model of `edited::Selectable` with a pointer `p_selected` (lines 117-119). -/
def SelectablePtr (T : Toolkit σ) (label : String) (p_selected : Bool) (flags : Nat)
    (size : ImVec2) (w : World σ) : Ret Bool × World σ :=
  ImGui.SelectablePtr T label p_selected flags size w

/-- Model of `edited::BeginCombo` (lines 121-123); `val` and `multi` are not used. -/
def BeginCombo (T : Toolkit σ) (label preview_value : String) (_val : Int) (_multi : Bool)
    (flags : Nat) (w : World σ) : Bool × World σ :=
  ImGui.BeginCombo T label preview_value flags w

/-- Model of `edited::EndCombo` (lines 125-127). -/
def EndCombo (T : Toolkit σ) (w : World σ) : World σ :=
  ImGui.EndCombo T w

/-- The loop of `edited::MultiCombo` (lines 131-133) with `n` iterations left and
loop flagArray `i`; the arrays are memory indexed from their base pointers, `flagArray` being the
parameter `variable`. -/
def MultiCombo.loop (T : Toolkit σ) (labels : Nat → String) :
    Nat → Nat → (Nat → Bool) → World σ → (Nat → Bool) × World σ
  | 0, _, flagArray, w => (flagArray, w)
  | n + 1, i, flagArray, w =>
    let r := ImGui.SelectablePtr T (labels i) (flagArray i)
      T.ImGuiSelectableFlags_DontClosePopups (0, 0) w
    MultiCombo.loop T labels n (i + 1) (Function.update flagArray i r.1.out) r.2

/-- Model of `edited::MultiCombo` (lines 129-136): the flag array on return. -/
def MultiCombo (T : Toolkit σ) (label : String) (flagArray : Nat → Bool)
    (labels : Nat → String) (count : Int) (w : World σ) : (Nat → Bool) × World σ :=
  let r := ImGui.BeginCombo T label "Multi Select" 0 w
  if r.1 then
    let l := MultiCombo.loop T labels count.toNat 0 flagArray r.2
    (l.1, ImGui.EndCombo T l.2)
  else (flagArray, r.2)

/-- Model of `edited::Combo` (lines 138-140). -/
def Combo (T : Toolkit σ) (label : String) (current_item : Int) (items : List String)
    (items_count popup_max_height_in_items : Int) (w : World σ) : Ret Int × World σ :=
  ImGui.Combo T label current_item items items_count popup_max_height_in_items w

/-- Model of `edited::TextCenter` (lines 142-146). -/
def TextCenter (T : Toolkit σ) (p_min p_max : ImVec2) (col : Nat) (text : String)
    (align : ImVec2) (w : World σ) : World σ :=
  let w := ImGui.PushStyleColor T ImGuiCol.Text col w
  let w := ImGui.RenderTextClipped T p_min p_max text align w
  ImGui.PopStyleColor T w

/-- Model of `edited::icon_box` (lines 177-206); `icon` may be a null pointer. -/
def icon_box (T : Toolkit σ) (icon : Option String) (size : ImVec2)
    (color_bg color_icon color_border : Nat) (w : World σ) : Bool × World σ :=
  if T.SkipItems w.tk then (false, w)
  else
    let pos := T.CursorPos w.tk
    let bb : ImRect := { Min := pos, Max := vadd pos size }
    let w := ImGui.ItemSize T bb w
    let r := ImGui.ItemAdd T bb 0 w
    if !r.1 then (false, r.2)
    else
      let b := ImGui.ButtonBehavior T bb (T.GetID_str icon r.2.tk) 0 r.2
      let w := ImGui.AddRectFilled T bb.Min bb.Max color_bg b.2
      let w := ImGui.AddRect T bb.Min bb.Max color_border w
      let w := match icon with
        | some text =>
          if text ≠ "" then
            let text_size := T.CalcTextSize text w.tk
            let text_pos := vadd bb.Min (vscale (vsub bb.GetSize text_size) (1 / 2))
            ImGui.AddText T text_pos color_icon text w
          else w
        | none => w
      (b.1.pressed, w)

/-- Model of `edited::color_button` (lines 208-210). -/
def color_button (T : Toolkit σ) (name : Option String) (size : ImVec2) (color_bg : Nat)
    (w : World σ) : Bool × World σ :=
  icon_box T name size color_bg T.IM_COL32_WHITE T.IM_COL32_BLACK w

/-- The memory `edited::esp_preview` reaches through its arguments: the texture
handle, ten nullable flag pointers (`hp` points to an `int`) and ten colours. -/
structure EspArgs where
  player_preview : Nat
  nickname : Option Bool
  nick_color : Color4
  weapon : Option Bool
  weapon_color : Color4
  hp : Option Int
  hp_color : Color4
  zoom : Option Bool
  zoom_color : Color4
  bomb : Option Bool
  bomb_color : Color4
  c4 : Option Bool
  c4_color : Color4
  money : Option Bool
  money_color : Color4
  hit : Option Bool
  hit_color : Color4
  esp_box : Option Bool
  box_color : Color4
  hp_line : Option Bool
  hp_line_color : Color4
  deriving DecidableEq

/-- Model of `edited::esp_preview` (lines 212-235): the argument memory on return
and the toolkit calls.  The third argument `true` of `BeginChild` converts to the
child flag 1; the window flags take their default 0. -/
def esp_preview (T : Toolkit σ) (a : EspArgs) (w : World σ) : EspArgs × World σ :=
  let w := (ImGui.BeginChild T "ESP Preview" (200, 300) 1 0 w).2
  let w := ImGui.Text T "ESP Preview" w
  let w := ImGui.Separator T w
  let w := if a.nickname = some true then ImGui.TextColored T a.nick_color "Player Name" w
    else w
  let w := if a.weapon = some true then ImGui.TextColored T a.weapon_color "AK-47" w else w
  let w := match a.hp with
    | some n => if n > 0 then ImGui.TextColored T a.hp_color ("HP: " ++ sprintf_d n) w else w
    | none => w
  (a, ImGui.EndChild T w)

end edited

/-! ### The C-linkage wrappers and their stub substitutes -/

/-! Models of the functions of ragnarek_wrapper.cpp (lines 35-146).  Flag words are
32-bit patterns on both sides of each call. -/

namespace wrapper

open ImGui

variable {σ : Type}

/-- Model of `ragnarek_begin_child` (lines 37-39). -/
def ragnarek_begin_child (T : Toolkit σ) (name : String) (size_x size_y : ℚ)
    (child_flags window_flags : Nat) (w : World σ) : Bool × World σ :=
  edited.BeginChild T name (size_x, size_y) child_flags window_flags w

/-- Model of `ragnarek_end_child` (lines 41-43). -/
def ragnarek_end_child (T : Toolkit σ) (w : World σ) : World σ :=
  edited.EndChild T w

/-- Model of `ragnarek_tab` (lines 46-48). -/
def ragnarek_tab (T : Toolkit σ) (selected : Bool) (id : Nat) (icon : Option String)
    (size_x size_y : ℚ) (w : World σ) : Bool × World σ :=
  edited.Tab T selected id icon (size_x, size_y) w

/-- Model of `ragnarek_checkbox` (lines 51-53). -/
def ragnarek_checkbox (T : Toolkit σ) (label : String) (value : Bool) (w : World σ) :
    Ret Bool × World σ :=
  edited.Checkbox T label value w

/-- Model of `ragnarek_checkbox_clicked` (lines 55-57). -/
def ragnarek_checkbox_clicked (T : Toolkit σ) (label : String) (value : Bool) (w : World σ) :
    Bool × World σ :=
  edited.CheckboxClicked T label value w

/-- Model of `ragnarek_checkbox_picker` (lines 59-61). -/
def ragnarek_checkbox_picker (T : Toolkit σ) (label : String) (value : Bool) (color : Color3)
    (flags : Nat) (w : World σ) : edited.PickerResult × World σ :=
  edited.CheckboxPicker T label value color flags w

/-- Model of `ragnarek_checkbox_double_picker` (lines 63-65). -/
def ragnarek_checkbox_double_picker (T : Toolkit σ) (label : String) (value : Bool)
    (color1 color2 : Color3) (flags : Nat) (w : World σ) :
    edited.DoublePickerResult × World σ :=
  edited.CheckboxDoublePicker T label value color1 color2 flags w

/-- Model of `ragnarek_slider_int` (lines 68-70). -/
def ragnarek_slider_int (T : Toolkit σ) (label : String) (value min max : Int)
    (format : String) (flags : Nat) (w : World σ) : Ret Int × World σ :=
  edited.SliderInt T label value min max format flags w

/-- Model of `ragnarek_slider_float` (lines 72-74). -/
def ragnarek_slider_float (T : Toolkit σ) (label : String) (value min max : ℚ)
    (format : String) (flags : Nat) (w : World σ) : Ret ℚ × World σ :=
  edited.SliderFloat T label value min max format flags w

/-- Model of `ragnarek_range_slider_float` (lines 76-78). -/
def ragnarek_range_slider_float (T : Toolkit σ) (label : String) (v1 v2 min max : ℚ)
    (format : String) (power : ℚ) (w : World σ) : edited.RangeResult × World σ :=
  edited.RangeSliderFloat T label v1 v2 min max format power w

/-- Model of `ragnarek_color_edit4` (lines 81-83). -/
def ragnarek_color_edit4 (T : Toolkit σ) (label : String) (color : Color4) (flags : Nat)
    (w : World σ) : Ret Color4 × World σ :=
  edited.ColorEdit4 T label color flags w

/-- Model of `ragnarek_color_picker4` (lines 85-87). -/
def ragnarek_color_picker4 (T : Toolkit σ) (label : String) (color : Color4) (flags : Nat)
    (ref_color : Option Color4) (w : World σ) : Ret Color4 × World σ :=
  edited.ColorPicker4 T label color flags ref_color w

/-- Model of `ragnarek_color_button` (lines 89-91): the four floats behind `color`
are read into an `ImVec4`. -/
def ragnarek_color_button (T : Toolkit σ) (desc_id : String) (color : Color4) (flags : Nat)
    (size_x size_y : ℚ) (w : World σ) : Bool × World σ :=
  edited.ColorButton T desc_id (color.1, color.2.1, color.2.2.1, color.2.2.2) flags
    (size_x, size_y) w

/-- Model of `ragnarek_selectable` (lines 94-96). -/
def ragnarek_selectable (T : Toolkit σ) (label : String) (selected : Bool) (flags : Nat)
    (size_x size_y : ℚ) (w : World σ) : Bool × World σ :=
  edited.Selectable T label selected flags (size_x, size_y) w

/-- Model of `ragnarek_selectable_ptr` (lines 98-100). -/
def ragnarek_selectable_ptr (T : Toolkit σ) (label : String) (selected : Bool) (flags : Nat)
    (size_x size_y : ℚ) (w : World σ) : Ret Bool × World σ :=
  edited.SelectablePtr T label selected flags (size_x, size_y) w

/-- Model of `ragnarek_begin_combo` (lines 103-105). -/
def ragnarek_begin_combo (T : Toolkit σ) (label preview_value : String) (val : Int)
    (multi : Bool) (flags : Nat) (w : World σ) : Bool × World σ :=
  edited.BeginCombo T label preview_value val multi flags w

/-- Model of `ragnarek_end_combo` (lines 107-109). -/
def ragnarek_end_combo (T : Toolkit σ) (w : World σ) : World σ :=
  edited.EndCombo T w

/-- Model of `ragnarek_multi_combo` (lines 111-113). -/
def ragnarek_multi_combo (T : Toolkit σ) (label : String) (flagArray : Nat → Bool)
    (labels : Nat → String) (count : Int) (w : World σ) : (Nat → Bool) × World σ :=
  edited.MultiCombo T label flagArray labels count w

/-- Model of `ragnarek_combo_array` (lines 115-117). -/
def ragnarek_combo_array (T : Toolkit σ) (label : String) (current_item : Int)
    (items : List String) (items_count popup_max_height : Int) (w : World σ) :
    Ret Int × World σ :=
  edited.Combo T label current_item items items_count popup_max_height w

/-- Model of `ragnarek_keybind` (lines 120-122). -/
def ragnarek_keybind (T : Toolkit σ) (label : String) (key : Int) (show_label : Bool)
    (w : World σ) : Ret Int × World σ :=
  edited.Keybind T label key show_label w

/-- Model of `ragnarek_text_center` (lines 125-127). -/
def ragnarek_text_center (T : Toolkit σ) (p_min_x p_min_y p_max_x p_max_y : ℚ) (color : Nat)
    (text : String) (align_x align_y : ℚ) (w : World σ) : World σ :=
  edited.TextCenter T (p_min_x, p_min_y) (p_max_x, p_max_y) color text (align_x, align_y) w

/-- Model of `ragnarek_icon_box` (lines 129-131). -/
def ragnarek_icon_box (T : Toolkit σ) (icon : Option String) (size_x size_y : ℚ)
    (color_bg color_icon color_border : Nat) (w : World σ) : Bool × World σ :=
  edited.icon_box T icon (size_x, size_y) color_bg color_icon color_border w

/-- Model of `ragnarek_color_button_simple` (lines 133-135). -/
def ragnarek_color_button_simple (T : Toolkit σ) (name : Option String) (size_x size_y : ℚ)
    (color_bg : Nat) (w : World σ) : Bool × World σ :=
  edited.color_button T name (size_x, size_y) color_bg w

/-- Model of `ragnarek_esp_preview` (lines 138-145); the cast of `player_preview` to
`ImTextureID` keeps the pointer value. -/
def ragnarek_esp_preview (T : Toolkit σ) (a : edited.EspArgs) (w : World σ) :
    edited.EspArgs × World σ :=
  edited.esp_preview T a w

end wrapper

/-! Models of the functions of standalone_ragnarek.cpp (lines 5-123).  The file
includes no toolkit header; each function gets the call log only to hand it back,
and returns, next to its C return value, the memory behind its pointer arguments. -/

namespace stub

open ImGui

variable {σ : Type}

/-- Model of the stub `ragnarek_begin_child` (lines 6-9). -/
def ragnarek_begin_child (_name : String) (_size_x _size_y : ℚ)
    (_child_flags _window_flags : Nat) (w : World σ) : Bool × World σ :=
  (true, w)

/-- Model of the stub `ragnarek_end_child` (lines 11-13). -/
def ragnarek_end_child (w : World σ) : World σ := w

/-- Model of the stub `ragnarek_tab` (lines 15-18). -/
def ragnarek_tab (selected : Bool) (_id : Nat) (_icon : Option String) (_size_x _size_y : ℚ)
    (w : World σ) : Bool × World σ :=
  (selected, w)

/-- Model of the stub `ragnarek_checkbox` (lines 20-23). -/
def ragnarek_checkbox (_label : String) (value : Bool) (w : World σ) : Ret Bool × World σ :=
  (⟨false, value⟩, w)

/-- Model of the stub `ragnarek_checkbox_clicked` (lines 25-27). -/
def ragnarek_checkbox_clicked (_label : String) (value : Bool) (w : World σ) :
    Bool × World σ :=
  (value, w)

/-- Model of the stub `ragnarek_checkbox_picker` (lines 29-32). -/
def ragnarek_checkbox_picker (_label : String) (value : Bool) (color : Color3) (_flags : Nat)
    (w : World σ) : edited.PickerResult × World σ :=
  (⟨false, value, color⟩, w)

/-- Model of the stub `ragnarek_checkbox_double_picker` (lines 34-37). -/
def ragnarek_checkbox_double_picker (_label : String) (value : Bool) (color1 color2 : Color3)
    (_flags : Nat) (w : World σ) : edited.DoublePickerResult × World σ :=
  (⟨false, value, color1, color2⟩, w)

/-- Model of the stub `ragnarek_slider_int` (lines 39-42). -/
def ragnarek_slider_int (_label : String) (value _min _max : Int) (_format : String)
    (_flags : Nat) (w : World σ) : Ret Int × World σ :=
  (⟨false, value⟩, w)

/-- Model of the stub `ragnarek_slider_float` (lines 44-47). -/
def ragnarek_slider_float (_label : String) (value _min _max : ℚ) (_format : String)
    (_flags : Nat) (w : World σ) : Ret ℚ × World σ :=
  (⟨false, value⟩, w)

/-- Model of the stub `ragnarek_range_slider_float` (lines 49-52). -/
def ragnarek_range_slider_float (_label : String) (v1 v2 _min _max : ℚ) (_format : String)
    (_power : ℚ) (w : World σ) : edited.RangeResult × World σ :=
  (⟨false, v1, v2⟩, w)

/-- Model of the stub `ragnarek_color_edit4` (lines 54-57). -/
def ragnarek_color_edit4 (_label : String) (color : Color4) (_flags : Nat) (w : World σ) :
    Ret Color4 × World σ :=
  (⟨false, color⟩, w)

/-- Model of the stub `ragnarek_color_picker4` (lines 59-62). -/
def ragnarek_color_picker4 (_label : String) (color : Color4) (_flags : Nat)
    (_ref_color : Option Color4) (w : World σ) : Ret Color4 × World σ :=
  (⟨false, color⟩, w)

/-- Model of the stub `ragnarek_color_button` (lines 64-67). -/
def ragnarek_color_button (_desc_id : String) (color : Color4) (_flags : Nat)
    (_size_x _size_y : ℚ) (w : World σ) : Ret Color4 × World σ :=
  (⟨false, color⟩, w)

/-- Model of the stub `ragnarek_selectable` (lines 69-72). -/
def ragnarek_selectable (_label : String) (selected : Bool) (_flags : Nat)
    (_size_x _size_y : ℚ) (w : World σ) : Bool × World σ :=
  (selected, w)

/-- Model of the stub `ragnarek_selectable_ptr` (lines 74-77). -/
def ragnarek_selectable_ptr (_label : String) (selected : Bool) (_flags : Nat)
    (_size_x _size_y : ℚ) (w : World σ) : Ret Bool × World σ :=
  (⟨false, selected⟩, w)

/-- Model of the stub `ragnarek_begin_combo` (lines 79-82). -/
def ragnarek_begin_combo (_label _preview_value : String) (_val : Int) (_multi : Bool)
    (_flags : Nat) (w : World σ) : Bool × World σ :=
  (false, w)

/-- Model of the stub `ragnarek_end_combo` (lines 84-86). -/
def ragnarek_end_combo (w : World σ) : World σ := w

/-- Model of the stub `ragnarek_multi_combo` (lines 88-90). -/
def ragnarek_multi_combo (_label : String) (flagArray : Nat → Bool) (_labels : Nat → String)
    (_count : Int) (w : World σ) : (Nat → Bool) × World σ :=
  (flagArray, w)

/-- Model of the stub `ragnarek_combo_array` (lines 92-95). -/
def ragnarek_combo_array (_label : String) (current_item : Int) (_items : List String)
    (_items_count _popup_max_height : Int) (w : World σ) : Ret Int × World σ :=
  (⟨false, current_item⟩, w)

/-- Model of the stub `ragnarek_keybind` (lines 97-100). -/
def ragnarek_keybind (_label : String) (key : Int) (_show_label : Bool) (w : World σ) :
    Ret Int × World σ :=
  (⟨false, key⟩, w)

/-- Model of the stub `ragnarek_text_center` (lines 102-104). -/
def ragnarek_text_center (_p_min_x _p_min_y _p_max_x _p_max_y : ℚ) (_color : Nat)
    (_text : String) (_align_x _align_y : ℚ) (w : World σ) : World σ := w

/-- Model of the stub `ragnarek_icon_box` (lines 106-109). -/
def ragnarek_icon_box (_icon : Option String) (_size_x _size_y : ℚ)
    (_color_bg _color_icon _color_border : Nat) (w : World σ) : Bool × World σ :=
  (false, w)

/-- Model of the stub `ragnarek_color_button_simple` (lines 111-114). -/
def ragnarek_color_button_simple (_name : Option String) (_size_x _size_y : ℚ)
    (_color_bg : Nat) (w : World σ) : Bool × World σ :=
  (false, w)

/-- Model of the stub `ragnarek_esp_preview` (lines 116-121). -/
def ragnarek_esp_preview (a : edited.EspArgs) (w : World σ) : edited.EspArgs × World σ :=
  (a, w)

end stub

/-- A toolkit session in which the user does nothing: every item is added, no widget
changes its value or reports anything, text has no extent and the cursor is at the
origin.  The header constants have the values of imgui.h. -/
def quietToolkit : ImGui.Toolkit Unit where
  Text := fun _ s => s
  SameLine := fun s => s
  Checkbox := fun _ v s => ((false, v), s)
  ColorEdit3 := fun _ col _ s => ((false, col), s)
  SliderFloat := fun _ v _ _ _ _ s => ((false, v), s)
  Button := fun _ s => (false, s)
  BeginChild := fun _ _ _ _ s => (true, s)
  EndChild := fun s => s
  SliderInt := fun _ v _ _ _ _ s => ((false, v), s)
  ColorEdit4 := fun _ col _ s => ((false, col), s)
  ColorPicker4 := fun _ col _ _ s => ((false, col), s)
  ColorButton := fun _ _ _ _ s => (false, s)
  Selectable := fun _ _ _ _ s => (false, s)
  SelectablePtr := fun _ v _ _ s => ((false, v), s)
  BeginCombo := fun _ _ _ s => (false, s)
  EndCombo := fun s => s
  Combo := fun _ i _ _ _ s => ((false, i), s)
  PushStyleColor := fun _ _ s => s
  PopStyleColor := fun s => s
  RenderTextClipped := fun _ _ _ _ s => s
  Separator := fun s => s
  TextColored := fun _ _ s => s
  ItemSize := fun _ s => s
  ItemAdd := fun _ _ s => (true, s)
  ButtonBehavior := fun _ _ _ s => (⟨false, false, false⟩, s)
  RenderNavHighlight := fun _ _ s => s
  RenderFrame := fun _ _ _ _ _ s => s
  RenderText := fun _ _ s => s
  AddRectFilled := fun _ _ _ s => s
  AddRect := fun _ _ _ s => s
  AddText := fun _ _ _ s => s
  SkipItems := fun _ => false
  CursorPos := fun _ => (0, 0)
  FrameRounding := fun _ => 0
  GetID_int := fun n _ => n
  GetID_str := fun _ _ => 0
  GetColorU32 := fun _ _ => 0
  CalcTextSize := fun _ _ => (0, 0)
  ImGuiButtonFlags_None := 0
  ImGuiSelectableFlags_DontClosePopups := 1
  IM_COL32_WHITE := 0xFFFFFFFF
  IM_COL32_BLACK := 0xFF000000

/-- A toolkit session in which the user drags the slider labelled `##min` to the
right end of its range and touches nothing else: that slider stores `v_max` and
reports a change, every other widget leaves its value and reports none. -/
def dragMinToEnd : ImGui.Toolkit Unit :=
  { quietToolkit with
    SliderFloat := fun label v _ v_max _ _ s =>
      if label = "##min" then ((true, v_max), s) else ((false, v), s) }

/-! ### Single-precision arithmetic

The `float` of main.cpp is IEEE-754 binary32, computed one operation at a time.  A
finite value is a rational number; an operation computes the exact result and rounds
it to the nearest binary32 value, ties going to the even significand.  The exponent
range is left unbounded above: a result beyond the largest finite value stands for an
infinity, which a comparison against the bounds 0 and 1 treats like any other value
outside them.  NaN has no counterpart here. -/

namespace Binary32

/-- Nearest integer, a tie going to the even neighbour. -/
def roundHalfEven (q : ℚ) : ℤ :=
  if q - ⌊q⌋ < 1 / 2 then ⌊q⌋
  else if 1 / 2 < q - ⌊q⌋ then ⌊q⌋ + 1
  else if ⌊q⌋ % 2 = 0 then ⌊q⌋ else ⌊q⌋ + 1

/-- Exponent of the spacing of the binary32 values around `x`: 24 significant bits
in the normal range, the fixed spacing 2^-149 in the subnormal range. -/
def ulpExp (x : ℚ) : ℤ := max (-149) (Int.log 2 |x| - 23)

/-- The stored result of a binary32 operation whose exact result is `x`. -/
def roundNearest (x : ℚ) : ℚ := roundHalfEven (x / 2 ^ ulpExp x) * 2 ^ ulpExp x

/-- The largest finite binary32 value, `FLT_MAX`. -/
def maxFinite : ℚ := 2 ^ 128 - 2 ^ 104

/-- The rational `x` is a finite binary32 value. -/
def IsFloat32 (x : ℚ) : Prop := roundNearest x = x ∧ |x| ≤ maxFinite

end Binary32

/-! ### Tab fade of the frame layout driver -/

namespace Bootstrap

/-- Modelled from the spec: `ImClamp` is the toolkit's clamp (imgui_internal.h, not
part of this repository), `(v < mn) ? mn : (v > mx) ? mx : v`; the spec words it as
"clamped to [0.0, 1.0]". -/
def ImClamp (v mn mx : ℚ) : ℚ :=
  if v < mn then mn else if v > mx then mx else v

/-- The file-scope statics of main.cpp line 89. -/
structure TabFade where
  tab_alpha : ℚ
  tab_add : ℚ
  active_tab : Int
  deriving DecidableEq

/-- Initial values: `tab_alpha = 0.f`, `tab_add` zero-initialised, `active_tab = 0`. -/
def TabFade.init : TabFade := { tab_alpha := 0, tab_add := 0, active_tab := 0 }

/-- The fade update of one frame (main.cpp, lines 240-241), for the selected `page`
and the elapsed time `DeltaTime` reported by the toolkit, with the products and the
sum taken exactly; `fadeUpdate32` below rounds them as the `float` code does. -/
def fadeUpdate (s : TabFade) (page : Int) (DeltaTime : ℚ) : TabFade :=
  let tab_alpha :=
    ImClamp (s.tab_alpha + (4 * DeltaTime * (if page = s.active_tab then 1 else -1))) 0 1
  let active_tab := if tab_alpha = 0 ∧ s.tab_add = 0 then page else s.active_tab
  { tab_alpha := tab_alpha, tab_add := s.tab_add, active_tab := active_tab }

/-- The fade state after a sequence of frames, each given by its selected page and
its elapsed time. -/
def runFrames (s : TabFade) : List (Int × ℚ) → TabFade
  | [] => s
  | f :: rest => runFrames (fadeUpdate s f.1 f.2) rest

/-- The fade update of one frame (main.cpp, lines 240-241) in the arithmetic of the
code: `tab_alpha`, `DeltaTime` and the literals `4.f`, `1.f`, `-1.f` are `float`, so
`4.f * DeltaTime`, its product with the sign and the sum with `tab_alpha` are each
rounded to binary32 before `ImClamp` compares the sum with `0.f` and `1.f`. -/
def fadeUpdate32 (s : TabFade) (page : Int) (DeltaTime : ℚ) : TabFade :=
  let step := Binary32.roundNearest
    (Binary32.roundNearest (4 * DeltaTime) * (if page = s.active_tab then 1 else -1))
  let tab_alpha := ImClamp (Binary32.roundNearest (s.tab_alpha + step)) 0 1
  let active_tab := if tab_alpha = 0 ∧ s.tab_add = 0 then page else s.active_tab
  { tab_alpha := tab_alpha, tab_add := s.tab_add, active_tab := active_tab }

/-- The fade state after a sequence of frames in binary32 arithmetic, each frame
given by its selected page and its elapsed time. -/
def runFrames32 (s : TabFade) : List (Int × ℚ) → TabFade
  | [] => s
  | f :: rest => runFrames32 (fadeUpdate32 s f.1 f.2) rest

/-- The elapsed time of one frame at 60 Hz as the code sees it: the binary32 value of
`1.0f / 60`, 8947849 * 2^-29. -/
def sixtyHertz : ℚ := 8947849 / 536870912

end Bootstrap

/-! ### The C-linkage boundary -/

namespace Boundary

/-- C types occurring in the prototypes of the boundary, as written in the source. -/
inductive CType
  | void | bool | char | int | float | uint32_t
  | const (t : CType)
  | ptr (t : CType)
  | array (t : CType) (size : Option Nat)
  deriving DecidableEq

/-- One function of the boundary: its symbol name, return type and parameter
types in order. -/
structure Signature where
  name : String
  ret : CType
  params : List CType
  deriving DecidableEq

/-- Type of a parameter after the adjustment the language applies to parameter
declarations: an array of `t` is a pointer to `t`. -/
def CType.adjust : CType → CType
  | .array t _ => .ptr t
  | t => t

/-- The function type a declaration gives its symbol: return type and adjusted
parameter types. -/
def Signature.type (s : Signature) : CType × List CType :=
  (s.ret, s.params.map CType.adjust)

/-- Symbol names a file declares or defines, in file order. -/
def names (f : List Signature) : List String :=
  f.map fun s => s.name

/-- The function type a file gives the symbol `n`, if it mentions it. -/
def typeOf (f : List Signature) (n : String) : Option (CType × List CType) :=
  (f.find? fun s => s.name == n).map Signature.type

/-- Prototypes declared by wrapper.h (lines 10-55), in file order. -/
def wrapper_h : List Signature :=
  [⟨"ragnarek_begin_child", .bool, [.ptr (.const .char), .float, .float, .uint32_t, .uint32_t]⟩,
   ⟨"ragnarek_end_child", .void, []⟩,
   ⟨"ragnarek_tab", .bool, [.bool, .uint32_t, .ptr (.const .char), .float, .float]⟩,
   ⟨"ragnarek_checkbox", .bool, [.ptr (.const .char), .ptr .bool]⟩,
   ⟨"ragnarek_checkbox_clicked", .void, [.ptr (.const .char), .ptr .bool]⟩,
   ⟨"ragnarek_checkbox_picker", .bool, [.ptr (.const .char), .ptr .bool, .array .float (some 3), .uint32_t]⟩,
   ⟨"ragnarek_checkbox_double_picker", .bool, [.ptr (.const .char), .ptr .bool, .array .float (some 3), .array .float (some 3), .uint32_t]⟩,
   ⟨"ragnarek_slider_int", .bool, [.ptr (.const .char), .ptr .int, .int, .int, .ptr (.const .char), .uint32_t]⟩,
   ⟨"ragnarek_slider_float", .bool, [.ptr (.const .char), .ptr .float, .float, .float, .ptr (.const .char), .uint32_t]⟩,
   ⟨"ragnarek_range_slider_float", .bool, [.ptr (.const .char), .ptr .float, .ptr .float, .float, .float, .ptr (.const .char), .float]⟩,
   ⟨"ragnarek_color_edit4", .bool, [.ptr (.const .char), .array .float (some 4), .uint32_t]⟩,
   ⟨"ragnarek_color_picker4", .bool, [.ptr (.const .char), .array .float (some 4), .uint32_t, .ptr (.const .float)]⟩,
   ⟨"ragnarek_color_button", .bool, [.ptr (.const .char), .array .float (some 4), .uint32_t, .float, .float]⟩,
   ⟨"ragnarek_selectable", .bool, [.ptr (.const .char), .bool, .uint32_t, .float, .float]⟩,
   ⟨"ragnarek_selectable_ptr", .bool, [.ptr (.const .char), .ptr .bool, .uint32_t, .float, .float]⟩,
   ⟨"ragnarek_begin_combo", .bool, [.ptr (.const .char), .ptr (.const .char), .int, .bool, .uint32_t]⟩,
   ⟨"ragnarek_end_combo", .void, []⟩,
   ⟨"ragnarek_multi_combo", .void, [.ptr (.const .char), .array .bool none, .array (.ptr (.const .char)) none, .int]⟩,
   ⟨"ragnarek_combo_array", .bool, [.ptr (.const .char), .ptr .int, .array (.const (.ptr (.const .char))) none, .int, .int]⟩,
   ⟨"ragnarek_keybind", .bool, [.ptr (.const .char), .ptr .int, .bool]⟩,
   ⟨"ragnarek_text_center", .void, [.float, .float, .float, .float, .uint32_t, .ptr (.const .char), .float, .float]⟩,
   ⟨"ragnarek_icon_box", .bool, [.ptr (.const .char), .float, .float, .uint32_t, .uint32_t, .uint32_t]⟩,
   ⟨"ragnarek_color_button_simple", .bool, [.ptr (.const .char), .float, .float, .uint32_t]⟩,
   ⟨"ragnarek_esp_preview", .void, [.ptr .void, .ptr .bool, .array .float (some 4), .ptr .bool, .array .float (some 4), .ptr .int, .array .float (some 4), .ptr .bool, .array .float (some 4), .ptr .bool, .array .float (some 4), .ptr .bool, .array .float (some 4), .ptr .bool, .array .float (some 4), .ptr .bool, .array .float (some 4), .ptr .bool, .array .float (some 4), .ptr .bool, .array .float (some 4)]⟩]

/-- Functions defined in the C-linkage block of ragnarek_wrapper.cpp (lines 35-146), in file order. -/
def ragnarek_wrapper_cpp : List Signature :=
  [⟨"ragnarek_begin_child", .bool, [.ptr (.const .char), .float, .float, .uint32_t, .uint32_t]⟩,
   ⟨"ragnarek_end_child", .void, []⟩,
   ⟨"ragnarek_tab", .bool, [.bool, .uint32_t, .ptr (.const .char), .float, .float]⟩,
   ⟨"ragnarek_checkbox", .bool, [.ptr (.const .char), .ptr .bool]⟩,
   ⟨"ragnarek_checkbox_clicked", .void, [.ptr (.const .char), .ptr .bool]⟩,
   ⟨"ragnarek_checkbox_picker", .bool, [.ptr (.const .char), .ptr .bool, .array .float (some 3), .uint32_t]⟩,
   ⟨"ragnarek_checkbox_double_picker", .bool, [.ptr (.const .char), .ptr .bool, .array .float (some 3), .array .float (some 3), .uint32_t]⟩,
   ⟨"ragnarek_slider_int", .bool, [.ptr (.const .char), .ptr .int, .int, .int, .ptr (.const .char), .uint32_t]⟩,
   ⟨"ragnarek_slider_float", .bool, [.ptr (.const .char), .ptr .float, .float, .float, .ptr (.const .char), .uint32_t]⟩,
   ⟨"ragnarek_range_slider_float", .bool, [.ptr (.const .char), .ptr .float, .ptr .float, .float, .float, .ptr (.const .char), .float]⟩,
   ⟨"ragnarek_color_edit4", .bool, [.ptr (.const .char), .array .float (some 4), .uint32_t]⟩,
   ⟨"ragnarek_color_picker4", .bool, [.ptr (.const .char), .array .float (some 4), .uint32_t, .ptr (.const .float)]⟩,
   ⟨"ragnarek_color_button", .bool, [.ptr (.const .char), .array .float (some 4), .uint32_t, .float, .float]⟩,
   ⟨"ragnarek_selectable", .bool, [.ptr (.const .char), .bool, .uint32_t, .float, .float]⟩,
   ⟨"ragnarek_selectable_ptr", .bool, [.ptr (.const .char), .ptr .bool, .uint32_t, .float, .float]⟩,
   ⟨"ragnarek_begin_combo", .bool, [.ptr (.const .char), .ptr (.const .char), .int, .bool, .uint32_t]⟩,
   ⟨"ragnarek_end_combo", .void, []⟩,
   ⟨"ragnarek_multi_combo", .void, [.ptr (.const .char), .array .bool none, .array (.ptr (.const .char)) none, .int]⟩,
   ⟨"ragnarek_combo_array", .bool, [.ptr (.const .char), .ptr .int, .array (.const (.ptr (.const .char))) none, .int, .int]⟩,
   ⟨"ragnarek_keybind", .bool, [.ptr (.const .char), .ptr .int, .bool]⟩,
   ⟨"ragnarek_text_center", .void, [.float, .float, .float, .float, .uint32_t, .ptr (.const .char), .float, .float]⟩,
   ⟨"ragnarek_icon_box", .bool, [.ptr (.const .char), .float, .float, .uint32_t, .uint32_t, .uint32_t]⟩,
   ⟨"ragnarek_color_button_simple", .bool, [.ptr (.const .char), .float, .float, .uint32_t]⟩,
   ⟨"ragnarek_esp_preview", .void, [.ptr .void, .ptr .bool, .array .float (some 4), .ptr .bool, .array .float (some 4), .ptr .int, .array .float (some 4), .ptr .bool, .array .float (some 4), .ptr .bool, .array .float (some 4), .ptr .bool, .array .float (some 4), .ptr .bool, .array .float (some 4), .ptr .bool, .array .float (some 4), .ptr .bool, .array .float (some 4), .ptr .bool, .array .float (some 4)]⟩]

/-- Functions defined in the C-linkage block of standalone_ragnarek.cpp (lines 5-123), in file order. -/
def standalone_ragnarek_cpp : List Signature :=
  [⟨"ragnarek_begin_child", .bool, [.ptr (.const .char), .float, .float, .uint32_t, .uint32_t]⟩,
   ⟨"ragnarek_end_child", .void, []⟩,
   ⟨"ragnarek_tab", .bool, [.bool, .uint32_t, .ptr (.const .char), .float, .float]⟩,
   ⟨"ragnarek_checkbox", .bool, [.ptr (.const .char), .ptr .bool]⟩,
   ⟨"ragnarek_checkbox_clicked", .void, [.ptr (.const .char), .ptr .bool]⟩,
   ⟨"ragnarek_checkbox_picker", .bool, [.ptr (.const .char), .ptr .bool, .array .float (some 3), .uint32_t]⟩,
   ⟨"ragnarek_checkbox_double_picker", .bool, [.ptr (.const .char), .ptr .bool, .array .float (some 3), .array .float (some 3), .uint32_t]⟩,
   ⟨"ragnarek_slider_int", .bool, [.ptr (.const .char), .ptr .int, .int, .int, .ptr (.const .char), .uint32_t]⟩,
   ⟨"ragnarek_slider_float", .bool, [.ptr (.const .char), .ptr .float, .float, .float, .ptr (.const .char), .uint32_t]⟩,
   ⟨"ragnarek_range_slider_float", .bool, [.ptr (.const .char), .ptr .float, .ptr .float, .float, .float, .ptr (.const .char), .float]⟩,
   ⟨"ragnarek_color_edit4", .bool, [.ptr (.const .char), .array .float (some 4), .uint32_t]⟩,
   ⟨"ragnarek_color_picker4", .bool, [.ptr (.const .char), .array .float (some 4), .uint32_t, .ptr (.const .float)]⟩,
   ⟨"ragnarek_color_button", .bool, [.ptr (.const .char), .array .float (some 4), .uint32_t, .float, .float]⟩,
   ⟨"ragnarek_selectable", .bool, [.ptr (.const .char), .bool, .uint32_t, .float, .float]⟩,
   ⟨"ragnarek_selectable_ptr", .bool, [.ptr (.const .char), .ptr .bool, .uint32_t, .float, .float]⟩,
   ⟨"ragnarek_begin_combo", .bool, [.ptr (.const .char), .ptr (.const .char), .int, .bool, .uint32_t]⟩,
   ⟨"ragnarek_end_combo", .void, []⟩,
   ⟨"ragnarek_multi_combo", .void, [.ptr (.const .char), .array .bool none, .array (.ptr (.const .char)) none, .int]⟩,
   ⟨"ragnarek_combo_array", .bool, [.ptr (.const .char), .ptr .int, .array (.const (.ptr (.const .char))) none, .int, .int]⟩,
   ⟨"ragnarek_keybind", .bool, [.ptr (.const .char), .ptr .int, .bool]⟩,
   ⟨"ragnarek_text_center", .void, [.float, .float, .float, .float, .uint32_t, .ptr (.const .char), .float, .float]⟩,
   ⟨"ragnarek_icon_box", .bool, [.ptr (.const .char), .float, .float, .uint32_t, .uint32_t, .uint32_t]⟩,
   ⟨"ragnarek_color_button_simple", .bool, [.ptr (.const .char), .float, .float, .uint32_t]⟩,
   ⟨"ragnarek_esp_preview", .void, [.ptr .void, .ptr .bool, .array .float (some 4), .ptr .bool, .array .float (some 4), .ptr .int, .array .float (some 4), .ptr .bool, .array .float (some 4), .ptr .bool, .array .float (some 4), .ptr .bool, .array .float (some 4), .ptr .bool, .array .float (some 4), .ptr .bool, .array .float (some 4), .ptr .bool, .array .float (some 4), .ptr .bool, .array .float (some 4)]⟩]

end Boundary

/-! ### Graphics and window bootstrap -/

namespace Bootstrap

/-- Identity of a live interface object; a pointer variable holds `some h` or is
null (`none`). -/
abbrev Handle := Nat

/-- The file-scope statics of main.cpp, lines 17-21. -/
structure Globals where
  g_pd3dDevice : Option Handle
  g_pd3dDeviceContext : Option Handle
  g_pSwapChain : Option Handle
  g_ResizeWidth : Nat
  g_ResizeHeight : Nat
  g_mainRenderTargetView : Option Handle
  deriving DecidableEq

/-- Initial values of the statics: null pointers and zero sizes. -/
def Globals.init : Globals :=
  { g_pd3dDevice := none, g_pd3dDeviceContext := none, g_pSwapChain := none,
    g_ResizeWidth := 0, g_ResizeHeight := 0, g_mainRenderTargetView := none }

/-- The kinds of interface object main.cpp releases. -/
inductive Resource
  | RenderTargetView | SwapChain | DeviceContext | Device | BackBuffer
  deriving DecidableEq

/-- The driver type passed to device creation. -/
inductive DriverType
  | HARDWARE | WARP
  deriving DecidableEq

/-- Result codes of device creation: the two codes main.cpp compares against, and
every other code. -/
inductive HRESULT
  | S_OK
  | DXGI_ERROR_UNSUPPORTED
  | other (code : Int)
  deriving DecidableEq

/-- Window messages: the identifiers main.cpp names, and every other identifier. -/
inductive Message
  | WM_SIZE | WM_SYSCOMMAND | WM_DESTROY | WM_QUIT
  | other (code : Nat)
  deriving DecidableEq

/-- Calls main.cpp makes into the operating system, the graphics API and the
toolkit life cycle, with the arguments and answers that matter here. -/
inductive Call
  | RegisterClassExW | CreateWindowW | UnregisterClassW | ShowWindow | UpdateWindow
  | DestroyWindow
  | D3D11CreateDeviceAndSwapChain (driver : DriverType) (res : HRESULT)
  | GetBuffer
  | CreateRenderTargetView (view : Option Handle)
  | Release (r : Resource) (h : Handle)
  | ResizeBuffers (width height : Nat)
  | ImGui_CreateContext | LoadFonts | LoadImages | ImGui_ImplWin32_Init | ImGui_ImplDX11_Init
  | PeekMessage (got : Bool) | TranslateMessage | DispatchMessage
  | PostQuitMessage | DefWindowProcW
  | NewFrame | BuildUI | Render | OMSetRenderTargets | ClearRenderTargetView
  | RenderDrawData | Present
  | ImGui_ImplDX11_Shutdown | ImGui_ImplWin32_Shutdown | ImGui_DestroyContext
  deriving DecidableEq

/-- The statics together with the calls made so far. -/
structure Machine where
  g : Globals
  trace : List Call
  deriving DecidableEq

/-- State at entry of `main`. -/
def Machine.init : Machine := { g := Globals.init, trace := [] }

/-- Record one call. -/
def Machine.call (m : Machine) (c : Call) : Machine :=
  { m with trace := m.trace ++ [c] }

/-- What one call of `D3D11CreateDeviceAndSwapChain` answers: its result code and
the three interface pointers it stores through its out-parameters. -/
structure CreateAnswer where
  res : HRESULT
  swapChain : Option Handle
  device : Option Handle
  context : Option Handle

/-- The graphics platform as `main` meets it at start-up: the answer of device
creation for each driver type, the back buffer `GetBuffer` hands out and the view
the first `CreateRenderTargetView` stores. -/
structure Platform where
  create : DriverType → CreateAnswer
  backBuffer : Handle
  view : Option Handle

/-- Constants and macros of the Windows SDK headers that `WndProc` uses; the
headers are not part of the repository, so they are parameters. -/
structure WinSdk where
  SIZE_MINIMIZED : Nat
  SC_KEYMENU : Nat
  LOWORD : Nat → Nat
  HIWORD : Nat → Nat

/-- `CleanupRenderTarget` (main.cpp, lines 657-660). -/
def CleanupRenderTarget (m : Machine) : Machine :=
  match m.g.g_mainRenderTargetView with
  | some h =>
    { g := { m.g with g_mainRenderTargetView := none },
      trace := m.trace ++ [Call.Release Resource.RenderTargetView h] }
  | none => m

/-- `CleanupDeviceD3D` (main.cpp, lines 641-647). -/
def CleanupDeviceD3D (m : Machine) : Machine :=
  let m := CleanupRenderTarget m
  let m : Machine := match m.g.g_pSwapChain with
    | some h =>
      { g := { m.g with g_pSwapChain := none },
        trace := m.trace ++ [Call.Release Resource.SwapChain h] }
    | none => m
  let m : Machine := match m.g.g_pd3dDeviceContext with
    | some h =>
      { g := { m.g with g_pd3dDeviceContext := none },
        trace := m.trace ++ [Call.Release Resource.DeviceContext h] }
    | none => m
  match m.g.g_pd3dDevice with
  | some h =>
    { g := { m.g with g_pd3dDevice := none },
      trace := m.trace ++ [Call.Release Resource.Device h] }
  | none => m

/-- `CreateRenderTarget` (main.cpp, lines 649-655); `view` is what
`CreateRenderTargetView` stores into `g_mainRenderTargetView`. -/
def CreateRenderTarget (backBuffer : Handle) (view : Option Handle) (m : Machine) : Machine :=
  let m := m.call Call.GetBuffer
  let m : Machine :=
    { g := { m.g with g_mainRenderTargetView := view },
      trace := m.trace ++ [Call.CreateRenderTargetView view] }
  m.call (Call.Release Resource.BackBuffer backBuffer)

/-- One call of `D3D11CreateDeviceAndSwapChain` with the given driver type: the
answer is stored into the three statics. -/
def createDeviceAndSwapChain (P : Platform) (driver : DriverType) (m : Machine) :
    HRESULT × Machine :=
  let a := P.create driver
  (a.res,
    { g := { m.g with g_pSwapChain := a.swapChain, g_pd3dDevice := a.device,
                      g_pd3dDeviceContext := a.context },
      trace := m.trace ++ [Call.D3D11CreateDeviceAndSwapChain driver a.res] })

/-- `CreateDeviceD3D` (main.cpp, lines 609-639). -/
def CreateDeviceD3D (P : Platform) (m : Machine) : Bool × Machine :=
  let r := createDeviceAndSwapChain P DriverType.HARDWARE m
  let r := if r.1 = HRESULT.DXGI_ERROR_UNSUPPORTED then
      createDeviceAndSwapChain P DriverType.WARP r.2
    else r
  if r.1 ≠ HRESULT.S_OK then (false, r.2)
  else (true, CreateRenderTarget P.backBuffer P.view r.2)

/-- `WndProc` (main.cpp, lines 664-686), as its effect on the statics and the calls
it makes; `imguiHandled` is the answer of `ImGui_ImplWin32_WndProcHandler`. -/
def WndProc (sdk : WinSdk) (msg : Message) (wParam lParam : Nat) (imguiHandled : Bool)
    (m : Machine) : Machine :=
  if imguiHandled then m
  else match msg with
    | Message.WM_SIZE =>
      if wParam = sdk.SIZE_MINIMIZED then m
      else { m with g := { m.g with g_ResizeWidth := sdk.LOWORD lParam,
                                    g_ResizeHeight := sdk.HIWORD lParam } }
    | Message.WM_SYSCOMMAND =>
      if wParam &&& 0xfff0 = sdk.SC_KEYMENU then m else m.call Call.DefWindowProcW
    | Message.WM_DESTROY => m.call Call.PostQuitMessage
    | _ => m.call Call.DefWindowProcW

/-- What happens while the inner loop of `main` drains the message queue: a
message is retrieved by `PeekMessage`, or the system invokes the window procedure
(inside `PeekMessage` or `DispatchMessage`). -/
inductive Pumped
  | retrieved (msg : Message)
  | wndProc (msg : Message) (wParam lParam : Nat) (imguiHandled : Bool)
  deriving DecidableEq

/-- Input of one pass of the outer loop: what the message pump delivers before the
queue is empty, and the view `CreateRenderTargetView` stores if the pass recreates
the render target. -/
structure Pass where
  pump : List Pumped
  view : Option Handle

/-- The inner loop of `main` (lines 142-148): every retrieved message is translated
and dispatched, and `done` is set when it is `WM_QUIT`; the loop ends when
`PeekMessage` finds the queue empty. -/
def pumpMessages (sdk : WinSdk) : List Pumped → Machine → Bool → Machine × Bool
  | [], m, done => (m.call (Call.PeekMessage false), done)
  | Pumped.retrieved msg :: rest, m, done =>
    let m := ((m.call (Call.PeekMessage true)).call Call.TranslateMessage).call
      Call.DispatchMessage
    pumpMessages sdk rest m (if msg = Message.WM_QUIT then true else done)
  | Pumped.wndProc msg wParam lParam handled :: rest, m, done =>
    pumpMessages sdk rest (WndProc sdk msg wParam lParam handled m) done

/-- The resize step of one pass (main.cpp, lines 151-157). -/
def handleResize (backBuffer : Handle) (view : Option Handle) (m : Machine) : Machine :=
  if m.g.g_ResizeWidth ≠ 0 ∧ m.g.g_ResizeHeight ≠ 0 then
    let m := CleanupRenderTarget m
    let m := m.call (Call.ResizeBuffers m.g.g_ResizeWidth m.g.g_ResizeHeight)
    let m : Machine := { m with g := { m.g with g_ResizeWidth := 0, g_ResizeHeight := 0 } }
    CreateRenderTarget backBuffer view m
  else m

/-- Building, rendering and presenting one frame (main.cpp, lines 159-595); the
widget script between `NewFrame` and `Render` is the single call `BuildUI`. -/
def renderFrame (m : Machine) : Machine :=
  ((((((m.call Call.NewFrame).call Call.BuildUI).call Call.Render).call
    Call.OMSetRenderTargets).call Call.ClearRenderTargetView).call Call.RenderDrawData).call
    Call.Present

/-- The outer loop of `main` (lines 139-596) over the passes the environment
supplies; `none` when the supplied passes end before a quit message arrives, that
is, the loop is still running. -/
def frameLoop (sdk : WinSdk) (P : Platform) : List Pass → Machine → Option Machine
  | [], _ => none
  | p :: rest, m =>
    let r := pumpMessages sdk p.pump m false
    if r.2 then some r.1
    else frameLoop sdk P rest (renderFrame (handleResize P.backBuffer p.view r.1))

/-- State in which `main` calls `CreateDeviceD3D` (lines 94-96). -/
def boot : Machine :=
  (Machine.init.call Call.RegisterClassExW).call Call.CreateWindowW

/-- Start-up between successful device creation and the loop (lines 105-132). -/
def setup (m : Machine) : Machine :=
  ((((((m.call Call.ShowWindow).call Call.UpdateWindow).call Call.ImGui_CreateContext).call
    Call.LoadFonts).call Call.LoadImages).call Call.ImGui_ImplWin32_Init).call
    Call.ImGui_ImplDX11_Init

/-- Shutdown after the loop (lines 598-604). -/
def shutdown (m : Machine) : Machine :=
  ((CleanupDeviceD3D (((m.call Call.ImGui_ImplDX11_Shutdown).call
    Call.ImGui_ImplWin32_Shutdown).call Call.ImGui_DestroyContext)).call
    Call.DestroyWindow).call Call.UnregisterClassW

/-- `main` (main.cpp, lines 91-607): the exit code and the final state, or `none`
while the loop is still running at the end of the supplied passes. -/
def main (sdk : WinSdk) (P : Platform) (script : List Pass) : Option (Int × Machine) :=
  let r := CreateDeviceD3D P boot
  if !r.1 then
    some (1, (CleanupDeviceD3D r.2).call Call.UnregisterClassW)
  else
    match frameLoop sdk P script (setup r.2) with
    | none => none
    | some m => some (0, shutdown m)

/-- A quit message is retrieved during the pass. -/
def Pass.quits (p : Pass) : Bool :=
  p.pump.any fun x => x = Pumped.retrieved Message.WM_QUIT

/-- The `Release` calls `CleanupDeviceD3D` owes to the statics `g`: one for each
non-null pointer, in the order view, swap chain, context, device. -/
def owedReleases (g : Globals) : List Call :=
  (g.g_mainRenderTargetView.map (Call.Release Resource.RenderTargetView)).toList ++
  (g.g_pSwapChain.map (Call.Release Resource.SwapChain)).toList ++
  (g.g_pd3dDeviceContext.map (Call.Release Resource.DeviceContext)).toList ++
  (g.g_pd3dDevice.map (Call.Release Resource.Device)).toList

/-- The pointer variable that holds objects of kind `r` (none for the back buffer,
which is a local of `CreateRenderTarget`). -/
def Globals.pointer (g : Globals) : Resource → Option Handle
  | Resource.RenderTargetView => g.g_mainRenderTargetView
  | Resource.SwapChain => g.g_pSwapChain
  | Resource.DeviceContext => g.g_pd3dDeviceContext
  | Resource.Device => g.g_pd3dDevice
  | Resource.BackBuffer => none

/-- A device-creation call. -/
def Call.isCreate : Call → Bool
  | Call.D3D11CreateDeviceAndSwapChain _ _ => true
  | _ => false

end Bootstrap

/-! ### Concrete environments -/

namespace Bootstrap

/-- The Windows SDK values: `SIZE_MINIMIZED` is 1, `SC_KEYMENU` is 0xF100, and
`LOWORD`, `HIWORD` pick bits 0-15 and 16-31. -/
def winSdk : WinSdk :=
  { SIZE_MINIMIZED := 1, SC_KEYMENU := 0xF100,
    LOWORD := fun l => l % 65536, HIWORD := fun l => (l / 65536) % 65536 }

/-- A machine without usable graphics hardware: the hardware driver is unsupported
and the software driver fails with `E_FAIL` after it has stored a device but no swap
chain and no context. -/
def brokenPlatform : Platform :=
  { create := fun d =>
      match d with
      | DriverType.HARDWARE =>
        { res := HRESULT.DXGI_ERROR_UNSUPPORTED, swapChain := none, device := none,
          context := none }
      | DriverType.WARP =>
        { res := HRESULT.other (-2147467259), swapChain := none, device := some 7,
          context := none },
    backBuffer := 1, view := none }

/-- A machine on which the hardware driver creates everything. -/
def workingPlatform : Platform :=
  { create := fun _ =>
      { res := HRESULT.S_OK, swapChain := some 10, device := some 11, context := some 12 },
    backBuffer := 13, view := some 14 }

/-- Two passes: one with an empty queue, then one that retrieves `WM_QUIT`. -/
def quitAfterOneFrame : List Pass :=
  [{ pump := [], view := none },
   { pump := [Pumped.retrieved Message.WM_QUIT], view := none }]

end Bootstrap

/-- A toolkit session in which the current window is clipped: `SkipItems` is set. -/
def skippingToolkit : ImGui.Toolkit Unit :=
  { quietToolkit with SkipItems := fun _ => true }

/-- A toolkit session in which `ItemAdd` rejects every item. -/
def rejectingToolkit : ImGui.Toolkit Unit :=
  { quietToolkit with ItemAdd := fun _ _ s => (false, s) }

/-- A toolkit session in which the user clicks whatever button is queried: every
item is added and `ButtonBehavior` reports pressed and hovered. -/
def pressingToolkit : ImGui.Toolkit Unit :=
  { quietToolkit with
    ButtonBehavior := fun _ _ _ s => (⟨true, true, false⟩, s)
    Button := fun _ s => (true, s) }

/-! ### The panels of the frame layout -/

namespace Bootstrap

/-- A call of the layout script inside `CONTAINER` (main.cpp, lines 245-543):
toolkit layout calls, the opening and closing of a panel by `edited::BeginChild` and
`edited::EndChild`, and any other widget call, kept as the name of the function
called and its first string argument (empty when it has none). -/
inductive LayoutCall
  | ImGui_BeginChild (str_id : String)
  | ImGui_EndChild
  | BeginGroup | EndGroup | SameLine | SetCursorPosY
  | BeginChild (name : String)
  | EndChild
  | Widget (function label : String)
  deriving DecidableEq

/-- The calls of the branch `active_tab == 0` (main.cpp, lines 247-374), in source order. -/
def tab0 : List LayoutCall :=
  [.BeginGroup,
   .BeginChild "Weapons",
   .Widget "edited::Combo" "Select Weapon",
   .Widget "edited::Checkbox" "Enable Config",
   .EndChild,
   .BeginChild "Additions",
   .Widget "edited::Combo" "History",
   .Widget "edited::Checkbox" "Delay Shot",
   .Widget "edited::Checkbox" "Duck Peek Assist",
   .Widget "edited::CheckboxClicked" "Quick Peek Assist",
   .Widget "edited::Checkbox" "Speed Up Fire Rate",
   .Widget "edited::CheckboxClicked" "Magic Bullet",
   .EndChild,
   .BeginChild "Anti Aim",
   .Widget "edited::Checkbox" "Enabled",
   .Widget "edited::ComboClicked" "Pitch",
   .Widget "edited::ComboClicked" "Yaw",
   .Widget "edited::Checkbox" "Slow Walk",
   .Widget "edited::CheckboxPicker" "Freestanding",
   .EndChild,
   .EndGroup,
   .SameLine,
   .BeginGroup,
   .BeginChild "General",
   .Widget "edited::CheckboxClicked" "Enabled",
   .Widget "edited::CheckboxClicked" "Silent Aimbot",
   .Widget "edited::Checkbox" "Automatic Fire",
   .Widget "edited::Checkbox" "Penetrate Walls",
   .Widget "edited::SliderInt" "Field Of View",
   .Widget "edited::RangeSliderFloat" "Hit Chance",
   .Widget "edited::RangeSliderFloat" "Damage",
   .EndChild,
   .BeginChild "Selection",
   .Widget "edited::Combo" "Target",
   .Widget "edited::MultiComboClicked" "Hitboxes",
   .Widget "edited::ComboClicked" "Multipint",
   .Widget "edited::CheckboxClicked" "Auto Stop",
   .Widget "edited::Checkbox" "Auto Scope",
   .EndChild,
   .BeginChild "Extrended",
   .Widget "edited::Combo" "Mode",
   .Widget "edited::Keybind" "Click on me to bind",
   .EndChild,
   .EndGroup]

/-- The calls of the branch `active_tab == 2` (main.cpp, lines 375-489), in source order. -/
def tab2 : List LayoutCall :=
  [.BeginGroup,
   .BeginChild "Players",
   .Widget "edited::Checkbox" "Enabled",
   .Widget "edited::Checkbox" "Teammates",
   .Widget "edited::Checkbox" "Behind Walls",
   .Widget "edited::CheckboxClicked" "Bullet Tracers",
   .Widget "edited::CheckboxClicked" "Offscreen ESP",
   .Widget "edited::CheckboxPicker" "Sounds",
   .Widget "edited::CheckboxDoublePicker" "Radar",
   .Widget "ImGui::InputTextEx" "v",
   .EndChild,
   .BeginChild "Models",
   .Widget "edited::Keybind" "Enemies",
   .Widget "edited::Keybind" "Teammates",
   .Widget "edited::Keybind" "Local Player",
   .Widget "edited::Keybind" "Ragdolls",
   .EndChild,
   .BeginChild "World",
   .Widget "edited::CheckboxClicked" "Bomb",
   .Widget "edited::CheckboxClicked" "Weapons",
   .Widget "edited::RangeSliderFloat" "The Radius Of Vision",
   .EndChild,
   .EndGroup,
   .SameLine,
   .BeginGroup,
   .BeginChild "ESP PREVIEW",
   .Widget "edited::esp_preview" "",
   .EndChild,
   .BeginChild "ESP MANAGE ELEMENTS",
   .Widget "edited::CheckboxPicker" "Show Nickname",
   .Widget "edited::CheckboxPicker" "Show Zoomed",
   .Widget "edited::CheckboxPicker" "Show Weapon",
   .Widget "edited::CheckboxPicker" "Show Money",
   .Widget "edited::CheckboxPicker" "Show Bomb",
   .Widget "edited::CheckboxPicker" "Show Box",
   .Widget "edited::CheckboxPicker" "Show Hit",
   .Widget "edited::CheckboxDoublePicker" "Show HP",
   .Widget "edited::CheckboxPicker" "Show C4",
   .EndChild,
   .EndGroup]

/-- The calls of the branch `active_tab == 6` (main.cpp, lines 490-539), in source order. -/
def tab6 : List LayoutCall :=
  [.BeginGroup,
   .BeginChild "GUI",
   .Widget "edited::ColorEdit4" "Accent Color",
   .EndChild,
   .BeginChild "Styles",
   .Widget "edited::ColorEdit4" "Background",
   .Widget "edited::ColorEdit4" "Border",
   .Widget "edited::ColorEdit4" "Child",
   .EndChild,
   .BeginChild "Others",
   .Widget "edited::ColorEdit4" "Color Element's",
   .Widget "edited::ColorEdit4" "Color Selectable",
   .Widget "edited::ColorEdit4" "Color Popup's",
   .EndChild,
   .EndGroup,
   .SameLine,
   .BeginGroup,
   .BeginChild "Miscellaneous",
   .Widget "edited::ColorEdit4" "Text Active",
   .Widget "edited::ColorEdit4" "Text Hovered",
   .Widget "edited::ColorEdit4" "Text Default",
   .EndChild,
   .EndGroup]


/-- The calls between `ImGui::BeginChild("CONTAINER", ...)` and its `ImGui::EndChild()`
(main.cpp, lines 245-543) for the current `active_tab`.  No call inside depends on
what an earlier call returned. -/
def CONTAINER (active_tab : Int) : List LayoutCall :=
  [LayoutCall.ImGui_BeginChild "CONTAINER"] ++
  (if active_tab = 0 then tab0
   else if active_tab = 2 then tab2
   else if active_tab = 6 then tab6
   else []) ++
  [LayoutCall.SetCursorPosY, LayoutCall.ImGui_EndChild]

/-- The panels a call sequence opens: the names passed to `edited::BeginChild`, in
order. -/
def panels (l : List LayoutCall) : List String :=
  l.filterMap fun c =>
    match c with
    | LayoutCall.BeginChild name => some name
    | _ => none

/-- Nesting depth of panels along a call sequence, starting from depth `d`: `none`
if a panel is opened inside a panel or closed when none is open, otherwise the
depth at the end. -/
def panelDepth : List LayoutCall → Nat → Option Nat
  | [], d => some d
  | LayoutCall.BeginChild _ :: rest, d => if d = 0 then panelDepth rest 1 else none
  | LayoutCall.EndChild :: rest, d => if d = 1 then panelDepth rest 0 else none
  | _ :: rest, d => panelDepth rest d

/-- The Windows SDK macro `FAILED`: a result code is a failure code when it is
negative.  `S_OK` is 0 and `DXGI_ERROR_UNSUPPORTED` is 0x887A0004, negative as a
32-bit value. -/
def HRESULT.FAILED : HRESULT → Bool
  | HRESULT.S_OK => false
  | HRESULT.DXGI_ERROR_UNSUPPORTED => true
  | HRESULT.other code => decide (code < 0)

/-- The calls made between the state `before` and the later state `after`. -/
def callsSince (before after : Machine) : List Call :=
  after.trace.drop before.trace.length

/-- A call of `CreateRenderTargetView`. -/
def Call.isCreateView : Call → Bool
  | Call.CreateRenderTargetView _ => true
  | _ => false

/-- A machine whose hardware driver is unsupported and whose software driver
creates everything. -/
def warpOnlyPlatform : Platform :=
  { create := fun d =>
      match d with
      | DriverType.HARDWARE =>
        { res := HRESULT.DXGI_ERROR_UNSUPPORTED, swapChain := none, device := none,
          context := none }
      | DriverType.WARP =>
        { res := HRESULT.S_OK, swapChain := some 20, device := some 21, context := some 22 },
    backBuffer := 23, view := some 24 }

/-- A machine whose hardware driver fails with `E_FAIL`; its software driver would
work. -/
def failingPlatform : Platform :=
  { create := fun d =>
      match d with
      | DriverType.HARDWARE =>
        { res := HRESULT.other (-2147467259), swapChain := none, device := none,
          context := none }
      | DriverType.WARP =>
        { res := HRESULT.S_OK, swapChain := some 20, device := some 21, context := some 22 },
    backBuffer := 23, view := some 24 }

end Bootstrap

/-! ### The tab row and the frame state -/

namespace Bootstrap

/-- The tab row of one frame (main.cpp, lines 222-234): `r i` is what the call
`edited::Tab(i == page, i + 1, ...)` returned, for `i` from 0 to 6 in source order. -/
def tabRow (page : Int) (r : Fin 7 → Bool) : Int :=
  let page := if r 0 then 0 else page
  let page := if r 1 then 1 else page
  let page := if r 2 then 2 else page
  let page := if r 3 then 3 else page
  let page := if r 4 then 4 else page
  let page := if r 5 then 5 else page
  let page := if r 6 then 6 else page
  page

/-- The state the layout script keeps between frames: the function-local static
`page` (line 217) and the file-scope fade statics (line 89). -/
structure UiState where
  page : Int
  fade : TabFade
  deriving DecidableEq

/-- Initial values: `page = 0` and the initial fade statics. -/
def UiState.init : UiState := { page := 0, fade := TabFade.init }

/-- One frame of the layout script up to the fade update (lines 217-241): the tab
row, then the fade update with the page it selected. -/
def frame (s : UiState) (r : Fin 7 → Bool) (DeltaTime : ℚ) : UiState :=
  let page := tabRow s.page r
  { page := page, fade := fadeUpdate s.fade page DeltaTime }

/-- The state after a sequence of frames, each given by its seven tab results and
its elapsed time. -/
def runUi (s : UiState) : List ((Fin 7 → Bool) × ℚ) → UiState
  | [] => s
  | f :: rest => runUi (frame s f.1 f.2) rest

/-- The calls the resize step owes to a state with both pending dimensions non-zero:
the release of the current view if there is one, the resize to the pending size,
and the three calls of `CreateRenderTarget`. -/
def resizeCalls (backBuffer : Handle) (view : Option Handle) (g : Globals) : List Call :=
  (g.g_mainRenderTargetView.map (Call.Release Resource.RenderTargetView)).toList ++
  [Call.ResizeBuffers g.g_ResizeWidth g.g_ResizeHeight, Call.GetBuffer,
   Call.CreateRenderTargetView view, Call.Release Resource.BackBuffer backBuffer]

/-- A running machine with a live view and a pending resize to 800 by 600. -/
def resizePending : Machine :=
  { g := { g_pd3dDevice := some 11, g_pd3dDeviceContext := some 12, g_pSwapChain := some 10,
           g_ResizeWidth := 800, g_ResizeHeight := 600, g_mainRenderTargetView := some 14 },
    trace := [] }

end Bootstrap

namespace ImGui

/-- The identifier string of a sub-widget call of the composite widgets: the label
of a slider or colour-editor call. -/
def Event.editorId : Event → Option String
  | .SliderFloat label _ _ _ _ _ _ _ => some label
  | .ColorEdit3 label _ _ _ _ => some label
  | _ => none

/-- The log entry is a call of `Selectable` through a pointer. -/
def Event.isSelectablePtr : Event → Bool
  | .SelectablePtr _ _ _ _ _ _ => true
  | _ => false

/-- The log entry is a call of `EndCombo`. -/
def Event.isEndCombo : Event → Bool
  | .EndCombo => true
  | _ => false

/-- The `Selectable` calls a loop over the indices `i`, `i + 1`, ... makes on the
arrays `labels` and `flagArray`, given the toolkit's answers (returned flag and
stored value) in order. -/
def selectableCalls (labels : Nat → String) (flagArray : Nat → Bool) (flags : Nat) :
    Nat → List (Bool × Bool) → List Event
  | _, [] => []
  | i, a :: rest =>
    Event.SelectablePtr (labels i) (flagArray i) flags (0, 0) a.1 a.2 ::
      selectableCalls labels flagArray flags (i + 1) rest

end ImGui

/-- A toolkit session in which the combo popup is open and the user clicks every
entry: each `Selectable` through a pointer toggles the flag and reports it. -/
def togglingToolkit : ImGui.Toolkit Unit :=
  { quietToolkit with
    BeginCombo := fun _ _ _ s => (true, s)
    SelectablePtr := fun _ v _ _ s => ((true, !v), s) }

/-- The label array main.cpp passes to the multi-combo "Hitboxes" (line 347), as
memory indexed from its base pointer. -/
def hitboxLabels : Nat → String :=
  fun i => ["Head", "Chest", "Stomatch", "Body", "Legs"].getD i ""

/-- The flag array main.cpp passes to the multi-combo "Hitboxes" (line 346). -/
def hitboxFlags : Nat → Bool :=
  fun i => [false, true, true, true, false].getD i false

/-- Arguments of `esp_preview` as main.cpp passes them at start-up (lines 52-77):
every flag true, hp 85, white colours. -/
def espDefaults : edited.EspArgs :=
  { player_preview := 1,
    nickname := some true, nick_color := (1, 1, 1, 1),
    weapon := some true, weapon_color := (1, 1, 1, 1),
    hp := some 85, hp_color := (1, 1, 1, 1),
    zoom := some true, zoom_color := (1, 1, 1, 1),
    bomb := some true, bomb_color := (1, 1, 1, 1),
    c4 := some true, c4_color := (1, 1, 1, 1),
    money := some true, money_color := (1, 1, 1, 1),
    hit := some true, hit_color := (1, 1, 1, 1),
    esp_box := some true, box_color := (37 / 255, 37 / 255, 47 / 255, 1),
    hp_line := some true, hp_line_color := (112 / 255, 109 / 255, 214 / 255, 1) }

/-- The same arguments with another texture, null or cleared flags and other colours
in every slot `esp_preview` does not read. -/
def espOthers : edited.EspArgs :=
  { espDefaults with
    player_preview := 2,
    zoom := none, zoom_color := (0, 0, 0, 0),
    bomb := some false, bomb_color := (0, 0, 0, 0),
    c4 := none, c4_color := (0, 0, 0, 0),
    money := some false, money_color := (0, 0, 0, 0),
    hit := none, hit_color := (0, 0, 0, 0),
    esp_box := some false, box_color := (0, 0, 0, 0),
    hp_line := none, hp_line_color := (0, 0, 0, 0) }

namespace KeybindSpec

/-- Decimal digits of a natural number, most significant first; `0` is the one
digit `0`. -/
def decimalDigits (n : Nat) : List Char :=
  if n = 0 then [Char.ofNat 48] else (Nat.digits 10 n).reverse.map Nat.digitChar

/-- Decimal rendering of an integer as the specification words it: the digits of
the magnitude, preceded by a minus sign when the integer is negative. -/
def decimalRendering (k : Int) : String :=
  if k < 0 then "-" ++ String.mk (decimalDigits k.natAbs)
  else String.mk (decimalDigits k.natAbs)

/-- The uppercase ASCII letters in alphabetical order. -/
def upperLetters : List Char := "ABCDEFGHIJKLMNOPQRSTUVWXYZ".toList

end KeybindSpec

/-! ## Theorems -/

namespace KeybindSpec

open edited ImGui

theorem toDigitsCore_eq_decimalDigits (fuel : Nat) :
    ∀ (n : Nat) (ds : List Char), n < fuel →
      Nat.toDigitsCore 10 fuel n ds = decimalDigits n ++ ds := by
  induction fuel with
  | zero => intro n ds h; omega
  | succ f ih =>
    intro n ds h
    unfold Nat.toDigitsCore
    by_cases hq : n / 10 = 0
    · simp only [hq, if_true]
      have hlt : n < 10 := by omega
      by_cases h0 : n = 0
      · subst h0; simp [decimalDigits, Nat.digitChar]
      · have hmod : n % 10 = n := Nat.mod_eq_of_lt hlt
        simp [decimalDigits, h0, hmod, Nat.digits_of_lt 10 n h0 hlt]
    · simp only [hq, if_false]
      have hlt : n / 10 < f := by omega
      rw [ih (n / 10) _ hlt]
      have h0 : n ≠ 0 := by omega
      have hpos : 0 < n := Nat.pos_of_ne_zero h0
      have hd : Nat.digits 10 n = (n % 10) :: Nat.digits 10 (n / 10) :=
        Nat.digits_def' (by decide) hpos
      simp [decimalDigits, h0, hq, hd]

theorem repr_eq_decimalDigits (n : Nat) : Nat.repr n = String.mk (decimalDigits n) := by
  simp [Nat.repr, Nat.toDigits, toDigitsCore_eq_decimalDigits (n + 1) n [] (by omega),
    List.asString]

theorem sprintf_d_eq_decimalRendering (k : Int) : sprintf_d k = decimalRendering k := by
  unfold sprintf_d decimalRendering
  cases k with
  | ofNat m =>
    have hneg : ¬ (Int.ofNat m < 0) := by simp
    simp only [hneg, if_false]
    exact repr_eq_decimalDigits m
  | negSucc m =>
    have hneg : Int.negSucc m < 0 := Int.negSucc_lt_zero m
    simp only [hneg, if_true]
    show "-" ++ Nat.repr (m + 1) = _
    rw [repr_eq_decimalDigits]
    rfl

theorem key_name_letters : ∀ n : Fin 26,
    key_name ((n.val : Int) + 65) = String.singleton (Char.ofNat (n.val + 65)) ∧
    (Char.ofNat (n.val + 65)).isUpper = true ∧
    (Char.ofNat (n.val + 65)).toNat = n.val + 65 ∧
    upperLetters.get? n.val = some (Char.ofNat (n.val + 65)) := by
  decide

theorem Keybind_buttons {σ : Type} (T : Toolkit σ) (label : String) (k : Int)
    (show_label : Bool) (w : World σ) :
    (issued w.log (Keybind T label k show_label w).2).filter Event.isButton =
      [Event.Button (key_name k) (Keybind T label k show_label w).1.changed] := by
  cases show_label with
  | false =>
    simp only [issued, Keybind, ImGui.Button, List.drop_left]
    simp [Event.isButton]
  | true =>
    simp only [issued, Keybind, ImGui.Button, ImGui.Text, ImGui.SameLine, List.append_assoc,
      List.drop_left]
    simp [Event.isButton]

/-- C1: for every 32-bit key code `k` the one button `edited::Keybind` draws carries
the text `key_name k`, which is "None" for 0, "LMB" for 1, "RMB" for 2, the single
uppercase ASCII letter with character code `k` for 65..90, and "Key " followed by
the decimal rendering of `k` (minus sign first when negative) for every other
code. -/
theorem key_name_spec (k : Int) (hk : -2147483648 ≤ k ∧ k ≤ 2147483647) :
    (∀ (τ : Type) (T : Toolkit τ) (label : String) (show_label : Bool) (w : World τ),
      (issued w.log (Keybind T label k show_label w).2).filter Event.isButton =
        [Event.Button (key_name k) (Keybind T label k show_label w).1.changed]) ∧
    (k = 0 → key_name k = "None") ∧
    (k = 1 → key_name k = "LMB") ∧
    (k = 2 → key_name k = "RMB") ∧
    (65 ≤ k ∧ k ≤ 90 →
      key_name k = String.singleton (Char.ofNat k.toNat) ∧
      (Char.ofNat k.toNat).isUpper = true ∧
      ((Char.ofNat k.toNat).toNat : Int) = k ∧
      upperLetters.get? (k.toNat - 65) = some (Char.ofNat k.toNat)) ∧
    (k ≠ 0 ∧ k ≠ 1 ∧ k ≠ 2 ∧ ¬ (65 ≤ k ∧ k ≤ 90) →
      key_name k = "Key " ++ decimalRendering k) := by
  refine ⟨fun τ T label show_label w => Keybind_buttons T label k show_label w,
    ?_, ?_, ?_, ?_, ?_⟩
  · rintro rfl; decide
  · rintro rfl; decide
  · rintro rfl; decide
  · rintro ⟨h1, h2⟩
    obtain ⟨n, rfl⟩ : ∃ n : Nat, k = (n : Int) + 65 := ⟨(k - 65).toNat, by omega⟩
    have hn : n < 26 := by omega
    have hto : ((n : Int) + 65).toNat = n + 65 := by omega
    have hall := key_name_letters ⟨n, hn⟩
    simp only [hto, Nat.add_sub_cancel]
    simp only at hall
    refine ⟨hall.1, hall.2.1, ?_, hall.2.2.2⟩
    rw [hall.2.2.1]; push_cast; rfl
  · rintro ⟨h0, h1, h2, h3⟩
    simp only [key_name, h0, h1, h2, if_false, ge_iff_le, h3, sprintf_d_eq_decimalRendering]

theorem key_name_spec_witness :
    (-2147483648 ≤ (-2147483648 : Int) ∧ (-2147483648 : Int) ≤ 2147483647) ∧
      key_name (-2147483648) = "Key " ++ decimalRendering (-2147483648) ∧
      key_name (-2147483648) = "Key -2147483648" :=
  ⟨by decide,
   (key_name_spec (-2147483648) (by decide)).2.2.2.2.2 (by decide),
   by decide⟩

end KeybindSpec

namespace Binary32

theorem roundHalfEven_intCast (n : ℤ) : roundHalfEven (n : ℚ) = n := by
  simp [roundHalfEven]

theorem roundHalfEven_floor_le (q : ℚ) : ⌊q⌋ ≤ roundHalfEven q ∧ roundHalfEven q ≤ ⌊q⌋ + 1 := by
  unfold roundHalfEven
  split_ifs <;> constructor <;> omega

theorem roundHalfEven_sub_le (q : ℚ) :
    (roundHalfEven q : ℚ) - q ≤ 1 / 2 ∧ q - (roundHalfEven q : ℚ) ≤ 1 / 2 := by
  have h1 := Int.floor_le q
  have h2 := Int.lt_floor_add_one q
  unfold roundHalfEven
  split_ifs with a b c
  · constructor <;> linarith
  · push_cast; constructor <;> linarith
  · constructor <;> linarith
  · push_cast; constructor <;> linarith

theorem roundHalfEven_mono {p q : ℚ} (h : p ≤ q) : roundHalfEven p ≤ roundHalfEven q := by
  have hfl : ⌊p⌋ ≤ ⌊q⌋ := Int.floor_mono h
  rcases lt_or_eq_of_le hfl with hlt | heq
  · have := (roundHalfEven_floor_le p).2
    have := (roundHalfEven_floor_le q).1
    omega
  · unfold roundHalfEven
    rw [heq]
    have hfr : p - (⌊q⌋ : ℚ) ≤ q - (⌊q⌋ : ℚ) := by linarith
    split_ifs <;> first | omega | (exfalso; linarith)

theorem roundHalfEven_nonneg {q : ℚ} (h : 0 ≤ q) : 0 ≤ roundHalfEven q := by
  have := roundHalfEven_mono h
  rwa [show roundHalfEven 0 = 0 from by simpa using roundHalfEven_intCast 0] at this

theorem roundHalfEven_nonpos {q : ℚ} (h : q ≤ 0) : roundHalfEven q ≤ 0 := by
  have := roundHalfEven_mono h
  rwa [show roundHalfEven 0 = 0 from by simpa using roundHalfEven_intCast 0] at this

theorem roundHalfEven_eq_of_near (q : ℚ) (n : ℤ) (h1 : q - n < 1 / 2) (h2 : (n : ℚ) - q < 1 / 2) :
    roundHalfEven q = n := by
  have h := roundHalfEven_sub_le q
  have hlt : ((roundHalfEven q - n : ℤ) : ℚ) < 1 := by push_cast; linarith
  have hgt : (-1 : ℚ) < ((roundHalfEven q - n : ℤ) : ℚ) := by push_cast; linarith
  have h3 : roundHalfEven q - n < 1 := by exact_mod_cast hlt
  have h4 : -1 < roundHalfEven q - n := by exact_mod_cast hgt
  omega

theorem roundHalfEven_eq_of_tie (q : ℚ) (n : ℤ) (heven : n % 2 = 0)
    (h : q = n + 1 / 2 ∨ q = n - 1 / 2) : roundHalfEven q = n := by
  rcases h with h | h
  · have hfl : ⌊q⌋ = n := by
      rw [Int.floor_eq_iff]; constructor <;> rw [h] <;> linarith
    unfold roundHalfEven
    rw [hfl]
    have hfr : q - (n : ℚ) = 1 / 2 := by rw [h]; ring
    rw [hfr]
    simp [heven]
  · have hfl : ⌊q⌋ = n - 1 := by
      rw [Int.floor_eq_iff]; push_cast; constructor <;> rw [h] <;> linarith
    unfold roundHalfEven
    rw [hfl]
    have hfr : q - ((n - 1 : ℤ) : ℚ) = 1 / 2 := by rw [h]; push_cast; ring
    rw [hfr]
    have hodd : (n - 1) % 2 ≠ 0 := by omega
    simp [hodd]

theorem two_zpow_pos (k : ℤ) : (0 : ℚ) < 2 ^ k := zpow_pos (by norm_num) k

theorem log_eq (x : ℚ) (e : ℤ) (h1 : (2 : ℚ) ^ e ≤ |x|) (h2 : |x| < (2 : ℚ) ^ (e + 1)) :
    Int.log 2 |x| = e := by
  have hpos : 0 < |x| := lt_of_lt_of_le (two_zpow_pos e) h1
  have ha : e ≤ Int.log 2 |x| := by
    rw [← Int.zpow_le_iff_le_log (by norm_num) hpos]
    simpa using h1
  have hb : Int.log 2 |x| < e + 1 := by
    rw [← Int.lt_zpow_iff_log_lt (by norm_num) hpos]
    simpa using h2
  omega

theorem ulpExp_eq (x : ℚ) (e : ℤ) (h1 : (2 : ℚ) ^ e ≤ |x|) (h2 : |x| < (2 : ℚ) ^ (e + 1)) :
    ulpExp x = max (-149) (e - 23) := by
  unfold ulpExp
  rw [log_eq x e h1 h2]

theorem roundNearest_eq_of_near (x : ℚ) (e n : ℤ) (h1 : (2 : ℚ) ^ e ≤ |x|)
    (h2 : |x| < (2 : ℚ) ^ (e + 1))
    (h3 : x / 2 ^ max (-149) (e - 23) - n < 1 / 2)
    (h4 : (n : ℚ) - x / 2 ^ max (-149) (e - 23) < 1 / 2) :
    roundNearest x = n * 2 ^ max (-149) (e - 23) := by
  unfold roundNearest
  rw [ulpExp_eq x e h1 h2, roundHalfEven_eq_of_near _ n h3 h4]

theorem roundNearest_eq_of_tie (x : ℚ) (e n : ℤ) (h1 : (2 : ℚ) ^ e ≤ |x|)
    (h2 : |x| < (2 : ℚ) ^ (e + 1)) (heven : n % 2 = 0)
    (h3 : x / 2 ^ max (-149) (e - 23) = n + 1 / 2 ∨ x / 2 ^ max (-149) (e - 23) = n - 1 / 2) :
    roundNearest x = n * 2 ^ max (-149) (e - 23) := by
  unfold roundNearest
  rw [ulpExp_eq x e h1 h2, roundHalfEven_eq_of_tie _ n heven h3]

theorem roundNearest_zero : roundNearest 0 = 0 := by
  simp [roundNearest, roundHalfEven]

theorem roundNearest_nonneg {x : ℚ} (h : 0 ≤ x) : 0 ≤ roundNearest x := by
  unfold roundNearest
  have hq : 0 ≤ x / 2 ^ ulpExp x := div_nonneg h (le_of_lt (two_zpow_pos _))
  have hz := roundHalfEven_nonneg hq
  have hc : (0 : ℚ) ≤ (roundHalfEven (x / 2 ^ ulpExp x) : ℚ) := by exact_mod_cast hz
  exact mul_nonneg hc (le_of_lt (two_zpow_pos _))

theorem roundNearest_nonpos {x : ℚ} (h : x ≤ 0) : roundNearest x ≤ 0 := by
  unfold roundNearest
  have hq : x / 2 ^ ulpExp x ≤ 0 := div_nonpos_of_nonpos_of_nonneg h (le_of_lt (two_zpow_pos _))
  have hz := roundHalfEven_nonpos hq
  have hc : (roundHalfEven (x / 2 ^ ulpExp x) : ℚ) ≤ 0 := by exact_mod_cast hz
  exact mul_nonpos_of_nonpos_of_nonneg hc (le_of_lt (two_zpow_pos _))

theorem zpow_split (k u : ℤ) (h : u ≤ k) :
    (2 : ℚ) ^ k = (((2 : ℤ) ^ (k - u).toNat : ℤ) : ℚ) * 2 ^ u := by
  have hk : k = ((k - u).toNat : ℤ) + u := by omega
  conv_lhs => rw [hk]
  rw [zpow_add₀ (by norm_num : (2 : ℚ) ≠ 0), zpow_natCast]
  push_cast
  rfl

theorem roundNearest_of_multiple (x : ℚ) (n k : ℤ) (hk : ulpExp x ≤ k) (h : x = n * 2 ^ k) :
    roundNearest x = x := by
  unfold roundNearest
  generalize ulpExp x = u at hk
  have hne : (2 : ℚ) ^ u ≠ 0 := ne_of_gt (two_zpow_pos _)
  have hq : x / 2 ^ u = ((n * (2 : ℤ) ^ (k - u).toNat : ℤ) : ℚ) := by
    rw [h, zpow_split k u hk]
    field_simp
    ring
  rw [hq, roundHalfEven_intCast, ← hq]
  exact div_mul_cancel₀ x hne

theorem roundNearest_one : roundNearest 1 = 1 :=
  roundNearest_of_multiple 1 1 0 (by
    have h : ulpExp 1 = max (-149) (0 - 23) := ulpExp_eq 1 0 (by simp) (by simp)
    rw [h]; decide) (by simp)

theorem ulpExp_neg (x : ℚ) : ulpExp (-x) = ulpExp x := by
  unfold ulpExp
  rw [abs_neg]

theorem log_mul_four (x : ℚ) (hx : x ≠ 0) : Int.log 2 |4 * x| = Int.log 2 |x| + 2 := by
  have hpos : 0 < |x| := abs_pos.mpr hx
  have h1 : ((2 : ℕ) : ℚ) ^ Int.log 2 |x| ≤ |x| := Int.zpow_log_le_self (by norm_num) hpos
  have h2 : |x| < ((2 : ℕ) : ℚ) ^ (Int.log 2 |x| + 1) :=
    Int.lt_zpow_succ_log_self (by norm_num) |x|
  simp only [Nat.cast_ofNat] at h1 h2
  apply log_eq
  · rw [zpow_add₀ (by norm_num : (2 : ℚ) ≠ 0), abs_mul]
    norm_num
    linarith
  · rw [show Int.log 2 |x| + 2 + 1 = (Int.log 2 |x| + 1) + 2 by ring,
      zpow_add₀ (by norm_num : (2 : ℚ) ≠ 0), abs_mul]
    norm_num
    linarith

theorem roundNearest_mul_four (x : ℚ) (h : roundNearest x = x) : roundNearest (4 * x) = 4 * x := by
  by_cases hx : x = 0
  · rw [hx]; simpa using roundNearest_zero
  · apply roundNearest_of_multiple (4 * x) (roundHalfEven (x / 2 ^ ulpExp x)) (ulpExp x + 2)
    · unfold ulpExp
      rw [log_mul_four x hx]
      omega
    · rw [zpow_add₀ (by norm_num : (2 : ℚ) ≠ 0)]
      have hx2 : (roundHalfEven (x / 2 ^ ulpExp x) : ℚ) * 2 ^ ulpExp x = x := h
      calc 4 * x = 4 * ((roundHalfEven (x / 2 ^ ulpExp x) : ℚ) * 2 ^ ulpExp x) := by rw [hx2]
        _ = _ := by norm_num; ring

theorem roundNearest_neg_of_float (x : ℚ) (h : roundNearest x = x) : roundNearest (-x) = -x := by
  apply roundNearest_of_multiple (-x) (-roundHalfEven (x / 2 ^ ulpExp x)) (ulpExp x)
  · rw [ulpExp_neg]
  · have hx2 : (roundHalfEven (x / 2 ^ ulpExp x) : ℚ) * 2 ^ ulpExp x = x := h
    push_cast
    linarith

theorem roundNearest_le_of_le (x : ℚ) (m k : ℤ) (hk : ulpExp x ≤ k) (h : x ≤ m * 2 ^ k) :
    roundNearest x ≤ m * 2 ^ k := by
  unfold roundNearest
  generalize ulpExp x = u at hk
  have hpos : (0 : ℚ) < 2 ^ u := two_zpow_pos u
  have hq : x / 2 ^ u ≤ ((m * (2 : ℤ) ^ (k - u).toNat : ℤ) : ℚ) := by
    rw [div_le_iff₀ hpos]
    rw [zpow_split k u hk] at h
    push_cast at h ⊢
    linarith
  have hr := roundHalfEven_mono hq
  rw [roundHalfEven_intCast] at hr
  have hc : (roundHalfEven (x / 2 ^ u) : ℚ) ≤ ((m * (2 : ℤ) ^ (k - u).toNat : ℤ) : ℚ) := by
    exact_mod_cast hr
  rw [zpow_split k u hk]
  have := mul_le_mul_of_nonneg_right hc (le_of_lt hpos)
  push_cast at this ⊢
  linarith

theorem roundNearest_ge_of_ge (x : ℚ) (m k : ℤ) (hk : ulpExp x ≤ k) (h : (m : ℚ) * 2 ^ k ≤ x) :
    (m : ℚ) * 2 ^ k ≤ roundNearest x := by
  unfold roundNearest
  generalize ulpExp x = u at hk
  have hpos : (0 : ℚ) < 2 ^ u := two_zpow_pos u
  have hq : ((m * (2 : ℤ) ^ (k - u).toNat : ℤ) : ℚ) ≤ x / 2 ^ u := by
    rw [le_div_iff₀ hpos]
    rw [zpow_split k u hk] at h
    push_cast at h ⊢
    linarith
  have hr := roundHalfEven_mono hq
  rw [roundHalfEven_intCast] at hr
  have hc : ((m * (2 : ℤ) ^ (k - u).toNat : ℤ) : ℚ) ≤ (roundHalfEven (x / 2 ^ u) : ℚ) := by
    exact_mod_cast hr
  rw [zpow_split k u hk]
  have := mul_le_mul_of_nonneg_right hc (le_of_lt hpos)
  push_cast at this ⊢
  linarith

theorem roundNearest_mono_pos {x y : ℚ} (hx : 0 < x) (hxy : x ≤ y) :
    roundNearest x ≤ roundNearest y := by
  have hy : 0 < y := lt_of_lt_of_le hx hxy
  have hlog : Int.log 2 |x| ≤ Int.log 2 |y| := by
    apply Int.log_mono_right (abs_pos.mpr (ne_of_gt hx))
    rw [abs_of_pos hx, abs_of_pos hy]; exact hxy
  by_cases hu : ulpExp x = ulpExp y
  · unfold roundNearest
    rw [hu]
    have hpos : (0 : ℚ) < 2 ^ ulpExp y := two_zpow_pos _
    have hq : x / 2 ^ ulpExp y ≤ y / 2 ^ ulpExp y := div_le_div_of_nonneg_right hxy (le_of_lt hpos)
    have hr := roundHalfEven_mono hq
    have hc : (roundHalfEven (x / 2 ^ ulpExp y) : ℚ) ≤ (roundHalfEven (y / 2 ^ ulpExp y) : ℚ) := by
      exact_mod_cast hr
    exact mul_le_mul_of_nonneg_right hc (le_of_lt hpos)
  · have hlt : Int.log 2 |x| < Int.log 2 |y| := by
      rcases lt_or_eq_of_le hlog with h | h
      · exact h
      · exfalso; apply hu; unfold ulpExp; rw [h]
    have hu2 : max (-149) (Int.log 2 |x| - 23) ≠ max (-149) (Int.log 2 |y| - 23) := hu
    have h1 : |x| < ((2 : ℕ) : ℚ) ^ (Int.log 2 |x| + 1) :=
      Int.lt_zpow_succ_log_self (by norm_num) |x|
    have h2 : ((2 : ℕ) : ℚ) ^ Int.log 2 |y| ≤ |y| :=
      Int.zpow_log_le_self (by norm_num) (abs_pos.mpr (ne_of_gt hy))
    simp only [Nat.cast_ofNat] at h1 h2
    have h1x : x < (2 : ℚ) ^ (Int.log 2 |x| + 1) := lt_of_le_of_lt (le_abs_self x) h1
    have h2y : (2 : ℚ) ^ Int.log 2 |y| ≤ y := le_trans h2 (le_of_eq (abs_of_pos hy))
    have h3 : (2 : ℚ) ^ (Int.log 2 |x| + 1) ≤ 2 ^ Int.log 2 |y| :=
      zpow_le_zpow_right₀ (by norm_num) (by omega)
    have hB : ((1 : ℤ) : ℚ) * 2 ^ Int.log 2 |y| = 2 ^ Int.log 2 |y| := by simp
    have ha : roundNearest x ≤ ((1 : ℤ) : ℚ) * 2 ^ Int.log 2 |y| := by
      apply roundNearest_le_of_le
      · unfold ulpExp; omega
      · rw [hB]; linarith
    have hb : ((1 : ℤ) : ℚ) * 2 ^ Int.log 2 |y| ≤ roundNearest y := by
      apply roundNearest_ge_of_ge
      · unfold ulpExp; omega
      · rw [hB]; exact h2y
    exact le_trans ha hb

theorem roundNearest_mono {x y : ℚ} (hx : 0 ≤ x) (hxy : x ≤ y) :
    roundNearest x ≤ roundNearest y := by
  rcases lt_or_eq_of_le hx with h | h
  · exact roundNearest_mono_pos h hxy
  · rw [← h, roundNearest_zero]
    exact roundNearest_nonneg (by linarith)

theorem roundNearest_sub_le (x : ℚ) :
    roundNearest x - x ≤ 2 ^ ulpExp x / 2 ∧ x - roundNearest x ≤ 2 ^ ulpExp x / 2 := by
  unfold roundNearest
  generalize ulpExp x = u
  have hpos : (0 : ℚ) < 2 ^ u := two_zpow_pos u
  have h := roundHalfEven_sub_le (x / 2 ^ u)
  have hx : x = x / 2 ^ u * 2 ^ u := (div_mul_cancel₀ x (ne_of_gt hpos)).symm
  constructor
  · have := mul_le_mul_of_nonneg_right h.1 (le_of_lt hpos)
    nlinarith
  · have := mul_le_mul_of_nonneg_right h.2 (le_of_lt hpos)
    nlinarith

theorem ulpExp_le_of_lt_one (x : ℚ) (h0 : 0 < x) (h1 : x < 1) : ulpExp x ≤ -24 := by
  have hlog : Int.log 2 |x| < 0 := by
    rw [← Int.lt_zpow_iff_log_lt (by norm_num) (abs_pos.mpr (ne_of_gt h0))]
    simpa [abs_of_pos h0] using h1
  unfold ulpExp
  omega

theorem roundNearest_unit_error (x : ℚ) (h0 : 0 ≤ x) (h1 : x ≤ 1) :
    roundNearest x - x ≤ 1 / 33554432 ∧ x - roundNearest x ≤ 1 / 33554432 := by
  rcases lt_or_eq_of_le h0 with h | h
  · rcases lt_or_eq_of_le h1 with hx2 | hx2
    · have hu := ulpExp_le_of_lt_one x h hx2
      have hb := roundNearest_sub_le x
      have hp : (2 : ℚ) ^ ulpExp x ≤ 2 ^ (-24 : ℤ) := zpow_le_zpow_right₀ (by norm_num) hu
      have hv : (2 : ℚ) ^ (-24 : ℤ) = 1 / 16777216 := by norm_num [zpow_neg]
      rw [hv] at hp
      constructor <;> linarith [hb.1, hb.2]
    · rw [hx2, roundNearest_one]; norm_num
  · rw [← h, roundNearest_zero]; norm_num

theorem roundNearest_eq_of_near_pos (x : ℚ) (e n : ℤ) (h1 : (2 : ℚ) ^ e ≤ x)
    (h2 : x < (2 : ℚ) ^ (e + 1))
    (h3 : x / 2 ^ max (-149) (e - 23) - n < 1 / 2)
    (h4 : (n : ℚ) - x / 2 ^ max (-149) (e - 23) < 1 / 2) :
    roundNearest x = n * 2 ^ max (-149) (e - 23) := by
  have hx : 0 < x := lt_of_lt_of_le (two_zpow_pos e) h1
  have ha : |x| = x := abs_of_pos hx
  exact roundNearest_eq_of_near x e n (by rw [ha]; exact h1) (by rw [ha]; exact h2) h3 h4

theorem roundNearest_eq_of_tie_pos (x : ℚ) (e n : ℤ) (h1 : (2 : ℚ) ^ e ≤ x)
    (h2 : x < (2 : ℚ) ^ (e + 1)) (heven : n % 2 = 0)
    (h3 : x / 2 ^ max (-149) (e - 23) = n + 1 / 2 ∨ x / 2 ^ max (-149) (e - 23) = n - 1 / 2) :
    roundNearest x = n * 2 ^ max (-149) (e - 23) := by
  have hx : 0 < x := lt_of_lt_of_le (two_zpow_pos e) h1
  have ha : |x| = x := abs_of_pos hx
  exact roundNearest_eq_of_tie x e n (by rw [ha]; exact h1) (by rw [ha]; exact h2) heven h3

theorem isFloat32_of_multiple (x : ℚ) (e n : ℤ) (h1 : (2 : ℚ) ^ e ≤ x)
    (h2 : x < (2 : ℚ) ^ (e + 1)) (h3 : x = n * 2 ^ max (-149) (e - 23))
    (h4 : x ≤ maxFinite) : IsFloat32 x := by
  have hx : 0 < x := lt_of_lt_of_le (two_zpow_pos e) h1
  have ha : |x| = x := abs_of_pos hx
  refine ⟨?_, by rw [ha]; exact h4⟩
  apply roundNearest_of_multiple x n (max (-149) (e - 23)) _ h3
  rw [ulpExp_eq x e (by rw [ha]; exact h1) (by rw [ha]; exact h2)]

end Binary32

namespace Bootstrap

theorem ImClamp_mem (v mn mx : ℚ) (h : mn ≤ mx) : mn ≤ ImClamp v mn mx ∧ ImClamp v mn mx ≤ mx := by
  unfold ImClamp
  split_ifs with h1 h2
  · exact ⟨le_refl _, h⟩
  · exact ⟨h, le_refl _⟩
  · exact ⟨not_lt.mp h1, not_lt.mp h2⟩

theorem fadeUpdate_alpha_mem (s : TabFade) (page : Int) (dt : ℚ) :
    0 ≤ (fadeUpdate s page dt).tab_alpha ∧ (fadeUpdate s page dt).tab_alpha ≤ 1 :=
  ImClamp_mem _ 0 1 (by norm_num)

theorem runFrames_alpha_mem (frames : List (Int × ℚ)) :
    ∀ s : TabFade, 0 ≤ s.tab_alpha ∧ s.tab_alpha ≤ 1 →
      0 ≤ (runFrames s frames).tab_alpha ∧ (runFrames s frames).tab_alpha ≤ 1 := by
  induction frames with
  | nil => intro s h; exact h
  | cons f rest ih =>
    intro s _
    exact ih (fadeUpdate s f.1 f.2) (fadeUpdate_alpha_mem s f.1 f.2)

theorem fadeUpdate_tab_add (s : TabFade) (page : Int) (dt : ℚ) :
    (fadeUpdate s page dt).tab_add = s.tab_add := rfl

theorem runFrames_tab_add (frames : List (Int × ℚ)) :
    ∀ s : TabFade, (runFrames s frames).tab_add = s.tab_add := by
  induction frames with
  | nil => intro s; rfl
  | cons f rest ih =>
    intro s
    show (runFrames (fadeUpdate s f.1 f.2) rest).tab_add = s.tab_add
    rw [ih, fadeUpdate_tab_add]

/-- C2: the tab fade alpha starts at 0 (with `active_tab = 0`) and, after any finite
sequence of frames with arbitrary elapsed times (of any sign) and arbitrary page
selections, lies in the interval from 0 to 1. -/
theorem tab_alpha_clamped (frames : List (Int × ℚ)) :
    TabFade.init.tab_alpha = 0 ∧ TabFade.init.active_tab = 0 ∧
      0 ≤ (runFrames TabFade.init frames).tab_alpha ∧
      (runFrames TabFade.init frames).tab_alpha ≤ 1 :=
  ⟨rfl, rfl, runFrames_alpha_mem frames TabFade.init ⟨le_refl _, by norm_num [TabFade.init]⟩⟩

theorem fadeUpdate32_alpha_rise (s : TabFade) (page : Int) (dt : ℚ)
    (hf : Binary32.roundNearest dt = dt) (hp : page = s.active_tab) :
    (fadeUpdate32 s page dt).tab_alpha =
      ImClamp (Binary32.roundNearest (s.tab_alpha + 4 * dt)) 0 1 := by
  have h4 := Binary32.roundNearest_mul_four dt hf
  simp only [fadeUpdate32, hp, if_true, mul_one, h4]

theorem fadeUpdate32_alpha_fall (s : TabFade) (page : Int) (dt : ℚ)
    (hf : Binary32.roundNearest dt = dt) (hp : page ≠ s.active_tab) :
    (fadeUpdate32 s page dt).tab_alpha =
      ImClamp (Binary32.roundNearest (s.tab_alpha - 4 * dt)) 0 1 := by
  have h4 := Binary32.roundNearest_mul_four dt hf
  have hn := Binary32.roundNearest_neg_of_float (4 * dt) h4
  have he : 4 * dt * -1 = -(4 * dt) := by ring
  simp only [fadeUpdate32, hp, if_false, h4, he, hn, ← sub_eq_add_neg]

theorem isFloat32_twentieth : Binary32.IsFloat32 (13421773 / 268435456) :=
  Binary32.isFloat32_of_multiple _ (-5) 13421773 (by norm_num) (by norm_num) (by norm_num)
    (by norm_num [Binary32.maxFinite])

theorem isFloat32_sixtyHertz : Binary32.IsFloat32 sixtyHertz :=
  Binary32.isFloat32_of_multiple _ (-6) 8947849 (by norm_num [sixtyHertz])
    (by norm_num [sixtyHertz]) (by norm_num [sixtyHertz])
    (by norm_num [sixtyHertz, Binary32.maxFinite])

theorem isFloat32_one : Binary32.IsFloat32 1 :=
  Binary32.isFloat32_of_multiple _ 0 8388608 (by norm_num) (by norm_num) (by norm_num)
    (by norm_num [Binary32.maxFinite])

/-- With alpha 1, a page other than the active tab and the elapsed time 0.05f (the
binary32 value 13421773 * 2^-28), the stored alpha is 13421773 * 2^-24, which is not
`max 0 (1 - 4 * dt)` = 53687091 * 2^-26. -/
theorem fadeUpdate32_inexact_rate :
    Binary32.IsFloat32 (13421773 / 268435456) ∧ (0 : ℚ) ≤ 13421773 / 268435456 ∧
    (1 : Int) ≠ (TabFade.mk 1 0 0).active_tab ∧
    (fadeUpdate32 ⟨1, 0, 0⟩ 1 (13421773 / 268435456)).tab_alpha = 13421773 / 16777216 ∧
    (fadeUpdate32 ⟨1, 0, 0⟩ 1 (13421773 / 268435456)).tab_alpha ≠
      max 0 (1 - 4 * (13421773 / 268435456)) := by
  have hval : (fadeUpdate32 ⟨1, 0, 0⟩ 1 (13421773 / 268435456)).tab_alpha =
      13421773 / 16777216 := by
    rw [fadeUpdate32_alpha_fall _ _ _ isFloat32_twentieth.1 (by decide)]
    have hr := Binary32.roundNearest_eq_of_near_pos (1 - 4 * (13421773 / 268435456)) (-1)
      13421773 (by norm_num) (by norm_num) (by norm_num) (by norm_num)
    show ImClamp (Binary32.roundNearest (1 - 4 * (13421773 / 268435456))) 0 1 = _
    rw [hr]
    norm_num [ImClamp]
  refine ⟨isFloat32_twentieth, by norm_num, by decide, hval, ?_⟩
  rw [hval]
  norm_num


/-- C3: for a float32 elapsed time `dt ≥ 0` and a float32 alpha in the unit interval,
the new alpha is the float32 nearest to `alpha + 4 * dt`, capped at 1, when
`page = active_tab`, and the float32 nearest to `alpha - 4 * dt`, floored at 0,
otherwise; it never moves away from its target and lies within 2^-25 of the exact
`min 1 (alpha + 4 * dt)`, respectively `max 0 (alpha - 4 * dt)`. -/
theorem fadeUpdate32_rate (s : TabFade) (page : Int) (dt : ℚ)
    (hdt : 0 ≤ dt) (hf : Binary32.IsFloat32 dt)
    (h0 : 0 ≤ s.tab_alpha) (h1 : s.tab_alpha ≤ 1) (ha : Binary32.IsFloat32 s.tab_alpha) :
    (page = s.active_tab →
      (fadeUpdate32 s page dt).tab_alpha =
        min 1 (Binary32.roundNearest (s.tab_alpha + 4 * dt)) ∧
      s.tab_alpha ≤ (fadeUpdate32 s page dt).tab_alpha ∧
      |(fadeUpdate32 s page dt).tab_alpha - min 1 (s.tab_alpha + 4 * dt)| ≤ 1 / 33554432) ∧
    (page ≠ s.active_tab →
      (fadeUpdate32 s page dt).tab_alpha =
        max 0 (Binary32.roundNearest (s.tab_alpha - 4 * dt)) ∧
      (fadeUpdate32 s page dt).tab_alpha ≤ s.tab_alpha ∧
      |(fadeUpdate32 s page dt).tab_alpha - max 0 (s.tab_alpha - 4 * dt)| ≤ 1 / 33554432) := by
  constructor
  · intro hp
    have hx0 : 0 ≤ s.tab_alpha + 4 * dt := by linarith
    have hr0 := Binary32.roundNearest_nonneg hx0
    have hmono : s.tab_alpha ≤ Binary32.roundNearest (s.tab_alpha + 4 * dt) := by
      have := Binary32.roundNearest_mono h0 (show s.tab_alpha ≤ s.tab_alpha + 4 * dt by linarith)
      rw [ha.1] at this
      exact this
    have hval : (fadeUpdate32 s page dt).tab_alpha =
        min 1 (Binary32.roundNearest (s.tab_alpha + 4 * dt)) := by
      rw [fadeUpdate32_alpha_rise s page dt hf.1 hp]
      unfold ImClamp
      split_ifs with h2 h3
      · exfalso; linarith
      · exact (min_eq_left (le_of_lt h3)).symm
      · exact (min_eq_right (not_lt.mp h3)).symm
    refine ⟨hval, ?_, ?_⟩
    · rw [hval]; exact le_min h1 hmono
    · rw [hval]
      by_cases hx1 : s.tab_alpha + 4 * dt < 1
      · have hle := Binary32.roundNearest_mono hx0 (le_of_lt hx1)
        rw [Binary32.roundNearest_one] at hle
        have herr := Binary32.roundNearest_unit_error _ hx0 (le_of_lt hx1)
        rw [min_eq_right hle, min_eq_right (le_of_lt hx1), abs_le]
        constructor <;> linarith [herr.1, herr.2]
      · have hge := Binary32.roundNearest_mono (by norm_num : (0 : ℚ) ≤ 1) (not_lt.mp hx1)
        rw [Binary32.roundNearest_one] at hge
        rw [min_eq_left hge, min_eq_left (not_lt.mp hx1)]
        norm_num
  · intro hp
    have hval0 := fadeUpdate32_alpha_fall s page dt hf.1 hp
    by_cases hx : s.tab_alpha - 4 * dt ≤ 0
    · have hr := Binary32.roundNearest_nonpos hx
      have hval : (fadeUpdate32 s page dt).tab_alpha = 0 := by
        rw [hval0]
        unfold ImClamp
        split_ifs with h2 h3
        · rfl
        · exfalso; linarith
        · linarith
      rw [hval, max_eq_left hr, max_eq_left hx]
      refine ⟨rfl, h0, by norm_num⟩
    · have hx0 : 0 ≤ s.tab_alpha - 4 * dt := le_of_lt (not_le.mp hx)
      have hr0 := Binary32.roundNearest_nonneg hx0
      have hmono : Binary32.roundNearest (s.tab_alpha - 4 * dt) ≤ s.tab_alpha := by
        have := Binary32.roundNearest_mono hx0 (show s.tab_alpha - 4 * dt ≤ s.tab_alpha by linarith)
        rw [ha.1] at this
        exact this
      have hval : (fadeUpdate32 s page dt).tab_alpha =
          Binary32.roundNearest (s.tab_alpha - 4 * dt) := by
        rw [hval0]
        unfold ImClamp
        split_ifs with h2 h3
        · exfalso; linarith
        · exfalso; linarith
        · rfl
      have herr := Binary32.roundNearest_unit_error _ hx0 (by linarith)
      rw [hval, max_eq_right hr0, max_eq_right hx0, abs_le]
      refine ⟨rfl, hmono, ?_, ?_⟩ <;> linarith [herr.1, herr.2]

theorem fadeUpdate32_rate_witness :
    (fadeUpdate32 ⟨1, 0, 0⟩ 0 sixtyHertz).tab_alpha =
        min 1 (Binary32.roundNearest (1 + 4 * sixtyHertz)) ∧
      (fadeUpdate32 ⟨1, 0, 0⟩ 3 sixtyHertz).tab_alpha ≤ 1 ∧
      |(fadeUpdate32 ⟨1, 0, 0⟩ 3 sixtyHertz).tab_alpha - max 0 (1 - 4 * sixtyHertz)| ≤
        1 / 33554432 :=
  ⟨((fadeUpdate32_rate ⟨1, 0, 0⟩ 0 sixtyHertz (by norm_num [sixtyHertz]) isFloat32_sixtyHertz
      (by norm_num) (by norm_num) isFloat32_one).1 rfl).1,
   ((fadeUpdate32_rate ⟨1, 0, 0⟩ 3 sixtyHertz (by norm_num [sixtyHertz]) isFloat32_sixtyHertz
      (by norm_num) (by norm_num) isFloat32_one).2 (by decide)).2⟩

/-- C4: in every frame of every run from the initial state, `tab_add` is 0 and
`active_tab` after the update is `page` if the updated alpha is exactly 0 and its
previous value otherwise; in particular it is unchanged when the updated alpha is
non-zero. -/
theorem active_tab_switch (frames : List (Int × ℚ)) (page : Int) (dt : ℚ) :
    (runFrames TabFade.init frames).tab_add = 0 ∧
    (fadeUpdate (runFrames TabFade.init frames) page dt).active_tab =
      (if (fadeUpdate (runFrames TabFade.init frames) page dt).tab_alpha = 0 then page
       else (runFrames TabFade.init frames).active_tab) ∧
    ((fadeUpdate (runFrames TabFade.init frames) page dt).tab_alpha ≠ 0 →
      (fadeUpdate (runFrames TabFade.init frames) page dt).active_tab =
        (runFrames TabFade.init frames).active_tab) := by
  have hadd : (runFrames TabFade.init frames).tab_add = 0 := runFrames_tab_add frames _
  have hsw : (fadeUpdate (runFrames TabFade.init frames) page dt).active_tab =
      (if (fadeUpdate (runFrames TabFade.init frames) page dt).tab_alpha = 0 then page
       else (runFrames TabFade.init frames).active_tab) := by
    simp only [fadeUpdate, hadd, and_true]
  refine ⟨hadd, hsw, ?_⟩
  intro hne
  rw [hsw, if_neg hne]

end Bootstrap

namespace edited

open ImGui

variable {σ : Type}

theorem RangeSliderFloat_issued (T : Toolkit σ) (label : String) (v1 v2 v_min v_max : ℚ)
    (fmt : String) (power : ℚ) (w : World σ) :
    ∃ c1 c2 : Bool,
      issued w.log (RangeSliderFloat T label v1 v2 v_min v_max fmt power w).2 =
        [Event.Text label,
         Event.SliderFloat "##min" v1 v_min v_max fmt 0 c1
           (RangeSliderFloat T label v1 v2 v_min v_max fmt power w).1.v1,
         Event.SameLine,
         Event.SliderFloat "##max" v2 v_min v_max fmt 0 c2
           (RangeSliderFloat T label v1 v2 v_min v_max fmt power w).1.v2] ∧
      (RangeSliderFloat T label v1 v2 v_min v_max fmt power w).1.changed = (c1 || c2) := by
  refine ⟨(ImGui.SliderFloat T "##min" v1 v_min v_max fmt 0 (ImGui.Text T label w)).1.changed,
    (ImGui.SliderFloat T "##max" v2 v_min v_max fmt 0 (ImGui.SameLine T
      (ImGui.SliderFloat T "##min" v1 v_min v_max fmt 0 (ImGui.Text T label w)).2)).1.changed,
    ?_, ?_⟩
  · simp only [issued, RangeSliderFloat, ImGui.Text, ImGui.SliderFloat, ImGui.SameLine,
      List.append_assoc, List.drop_left]
    rfl
  · simp [RangeSliderFloat]

theorem CheckboxPicker_issued (T : Toolkit σ) (label : String) (v : Bool) (col : Color3)
    (flags : Nat) (w : World σ) :
    ∃ c1 c2 : Bool,
      issued w.log (CheckboxPicker T label v col flags w).2 =
        [Event.Checkbox label v c1 (CheckboxPicker T label v col flags w).1.v,
         Event.SameLine,
         Event.ColorEdit3 "##color" col flags c2 (CheckboxPicker T label v col flags w).1.col] ∧
      (CheckboxPicker T label v col flags w).1.changed = (c1 || c2) := by
  refine ⟨(ImGui.Checkbox T label v w).1.changed,
    (ImGui.ColorEdit3 T "##color" col flags
      (ImGui.SameLine T (ImGui.Checkbox T label v w).2)).1.changed, ?_, ?_⟩
  · simp only [issued, CheckboxPicker, ImGui.Checkbox, ImGui.ColorEdit3, ImGui.SameLine,
      List.append_assoc, List.drop_left]
    rfl
  · simp [CheckboxPicker]

theorem CheckboxDoublePicker_issued (T : Toolkit σ) (label : String) (v : Bool)
    (col1 col2 : Color3) (flags : Nat) (w : World σ) :
    ∃ c1 c2 c3 : Bool,
      issued w.log (CheckboxDoublePicker T label v col1 col2 flags w).2 =
        [Event.Checkbox label v c1 (CheckboxDoublePicker T label v col1 col2 flags w).1.v,
         Event.SameLine,
         Event.ColorEdit3 "##color1" col1 flags c2
           (CheckboxDoublePicker T label v col1 col2 flags w).1.col1,
         Event.SameLine,
         Event.ColorEdit3 "##color2" col2 flags c3
           (CheckboxDoublePicker T label v col1 col2 flags w).1.col2] ∧
      (CheckboxDoublePicker T label v col1 col2 flags w).1.changed = (c1 || c2 || c3) := by
  refine ⟨(ImGui.Checkbox T label v w).1.changed,
    (ImGui.ColorEdit3 T "##color1" col1 flags
      (ImGui.SameLine T (ImGui.Checkbox T label v w).2)).1.changed,
    (ImGui.ColorEdit3 T "##color2" col2 flags (ImGui.SameLine T
      (ImGui.ColorEdit3 T "##color1" col1 flags
        (ImGui.SameLine T (ImGui.Checkbox T label v w).2)).2)).1.changed, ?_, ?_⟩
  · simp only [issued, CheckboxDoublePicker, ImGui.Checkbox, ImGui.ColorEdit3, ImGui.SameLine,
      List.append_assoc, List.drop_left]
    rfl
  · simp [CheckboxDoublePicker]

/-- C5: for every toolkit, label, bounds, format and slider outcome,
`edited::RangeSliderFloat` makes exactly two `SliderFloat` calls and returns true
if and only if at least one of them reported a change. -/
theorem RangeSliderFloat_changed_iff (T : Toolkit σ) (label : String) (v1 v2 v_min v_max : ℚ)
    (fmt : String) (power : ℚ) (w : World σ) :
    ((issued w.log (RangeSliderFloat T label v1 v2 v_min v_max fmt power w).2).filter
        Event.isSlider).length = 2 ∧
    ((RangeSliderFloat T label v1 v2 v_min v_max fmt power w).1.changed = true ↔
      ∃ e ∈ issued w.log (RangeSliderFloat T label v1 v2 v_min v_max fmt power w).2,
        e.isSlider = true ∧ e.reported = true) := by
  obtain ⟨c1, c2, hlog, hch⟩ := RangeSliderFloat_issued T label v1 v2 v_min v_max fmt power w
  rw [hlog, hch]
  refine ⟨by simp [Event.isSlider], ?_⟩
  simp only [List.mem_cons, List.mem_singleton, List.not_mem_nil, or_false,
    exists_eq_or_imp, exists_eq_left, Event.isSlider, Event.reported]
  cases c1 <;> cases c2 <;> simp

/-- C6: `edited::RangeSliderFloat` writes neither value itself: the calls it makes are
the label text, the `##min` slider on `*v1`, `SameLine` and the `##max` slider on
`*v2`, and the values on return are exactly what the two sliders left; for some
slider outcome, even starting from ordered values inside the range, it returns with
`*v1 > *v2`. -/
theorem RangeSliderFloat_no_ordering :
    (∀ (τ : Type) (T : Toolkit τ) (label : String) (v1 v2 v_min v_max : ℚ) (fmt : String)
        (power : ℚ) (w : World τ),
      ∃ (c1 c2 : Bool) (o1 o2 : ℚ),
        issued w.log (RangeSliderFloat T label v1 v2 v_min v_max fmt power w).2 =
          [Event.Text label,
           Event.SliderFloat "##min" v1 v_min v_max fmt 0 c1 o1,
           Event.SameLine,
           Event.SliderFloat "##max" v2 v_min v_max fmt 0 c2 o2] ∧
        (RangeSliderFloat T label v1 v2 v_min v_max fmt power w).1.v1 = o1 ∧
        (RangeSliderFloat T label v1 v2 v_min v_max fmt power w).1.v2 = o2) ∧
    (∃ (T : Toolkit Unit) (v1 v2 v_min v_max : ℚ),
      v_min ≤ v1 ∧ v1 ≤ v2 ∧ v2 ≤ v_max ∧
      (RangeSliderFloat T "Range" v1 v2 v_min v_max "%.1f" 1 ⟨(), []⟩).1.v1 >
        (RangeSliderFloat T "Range" v1 v2 v_min v_max "%.1f" 1 ⟨(), []⟩).1.v2) := by
  constructor
  · intro τ T label v1 v2 v_min v_max fmt power w
    obtain ⟨c1, c2, hlog, _⟩ := RangeSliderFloat_issued T label v1 v2 v_min v_max fmt power w
    exact ⟨c1, c2, _, _, hlog, rfl, rfl⟩
  · refine ⟨dragMinToEnd, 20, 50, 0, 100, by norm_num, by norm_num, by norm_num, ?_⟩
    simp [RangeSliderFloat, ImGui.Text, ImGui.SliderFloat, ImGui.SameLine, dragMinToEnd]
    norm_num

/-- C10: `edited::CheckboxPicker` makes one checkbox call and one colour-editor call
and returns true exactly when one of them reported a change (false when neither
did); `edited::CheckboxDoublePicker` makes one checkbox call and two colour-editor
calls and returns true exactly when at least one of the three reported a change. -/
theorem CheckboxPicker_changed_iff (T : Toolkit σ) (label : String) (v : Bool)
    (col col1 col2 : Color3) (flags : Nat) (w : World σ) :
    (((issued w.log (CheckboxPicker T label v col flags w).2).filter Event.isCheckbox).length = 1 ∧
     ((issued w.log (CheckboxPicker T label v col flags w).2).filter Event.isColorEdit).length = 1 ∧
     ((CheckboxPicker T label v col flags w).1.changed = true ↔
        ∃ e ∈ issued w.log (CheckboxPicker T label v col flags w).2,
          (e.isCheckbox = true ∨ e.isColorEdit = true) ∧ e.reported = true)) ∧
    (((issued w.log (CheckboxDoublePicker T label v col1 col2 flags w).2).filter
        Event.isCheckbox).length = 1 ∧
     ((issued w.log (CheckboxDoublePicker T label v col1 col2 flags w).2).filter
        Event.isColorEdit).length = 2 ∧
     ((CheckboxDoublePicker T label v col1 col2 flags w).1.changed = true ↔
        ∃ e ∈ issued w.log (CheckboxDoublePicker T label v col1 col2 flags w).2,
          (e.isCheckbox = true ∨ e.isColorEdit = true) ∧ e.reported = true)) := by
  constructor
  · obtain ⟨c1, c2, hlog, hch⟩ := CheckboxPicker_issued T label v col flags w
    rw [hlog, hch]
    refine ⟨by simp [Event.isCheckbox], by simp [Event.isColorEdit], ?_⟩
    simp only [List.mem_cons, List.mem_singleton, List.not_mem_nil, or_false,
      exists_eq_or_imp, exists_eq_left, Event.isCheckbox, Event.isColorEdit, Event.reported]
    cases c1 <;> cases c2 <;> simp
  · obtain ⟨c1, c2, c3, hlog, hch⟩ := CheckboxDoublePicker_issued T label v col1 col2 flags w
    rw [hlog, hch]
    refine ⟨by simp [Event.isCheckbox], by simp [Event.isColorEdit], ?_⟩
    simp only [List.mem_cons, List.mem_singleton, List.not_mem_nil, or_false,
      exists_eq_or_imp, exists_eq_left, Event.isCheckbox, Event.isColorEdit, Event.reported]
    cases c1 <;> cases c2 <;> cases c3 <;> simp

end edited

namespace Boundary

theorem tables_agree :
    standalone_ragnarek_cpp = ragnarek_wrapper_cpp ∧ wrapper_h = ragnarek_wrapper_cpp :=
  ⟨rfl, rfl⟩

theorem names_nodup : (names ragnarek_wrapper_cpp).Nodup := by
  decide

theorem typeOf_isSome_of_mem (f : List Signature) (n : String) (h : n ∈ names f) :
    (typeOf f n).isSome = true := by
  unfold names at h
  obtain ⟨s, hs, rfl⟩ := List.mem_map.mp h
  unfold typeOf
  cases hfind : f.find? (fun t => t.name == s.name) with
  | none =>
    have hno := List.find?_eq_none.mp hfind s hs
    simp at hno
  | some t => rfl

/-- C7: the C-linkage functions defined by ragnarek_wrapper.cpp, those defined by
standalone_ragnarek.cpp and those declared by wrapper.h are the same 24 names, each
occurring once per file, and every name has the same return type and the same
parameter types in the same order in all three files. -/
theorem boundary_signatures_agree :
    (names ragnarek_wrapper_cpp).length = 24 ∧
    (names ragnarek_wrapper_cpp).Nodup ∧ (names standalone_ragnarek_cpp).Nodup ∧
    (names wrapper_h).Nodup ∧
    (∀ n, n ∈ names ragnarek_wrapper_cpp ↔ n ∈ names standalone_ragnarek_cpp) ∧
    (∀ n, n ∈ names ragnarek_wrapper_cpp ↔ n ∈ names wrapper_h) ∧
    (∀ n, n ∈ names ragnarek_wrapper_cpp →
      (typeOf ragnarek_wrapper_cpp n).isSome = true ∧
      typeOf standalone_ragnarek_cpp n = typeOf ragnarek_wrapper_cpp n ∧
      typeOf wrapper_h n = typeOf ragnarek_wrapper_cpp n) := by
  refine ⟨rfl, names_nodup, ?_, ?_, ?_, ?_, ?_⟩
  · rw [tables_agree.1]; exact names_nodup
  · rw [tables_agree.2]; exact names_nodup
  · intro n; rw [tables_agree.1]
  · intro n; rw [tables_agree.2]
  · intro n hn
    refine ⟨typeOf_isSome_of_mem _ n hn, ?_, ?_⟩
    · rw [tables_agree.1]
    · rw [tables_agree.2]

end Boundary

namespace Bootstrap

theorem CleanupDeviceD3D_trace (m : Machine) :
    (CleanupDeviceD3D m).trace = m.trace ++ owedReleases m.g := by
  obtain ⟨⟨d, c, s, w, h, v⟩, t⟩ := m
  cases d <;> cases c <;> cases s <;> cases v <;>
    simp [CleanupDeviceD3D, CleanupRenderTarget, owedReleases]

theorem CleanupDeviceD3D_globals (m : Machine) :
    (CleanupDeviceD3D m).g =
      { g_pd3dDevice := none, g_pd3dDeviceContext := none, g_pSwapChain := none,
        g_ResizeWidth := m.g.g_ResizeWidth, g_ResizeHeight := m.g.g_ResizeHeight,
        g_mainRenderTargetView := none } := by
  obtain ⟨⟨d, c, s, w, h, v⟩, t⟩ := m
  cases d <;> cases c <;> cases s <;> cases v <;> rfl

theorem owedReleases_all_release (g : Globals) :
    ∀ c ∈ owedReleases g, ∃ r h, c = Call.Release r h ∧ g.pointer r = some h := by
  obtain ⟨d, c, s, w, h, v⟩ := g
  intro x hx
  simp only [owedReleases, List.mem_append, Option.mem_toList, Option.mem_def,
    Option.map_eq_some'] at hx
  rcases hx with ((⟨a, ha, rfl⟩ | ⟨a, ha, rfl⟩) | ⟨a, ha, rfl⟩) | ⟨a, ha, rfl⟩
  · exact ⟨_, _, rfl, ha⟩
  · exact ⟨_, _, rfl, ha⟩
  · exact ⟨_, _, rfl, ha⟩
  · exact ⟨_, _, rfl, ha⟩

theorem owedReleases_count (g : Globals) (r : Resource) (h : Handle) :
    (owedReleases g).count (Call.Release r h) = if g.pointer r = some h then 1 else 0 := by
  obtain ⟨d, c, s, w, h0, v⟩ := g
  cases r <;> cases d <;> cases c <;> cases s <;> cases v <;>
    simp [owedReleases, Globals.pointer, List.count_cons]

/-- C8: for every state of the four interface pointers, `CleanupDeviceD3D` calls
`Release` exactly once on each pointer that was non-null (in the order view, swap
chain, context, device), makes no other call, leaves all four pointers null, and a
second call makes no call at all. -/
theorem CleanupDeviceD3D_releases (m : Machine) :
    (CleanupDeviceD3D m).trace = m.trace ++ owedReleases m.g ∧
    (∀ (r : Resource) (h : Handle),
      (owedReleases m.g).count (Call.Release r h) = if m.g.pointer r = some h then 1 else 0) ∧
    (∀ c ∈ owedReleases m.g, ∃ r h, c = Call.Release r h ∧ m.g.pointer r = some h) ∧
    (CleanupDeviceD3D m).g.g_mainRenderTargetView = none ∧
    (CleanupDeviceD3D m).g.g_pSwapChain = none ∧
    (CleanupDeviceD3D m).g.g_pd3dDeviceContext = none ∧
    (CleanupDeviceD3D m).g.g_pd3dDevice = none ∧
    owedReleases (CleanupDeviceD3D m).g = [] ∧
    CleanupDeviceD3D (CleanupDeviceD3D m) = CleanupDeviceD3D m := by
  have hg := CleanupDeviceD3D_globals m
  have howed : owedReleases (CleanupDeviceD3D m).g = [] := by rw [hg]; rfl
  refine ⟨CleanupDeviceD3D_trace m, owedReleases_count m.g, owedReleases_all_release m.g,
    by rw [hg], by rw [hg], by rw [hg], by rw [hg], howed, ?_⟩
  have ht := CleanupDeviceD3D_trace (CleanupDeviceD3D m)
  have hg2 := CleanupDeviceD3D_globals (CleanupDeviceD3D m)
  rw [howed, List.append_nil] at ht
  rw [hg] at hg2
  simp only at hg2
  rw [← hg] at hg2
  cases hc : CleanupDeviceD3D (CleanupDeviceD3D m) with
  | mk g2 t2 =>
    rw [hc] at ht hg2
    simp only at ht hg2
    cases hm : CleanupDeviceD3D m with
    | mk g1 t1 =>
      rw [hm] at ht hg2
      simp only at ht hg2
      rw [ht, hg2]

end Bootstrap

namespace Bootstrap

theorem pumpMessages_done (sdk : WinSdk) (l : List Pumped) :
    ∀ (m : Machine) (done : Bool),
      (pumpMessages sdk l m done).2 =
        (done || l.any fun x => decide (x = Pumped.retrieved Message.WM_QUIT)) := by
  induction l with
  | nil => intro m done; simp [pumpMessages]
  | cons x rest ih =>
    intro m done
    cases x with
    | retrieved msg =>
      simp only [pumpMessages, ih, List.any_cons]
      by_cases hq : msg = Message.WM_QUIT
      · subst hq; simp
      · simp [hq]
    | wndProc msg wParam lParam handled =>
      simp only [pumpMessages, ih, List.any_cons]
      simp

theorem frameLoop_isSome (sdk : WinSdk) (P : Platform) (script : List Pass) :
    ∀ m : Machine, (frameLoop sdk P script m).isSome = script.any Pass.quits := by
  induction script with
  | nil => intro m; rfl
  | cons p rest ih =>
    intro m
    have hd : (pumpMessages sdk p.pump m false).2 = p.quits := by
      rw [pumpMessages_done]; simp [Pass.quits]
    unfold frameLoop
    simp only [hd, List.any_cons]
    cases hq : p.quits with
    | true => simp
    | false => simp [ih]

theorem CreateDeviceD3D_failed_trace (P : Platform) (m : Machine)
    (h : (CreateDeviceD3D P m).1 = false) :
    ∃ creates : List Call, (∀ c ∈ creates, c.isCreate = true) ∧
      (CreateDeviceD3D P m).2.trace = m.trace ++ creates := by
  unfold CreateDeviceD3D at h ⊢
  by_cases h1 : (createDeviceAndSwapChain P DriverType.HARDWARE m).1 =
      HRESULT.DXGI_ERROR_UNSUPPORTED
  · simp only [h1, if_true] at h ⊢
    by_cases h2 : (createDeviceAndSwapChain P DriverType.WARP
        (createDeviceAndSwapChain P DriverType.HARDWARE m).2).1 = HRESULT.S_OK
    · simp [h2] at h
    · simp only [ne_eq, h2, not_false_eq_true, if_true]
      refine ⟨[Call.D3D11CreateDeviceAndSwapChain DriverType.HARDWARE
          (P.create DriverType.HARDWARE).res,
        Call.D3D11CreateDeviceAndSwapChain DriverType.WARP (P.create DriverType.WARP).res],
        ?_, ?_⟩
      · intro c hc
        simp only [List.mem_cons, List.mem_singleton, List.not_mem_nil, or_false] at hc
        rcases hc with rfl | rfl <;> rfl
      · simp [createDeviceAndSwapChain]
  · simp only [h1, if_false] at h ⊢
    by_cases h2 : (createDeviceAndSwapChain P DriverType.HARDWARE m).1 = HRESULT.S_OK
    · simp [h2] at h
    · simp only [ne_eq, h2, not_false_eq_true, if_true]
      refine ⟨[Call.D3D11CreateDeviceAndSwapChain DriverType.HARDWARE
          (P.create DriverType.HARDWARE).res], ?_, ?_⟩
      · intro c hc
        simp only [List.mem_singleton] at hc
        subst hc; rfl
      · simp [createDeviceAndSwapChain]

/-- C9: `main` returns 1 when `CreateDeviceD3D` returns false, having called
`CleanupDeviceD3D` and then only `UnregisterClassW`, without creating the GUI
context and without entering the frame loop; when device creation succeeds it
returns 0 as soon as a pass of the loop retrieves a quit message, and is still
running when none does. -/
theorem main_exit_code (sdk : WinSdk) (P : Platform) (script : List Pass) :
    Option.map Prod.fst (main sdk P script) =
      (if (CreateDeviceD3D P boot).1 = false then some 1
       else if script.any Pass.quits = true then some 0 else none) ∧
    ((CreateDeviceD3D P boot).1 = false →
      main sdk P script =
        some (1, (CleanupDeviceD3D (CreateDeviceD3D P boot).2).call Call.UnregisterClassW) ∧
      ∃ creates : List Call, (∀ c ∈ creates, c.isCreate = true) ∧
        ∀ m, main sdk P script = some (1, m) →
          m.trace = [Call.RegisterClassExW, Call.CreateWindowW] ++ creates ++
            owedReleases (CreateDeviceD3D P boot).2.g ++ [Call.UnregisterClassW] ∧
          Call.ImGui_CreateContext ∉ m.trace ∧
          (∀ b, Call.PeekMessage b ∉ m.trace) ∧
          Call.NewFrame ∉ m.trace ∧
          owedReleases m.g = []) := by
  constructor
  · unfold main
    cases hok : (CreateDeviceD3D P boot).1 with
    | false => simp [hok]
    | true =>
      have hsome := frameLoop_isSome sdk P script (setup (CreateDeviceD3D P boot).2)
      cases hl : frameLoop sdk P script (setup (CreateDeviceD3D P boot).2) with
      | none =>
        rw [hl] at hsome
        have hq : script.any Pass.quits = false := by simpa using hsome.symm
        simp [hq, hok, hl]
      | some mf =>
        rw [hl] at hsome
        have hq : script.any Pass.quits = true := by simpa using hsome.symm
        simp [hq, hok, hl]
  · intro hfail
    have hmain : main sdk P script =
        some (1, (CleanupDeviceD3D (CreateDeviceD3D P boot).2).call Call.UnregisterClassW) := by
      unfold main
      simp [hfail]
    refine ⟨hmain, ?_⟩
    obtain ⟨creates, hcreates, htrace⟩ := CreateDeviceD3D_failed_trace P boot hfail
    refine ⟨creates, hcreates, ?_⟩
    intro m hm
    rw [hmain] at hm
    have hmeq : m = (CleanupDeviceD3D (CreateDeviceD3D P boot).2).call Call.UnregisterClassW := by
      injection hm with hm
      injection hm with _ hm
      exact hm.symm
    have ht : m.trace = [Call.RegisterClassExW, Call.CreateWindowW] ++ creates ++
        owedReleases (CreateDeviceD3D P boot).2.g ++ [Call.UnregisterClassW] := by
      rw [hmeq]
      show (CleanupDeviceD3D (CreateDeviceD3D P boot).2).trace ++ [Call.UnregisterClassW] = _
      rw [CleanupDeviceD3D_trace, htrace]
      rfl
    have hnot : ∀ c : Call, c.isCreate = false → (∀ r h, c ≠ Call.Release r h) →
        c ≠ Call.RegisterClassExW → c ≠ Call.CreateWindowW → c ≠ Call.UnregisterClassW →
        c ∉ m.trace := by
      intro c hc hrel h1 h2 h3 hmem
      rw [ht] at hmem
      simp only [List.mem_append, List.mem_cons, List.mem_singleton, List.not_mem_nil,
        or_false] at hmem
      rcases hmem with ((hmem | hmem) | hmem) | hmem
      · rcases hmem with rfl | rfl
        · exact h1 rfl
        · exact h2 rfl
      · rw [hcreates c hmem] at hc; cases hc
      · obtain ⟨r, h, rfl, _⟩ := owedReleases_all_release _ c hmem
        exact hrel r h rfl
      · exact h3 hmem
    refine ⟨ht, ?_, ?_, ?_, ?_⟩
    · exact hnot _ rfl (by intro r h; simp) (by simp) (by simp) (by simp)
    · intro b
      exact hnot _ rfl (by intro r h; simp) (by simp) (by simp) (by simp)
    · exact hnot _ rfl (by intro r h; simp) (by simp) (by simp) (by simp)
    · rw [hmeq]
      show owedReleases (CleanupDeviceD3D (CreateDeviceD3D P boot).2).g = []
      rw [CleanupDeviceD3D_globals]; rfl

end Bootstrap

namespace Bootstrap

theorem main_exit_code_witness :
    Option.map Prod.fst (main winSdk brokenPlatform []) = some 1 ∧
    Option.map Prod.fst (main winSdk workingPlatform quitAfterOneFrame) = some 0 ∧
    Option.map (fun r => r.2.trace) (main winSdk brokenPlatform []) =
      some [Call.RegisterClassExW, Call.CreateWindowW,
        Call.D3D11CreateDeviceAndSwapChain DriverType.HARDWARE HRESULT.DXGI_ERROR_UNSUPPORTED,
        Call.D3D11CreateDeviceAndSwapChain DriverType.WARP (HRESULT.other (-2147467259)),
        Call.Release Resource.Device 7, Call.UnregisterClassW] :=
  ⟨(main_exit_code winSdk brokenPlatform []).1.trans (by decide),
   (main_exit_code winSdk workingPlatform quitAfterOneFrame).1.trans (by decide),
   by rw [((main_exit_code winSdk brokenPlatform []).2 (by decide)).1]; decide⟩

end Bootstrap

namespace edited

open ImGui

variable {σ : Type}

theorem Keybind_issued (T : Toolkit σ) (label : String) (key : Int) (show_label : Bool)
    (w : World σ) :
    issued w.log (Keybind T label key show_label w).2 =
      (if show_label = true then [Event.Text label, Event.SameLine] else []) ++
        [Event.Button (key_name key) (Keybind T label key show_label w).1.changed] := by
  cases show_label with
  | false =>
    simp only [issued, Keybind, ImGui.Button, List.drop_left]
    simp
  | true =>
    simp only [issued, Keybind, ImGui.Button, ImGui.Text, ImGui.SameLine, List.append_assoc,
      List.drop_left]
    simp

/-- C11: for every toolkit, label, key code and `show_label`, `edited::Keybind` makes
exactly one `Button` call and returns true exactly when that call reported the
button as pressed; the integer behind `key` is the same after the call as before. -/
theorem Keybind_changed_iff (T : Toolkit σ) (label : String) (key : Int) (show_label : Bool)
    (w : World σ) :
    ((issued w.log (Keybind T label key show_label w).2).filter Event.isButton).length = 1 ∧
    ((Keybind T label key show_label w).1.changed = true ↔
      ∃ e ∈ issued w.log (Keybind T label key show_label w).2,
        e.isButton = true ∧ e.reported = true) ∧
    (Keybind T label key show_label w).1.out = key := by
  have hlog := Keybind_issued T label key show_label w
  refine ⟨?_, ?_, rfl⟩
  · rw [hlog]; cases show_label <;> simp [Event.isButton]
  · constructor
    · intro h
      refine ⟨Event.Button (key_name key) (Keybind T label key show_label w).1.changed,
        ?_, rfl, h⟩
      rw [hlog]; simp
    · rintro ⟨e, he, hb, hr⟩
      rw [hlog] at he
      rcases List.mem_append.mp he with he | he
      · cases show_label with
        | false => simp at he
        | true =>
          simp only [if_true, List.mem_cons, List.mem_singleton, List.not_mem_nil,
            or_false] at he
          rcases he with rfl | rfl <;> simp [Event.isButton] at hb
      · rw [List.mem_singleton] at he
        subst he
        exact hr

theorem esp_preview_issued (T : Toolkit σ) (a : EspArgs) (w : World σ) :
    ∃ opened : Bool,
      issued w.log (esp_preview T a w).2 =
        [Event.BeginChild "ESP Preview" (200, 300) 1 0 opened, Event.Text "ESP Preview",
          Event.Separator] ++
        (if a.nickname = some true then [Event.TextColored a.nick_color "Player Name"]
         else []) ++
        (if a.weapon = some true then [Event.TextColored a.weapon_color "AK-47"] else []) ++
        (match a.hp with
         | some n =>
           if n > 0 then [Event.TextColored a.hp_color ("HP: " ++ sprintf_d n)] else []
         | none => []) ++
        [Event.EndChild] := by
  refine ⟨(ImGui.BeginChild T "ESP Preview" (200, 300) 1 0 w).1, ?_⟩
  unfold esp_preview issued
  by_cases h1 : a.nickname = some true <;> by_cases h2 : a.weapon = some true <;>
    cases hhp : a.hp with
    | none =>
      simp [h1, h2, ImGui.BeginChild, ImGui.Text, ImGui.Separator, ImGui.TextColored,
        ImGui.EndChild]
    | some n =>
      by_cases h3 : n > 0 <;>
        simp [h1, h2, h3, ImGui.BeginChild, ImGui.Text, ImGui.Separator, ImGui.TextColored,
          ImGui.EndChild]

theorem hp_text_ne (t : String) : "HP: " ++ t ≠ "Player Name" ∧ "HP: " ++ t ≠ "AK-47" := by
  constructor <;> intro h <;> have hd := congrArg String.data h <;>
    simp [String.data_append] at hd

theorem esp_preview_TextColored_mem (T : Toolkit σ) (a : EspArgs) (w : World σ)
    (c : Color4) (t : String) :
    Event.TextColored c t ∈ issued w.log (esp_preview T a w).2 ↔
      (a.nickname = some true ∧ c = a.nick_color ∧ t = "Player Name") ∨
      (a.weapon = some true ∧ c = a.weapon_color ∧ t = "AK-47") ∨
      (∃ n, a.hp = some n ∧ n > 0 ∧ c = a.hp_color ∧ t = "HP: " ++ sprintf_d n) := by
  obtain ⟨opened, hlog⟩ := esp_preview_issued T a w
  rw [hlog]
  by_cases h1 : a.nickname = some true <;> by_cases h2 : a.weapon = some true <;>
    cases hhp : a.hp with
    | none => simp [h1, h2]
    | some n => by_cases h3 : n > 0 <;> simp [h1, h2, h3]

/-- C12: after its fixed header (`BeginChild "ESP Preview"`, the text "ESP Preview"
and a separator) `edited::esp_preview` draws "Player Name" in `nick_color` exactly
when `nickname` is non-null and true, then "AK-47" in `weapon_color` exactly when
`weapon` is non-null and true, then "HP: n" with `n = *hp` in `hp_color` exactly when
`hp` is non-null and positive, then closes the child; it makes no other call. -/
theorem esp_preview_draws (T : Toolkit σ) (a : EspArgs) (w : World σ) :
    (∃ opened : Bool,
      issued w.log (esp_preview T a w).2 =
        [Event.BeginChild "ESP Preview" (200, 300) 1 0 opened, Event.Text "ESP Preview",
          Event.Separator] ++
        (if a.nickname = some true then [Event.TextColored a.nick_color "Player Name"]
         else []) ++
        (if a.weapon = some true then [Event.TextColored a.weapon_color "AK-47"] else []) ++
        (match a.hp with
         | some n =>
           if n > 0 then [Event.TextColored a.hp_color ("HP: " ++ sprintf_d n)] else []
         | none => []) ++
        [Event.EndChild]) ∧
    ((∃ c, Event.TextColored c "Player Name" ∈ issued w.log (esp_preview T a w).2) ↔
      a.nickname = some true) ∧
    ((∃ c, Event.TextColored c "AK-47" ∈ issued w.log (esp_preview T a w).2) ↔
      a.weapon = some true) ∧
    ((∃ c n, Event.TextColored c ("HP: " ++ sprintf_d n) ∈
        issued w.log (esp_preview T a w).2) ↔
      ∃ n, a.hp = some n ∧ n > 0) := by
  obtain ⟨opened, hlog⟩ := esp_preview_issued T a w
  have hmem := esp_preview_TextColored_mem T a w
  refine ⟨⟨opened, hlog⟩, ?_, ?_, ?_⟩
  · constructor
    · rintro ⟨c, hc⟩
      rcases (hmem c _).mp hc with ⟨h, _, _⟩ | ⟨_, _, h⟩ | ⟨n, _, _, _, h⟩
      · exact h
      · exact absurd h (by decide)
      · exact absurd h.symm (hp_text_ne _).1
    · intro h
      exact ⟨a.nick_color, (hmem _ _).mpr (Or.inl ⟨h, rfl, rfl⟩)⟩
  · constructor
    · rintro ⟨c, hc⟩
      rcases (hmem c _).mp hc with ⟨_, _, h⟩ | ⟨h, _, _⟩ | ⟨n, _, _, _, h⟩
      · exact absurd h (by decide)
      · exact h
      · exact absurd h.symm (hp_text_ne _).2
    · intro h
      exact ⟨a.weapon_color, (hmem _ _).mpr (Or.inr (Or.inl ⟨h, rfl, rfl⟩))⟩
  · constructor
    · rintro ⟨c, m, hc⟩
      rcases (hmem c _).mp hc with ⟨_, _, h⟩ | ⟨_, _, h⟩ | ⟨n, hn, hpos, _, _⟩
      · exact absurd h (hp_text_ne _).1
      · exact absurd h (hp_text_ne _).2
      · exact ⟨n, hn, hpos⟩
    · rintro ⟨n, hn, hpos⟩
      exact ⟨a.hp_color, n, (hmem _ _).mpr (Or.inr (Or.inr ⟨n, hn, hpos, rfl, rfl⟩))⟩

/-- C20: in `edited::RangeSliderFloat`, `edited::CheckboxPicker` and
`edited::CheckboxDoublePicker` every sub-widget is called exactly once per call, in
source order and with the caller's arguments, whatever the toolkit answered to the
earlier ones; in the session where the `##min` slider reports a change the `##max`
slider is still called. -/
theorem composite_widgets_no_short_circuit :
    (∀ (τ : Type) (T : Toolkit τ) (label : String) (v1 v2 v_min v_max : ℚ) (fmt : String)
        (power : ℚ) (w : World τ),
      ∃ (c1 c2 : Bool) (o1 o2 : ℚ),
        issued w.log (RangeSliderFloat T label v1 v2 v_min v_max fmt power w).2 =
          [Event.Text label,
           Event.SliderFloat "##min" v1 v_min v_max fmt 0 c1 o1,
           Event.SameLine,
           Event.SliderFloat "##max" v2 v_min v_max fmt 0 c2 o2]) ∧
    (∀ (τ : Type) (T : Toolkit τ) (label : String) (v : Bool) (col : Color3) (flags : Nat)
        (w : World τ),
      ∃ (c1 c2 : Bool) (o1 : Bool) (o2 : Color3),
        issued w.log (CheckboxPicker T label v col flags w).2 =
          [Event.Checkbox label v c1 o1,
           Event.SameLine,
           Event.ColorEdit3 "##color" col flags c2 o2]) ∧
    (∀ (τ : Type) (T : Toolkit τ) (label : String) (v : Bool) (col1 col2 : Color3)
        (flags : Nat) (w : World τ),
      ∃ (c1 c2 c3 : Bool) (o1 : Bool) (o2 o3 : Color3),
        issued w.log (CheckboxDoublePicker T label v col1 col2 flags w).2 =
          [Event.Checkbox label v c1 o1,
           Event.SameLine,
           Event.ColorEdit3 "##color1" col1 flags c2 o2,
           Event.SameLine,
           Event.ColorEdit3 "##color2" col2 flags c3 o3]) ∧
    issued [] (RangeSliderFloat dragMinToEnd "Range" 20 50 0 100 "%.1f" 1 ⟨(), []⟩).2 =
      [Event.Text "Range",
       Event.SliderFloat "##min" 20 0 100 "%.1f" 0 true 100,
       Event.SameLine,
       Event.SliderFloat "##max" 50 0 100 "%.1f" 0 false 50] := by
  refine ⟨?_, ?_, ?_, ?_⟩
  · intro τ T label v1 v2 v_min v_max fmt power w
    obtain ⟨c1, c2, hlog, _⟩ := RangeSliderFloat_issued T label v1 v2 v_min v_max fmt power w
    exact ⟨c1, c2, _, _, hlog⟩
  · intro τ T label v col flags w
    obtain ⟨c1, c2, hlog, _⟩ := CheckboxPicker_issued T label v col flags w
    exact ⟨c1, c2, _, _, hlog⟩
  · intro τ T label v col1 col2 flags w
    obtain ⟨c1, c2, c3, hlog, _⟩ := CheckboxDoublePicker_issued T label v col1 col2 flags w
    exact ⟨c1, c2, c3, _, _, _, hlog⟩
  · simp [issued, RangeSliderFloat, ImGui.Text, ImGui.SliderFloat, ImGui.SameLine,
      dragMinToEnd, quietToolkit]

end edited

namespace edited

open ImGui

variable {σ : Type}

theorem Tab_skip (T : Toolkit σ) (selected : Bool) (id : Nat) (icon : Option String)
    (size_arg : ImVec2) (w : World σ) :
    ((T.SkipItems w.tk = true ∨
        ∃ bb i, Event.ItemAdd bb i false ∈ issued w.log (Tab T selected id icon size_arg w).2) →
      (Tab T selected id icon size_arg w).1 = false ∧
      ∀ e ∈ issued w.log (Tab T selected id icon size_arg w).2,
        e.isDraw = false ∧ e.isButtonBehavior = false) ∧
    (¬ (T.SkipItems w.tk = true ∨
        ∃ bb i, Event.ItemAdd bb i false ∈ issued w.log (Tab T selected id icon size_arg w).2) →
      ∃ bb i flags pressed hovered held,
        (issued w.log (Tab T selected id icon size_arg w).2).filter Event.isButtonBehavior =
          [Event.ButtonBehavior bb i flags pressed hovered held] ∧
        (Tab T selected id icon size_arg w).1 = pressed) := by
  by_cases hs : T.SkipItems w.tk = true
  · have hT : Tab T selected id icon size_arg w = (false, w) := by
      unfold Tab; simp [hs]
    rw [hT]
    simp [issued, hs]
  · have hs2 : T.SkipItems w.tk = false := by simpa using hs
    cases hadd : (ImGui.ItemAdd T ⟨T.CursorPos w.tk, vadd (T.CursorPos w.tk) size_arg⟩
        (T.GetID_int id w.tk)
        (ImGui.ItemSize T ⟨T.CursorPos w.tk, vadd (T.CursorPos w.tk) size_arg⟩ w)).1 with
    | false =>
      have hT : Tab T selected id icon size_arg w =
          (false, (ImGui.ItemAdd T ⟨T.CursorPos w.tk, vadd (T.CursorPos w.tk) size_arg⟩
            (T.GetID_int id w.tk)
            (ImGui.ItemSize T ⟨T.CursorPos w.tk, vadd (T.CursorPos w.tk) size_arg⟩ w)).2) := by
        unfold Tab; simp [hs2, hadd]
      rw [hT]
      simp only [ImGui.ItemAdd, ImGui.ItemSize] at hadd
      simp [issued, ImGui.ItemAdd, ImGui.ItemSize, hs2, hadd, Event.isDraw,
        Event.isButtonBehavior]
    | true =>
      simp only [ImGui.ItemAdd, ImGui.ItemSize] at hadd
      unfold Tab
      rcases icon with _ | text
      · simp [issued, ImGui.ItemAdd, ImGui.ItemSize, ImGui.ButtonBehavior,
          ImGui.RenderNavHighlight, ImGui.RenderFrame, hs2, hadd, Event.isButtonBehavior]
      · by_cases ht : text = ""
        · simp [issued, ImGui.ItemAdd, ImGui.ItemSize, ImGui.ButtonBehavior,
            ImGui.RenderNavHighlight, ImGui.RenderFrame, hs2, hadd, ht,
            Event.isButtonBehavior]
        · simp [issued, ImGui.ItemAdd, ImGui.ItemSize, ImGui.ButtonBehavior,
            ImGui.RenderNavHighlight, ImGui.RenderFrame, ImGui.RenderText, hs2, hadd, ht,
            Event.isButtonBehavior]

theorem icon_box_skip (T : Toolkit σ) (icon : Option String) (size : ImVec2)
    (color_bg color_icon color_border : Nat) (w : World σ) :
    ((T.SkipItems w.tk = true ∨
        ∃ bb i, Event.ItemAdd bb i false ∈
          issued w.log (icon_box T icon size color_bg color_icon color_border w).2) →
      (icon_box T icon size color_bg color_icon color_border w).1 = false ∧
      ∀ e ∈ issued w.log (icon_box T icon size color_bg color_icon color_border w).2,
        e.isDraw = false ∧ e.isButtonBehavior = false) ∧
    (¬ (T.SkipItems w.tk = true ∨
        ∃ bb i, Event.ItemAdd bb i false ∈
          issued w.log (icon_box T icon size color_bg color_icon color_border w).2) →
      ∃ bb i flags pressed hovered held,
        (issued w.log (icon_box T icon size color_bg color_icon color_border w).2).filter
            Event.isButtonBehavior =
          [Event.ButtonBehavior bb i flags pressed hovered held] ∧
        (icon_box T icon size color_bg color_icon color_border w).1 = pressed) := by
  by_cases hs : T.SkipItems w.tk = true
  · have hT : icon_box T icon size color_bg color_icon color_border w = (false, w) := by
      unfold icon_box; simp [hs]
    rw [hT]
    simp [issued, hs]
  · have hs2 : T.SkipItems w.tk = false := by simpa using hs
    cases hadd : (ImGui.ItemAdd T ⟨T.CursorPos w.tk, vadd (T.CursorPos w.tk) size⟩ 0
        (ImGui.ItemSize T ⟨T.CursorPos w.tk, vadd (T.CursorPos w.tk) size⟩ w)).1 with
    | false =>
      have hT : icon_box T icon size color_bg color_icon color_border w =
          (false, (ImGui.ItemAdd T ⟨T.CursorPos w.tk, vadd (T.CursorPos w.tk) size⟩ 0
            (ImGui.ItemSize T ⟨T.CursorPos w.tk, vadd (T.CursorPos w.tk) size⟩ w)).2) := by
        unfold icon_box; simp [hs2, hadd]
      rw [hT]
      simp only [ImGui.ItemAdd, ImGui.ItemSize] at hadd
      simp [issued, ImGui.ItemAdd, ImGui.ItemSize, hs2, hadd, Event.isDraw,
        Event.isButtonBehavior]
    | true =>
      simp only [ImGui.ItemAdd, ImGui.ItemSize] at hadd
      unfold icon_box
      rcases icon with _ | text
      · simp [issued, ImGui.ItemAdd, ImGui.ItemSize, ImGui.ButtonBehavior,
          ImGui.AddRectFilled, ImGui.AddRect, hs2, hadd, Event.isButtonBehavior]
      · by_cases ht : text = ""
        · simp [issued, ImGui.ItemAdd, ImGui.ItemSize, ImGui.ButtonBehavior,
            ImGui.AddRectFilled, ImGui.AddRect, hs2, hadd, ht, Event.isButtonBehavior]
        · simp [issued, ImGui.ItemAdd, ImGui.ItemSize, ImGui.ButtonBehavior,
            ImGui.AddRectFilled, ImGui.AddRect, ImGui.AddText, hs2, hadd, ht,
            Event.isButtonBehavior]

theorem Tab_result_selected (T : Toolkit σ) (selected selected2 : Bool) (id : Nat)
    (icon : Option String) (size_arg : ImVec2) (w : World σ) :
    (Tab T selected id icon size_arg w).1 = (Tab T selected2 id icon size_arg w).1 := by
  unfold Tab
  by_cases hs : T.SkipItems w.tk = true
  · simp [hs]
  · simp only [hs]
    split_ifs <;> rfl

theorem icon_box_result_colors (T : Toolkit σ) (icon : Option String) (size : ImVec2)
    (bg ic bd bg2 ic2 bd2 : Nat) (w : World σ) :
    (icon_box T icon size bg ic bd w).1 = (icon_box T icon size bg2 ic2 bd2 w).1 := by
  unfold icon_box
  by_cases hs : T.SkipItems w.tk = true
  · simp [hs]
  · simp only [hs]
    split_ifs <;> rfl

/-- C19: `edited::Tab` and `edited::icon_box` return false and make no draw call and
no `ButtonBehavior` call whenever `SkipItems` of the current window is set or
`ItemAdd` rejects the item; in every other case they make exactly one
`ButtonBehavior` call and return its pressed result, and the returned value does not
depend on `selected` or on the colours. -/
theorem skip_item_path (T : Toolkit σ) (selected selected2 : Bool) (id : Nat)
    (icon : Option String) (size : ImVec2) (bg ic bd bg2 ic2 bd2 : Nat) (w : World σ) :
    (((T.SkipItems w.tk = true ∨
        ∃ bb i, Event.ItemAdd bb i false ∈ issued w.log (Tab T selected id icon size w).2) →
      (Tab T selected id icon size w).1 = false ∧
      ∀ e ∈ issued w.log (Tab T selected id icon size w).2,
        e.isDraw = false ∧ e.isButtonBehavior = false) ∧
    (¬ (T.SkipItems w.tk = true ∨
        ∃ bb i, Event.ItemAdd bb i false ∈ issued w.log (Tab T selected id icon size w).2) →
      ∃ bb i flags pressed hovered held,
        (issued w.log (Tab T selected id icon size w).2).filter Event.isButtonBehavior =
          [Event.ButtonBehavior bb i flags pressed hovered held] ∧
        (Tab T selected id icon size w).1 = pressed) ∧
    (Tab T selected id icon size w).1 = (Tab T selected2 id icon size w).1) ∧
    (((T.SkipItems w.tk = true ∨
        ∃ bb i, Event.ItemAdd bb i false ∈ issued w.log (icon_box T icon size bg ic bd w).2) →
      (icon_box T icon size bg ic bd w).1 = false ∧
      ∀ e ∈ issued w.log (icon_box T icon size bg ic bd w).2,
        e.isDraw = false ∧ e.isButtonBehavior = false) ∧
    (¬ (T.SkipItems w.tk = true ∨
        ∃ bb i, Event.ItemAdd bb i false ∈ issued w.log (icon_box T icon size bg ic bd w).2) →
      ∃ bb i flags pressed hovered held,
        (issued w.log (icon_box T icon size bg ic bd w).2).filter Event.isButtonBehavior =
          [Event.ButtonBehavior bb i flags pressed hovered held] ∧
        (icon_box T icon size bg ic bd w).1 = pressed) ∧
    (icon_box T icon size bg ic bd w).1 = (icon_box T icon size bg2 ic2 bd2 w).1) :=
  ⟨⟨(Tab_skip T selected id icon size w).1, (Tab_skip T selected id icon size w).2,
      Tab_result_selected T selected selected2 id icon size w⟩,
   ⟨(icon_box_skip T icon size bg ic bd w).1, (icon_box_skip T icon size bg ic bd w).2,
      icon_box_result_colors T icon size bg ic bd bg2 ic2 bd2 w⟩⟩

end edited

namespace edited

open ImGui

theorem skip_item_path_witness :
    (Tab skippingToolkit true 1 (some "c") (47, 47) ⟨(), []⟩).1 = false ∧
    (icon_box rejectingToolkit (some "x") (10, 10) 1 2 3 ⟨(), []⟩).1 = false ∧
    (Tab pressingToolkit false 1 (some "c") (47, 47) ⟨(), []⟩).1 = true ∧
    issued [] (Tab pressingToolkit false 1 (some "c") (47, 47) ⟨(), []⟩).2 =
      [Event.ItemSize ⟨(0, 0), (47, 47)⟩, Event.ItemAdd ⟨(0, 0), (47, 47)⟩ 1 true,
       Event.ButtonBehavior ⟨(0, 0), (47, 47)⟩ 1 0 true true false,
       Event.RenderNavHighlight ⟨(0, 0), (47, 47)⟩ 1,
       Event.RenderFrame (0, 0) (47, 47) 0 true 0,
       Event.RenderText (47 / 2, 47 / 2) "c"] := by
  refine ⟨?_, ?_, ?_, ?_⟩
  · exact ((skip_item_path skippingToolkit true false 1 (some "c") (47, 47) 0 0 0 0 0 0
      ⟨(), []⟩).1.1 (Or.inl rfl)).1
  · refine ((skip_item_path rejectingToolkit true false 1 (some "x") (10, 10) 1 2 3 0 0 0
      ⟨(), []⟩).2.1 (Or.inr ⟨⟨(0, 0), (10, 10)⟩, 0, ?_⟩)).1
    simp [issued, icon_box, ImGui.ItemSize, ImGui.ItemAdd, rejectingToolkit, quietToolkit, vadd]
  · simp [Tab, ImGui.ItemSize, ImGui.ItemAdd, ImGui.ButtonBehavior, ImGui.RenderNavHighlight,
      ImGui.RenderFrame, ImGui.RenderText, pressingToolkit, quietToolkit]
  · simp [issued, Tab, ImGui.ItemSize, ImGui.ItemAdd, ImGui.ButtonBehavior,
      ImGui.RenderNavHighlight, ImGui.RenderFrame, ImGui.RenderText, pressingToolkit,
      quietToolkit, vadd, vsub, vscale, ImRect.GetSize]
    norm_num

end edited

namespace wrapper

open ImGui

/-- C13: for every toolkit, toolkit state and argument tuple, each function of
ragnarek_wrapper.cpp returns the value, leaves the pointer memory and makes the
toolkit calls of the `edited::` operation it names, called with the same scalars
and pointers, each (x, y) pair of floats packed into one 2-vector and, for
`ragnarek_color_button`, the four colour floats packed into one 4-vector. -/
theorem wrapper_refines_edited (σ : Type) (T : Toolkit σ) (w : World σ)
    (s t : String) (b c : Bool) (n m p : Nat) (i j k : Int) (x y x2 y2 x3 y3 q r : ℚ)
    (c0 c1 c2 c3 : ℚ) (col3 col3b : Color3) (col4 : Color4) (ref : Option Color4)
    (icon : Option String) (items : List String) (flagArray : Nat → Bool)
    (labels : Nat → String) (a : edited.EspArgs) :
    ragnarek_begin_child T s x y n m w = edited.BeginChild T s (x, y) n m w ∧
    ragnarek_end_child T w = edited.EndChild T w ∧
    ragnarek_tab T b n icon x y w = edited.Tab T b n icon (x, y) w ∧
    ragnarek_checkbox T s b w = edited.Checkbox T s b w ∧
    ragnarek_checkbox_clicked T s b w = edited.CheckboxClicked T s b w ∧
    ragnarek_checkbox_picker T s b col3 n w = edited.CheckboxPicker T s b col3 n w ∧
    ragnarek_checkbox_double_picker T s b col3 col3b n w =
      edited.CheckboxDoublePicker T s b col3 col3b n w ∧
    ragnarek_slider_int T s i j k t n w = edited.SliderInt T s i j k t n w ∧
    ragnarek_slider_float T s x q r t n w = edited.SliderFloat T s x q r t n w ∧
    ragnarek_range_slider_float T s x y q r t x2 w =
      edited.RangeSliderFloat T s x y q r t x2 w ∧
    ragnarek_color_edit4 T s col4 n w = edited.ColorEdit4 T s col4 n w ∧
    ragnarek_color_picker4 T s col4 n ref w = edited.ColorPicker4 T s col4 n ref w ∧
    ragnarek_color_button T s (c0, c1, c2, c3) n x y w =
      edited.ColorButton T s (c0, c1, c2, c3) n (x, y) w ∧
    ragnarek_selectable T s b n x y w = edited.Selectable T s b n (x, y) w ∧
    ragnarek_selectable_ptr T s b n x y w = edited.SelectablePtr T s b n (x, y) w ∧
    ragnarek_begin_combo T s t i c n w = edited.BeginCombo T s t i c n w ∧
    ragnarek_end_combo T w = edited.EndCombo T w ∧
    ragnarek_multi_combo T s flagArray labels i w = edited.MultiCombo T s flagArray labels i w ∧
    ragnarek_combo_array T s i items j k w = edited.Combo T s i items j k w ∧
    ragnarek_keybind T s i b w = edited.Keybind T s i b w ∧
    ragnarek_text_center T x y x2 y2 n s x3 y3 w =
      edited.TextCenter T (x, y) (x2, y2) n s (x3, y3) w ∧
    ragnarek_icon_box T icon x y n m p w = edited.icon_box T icon (x, y) n m p w ∧
    ragnarek_color_button_simple T icon x y n w = edited.color_button T icon (x, y) n w ∧
    ragnarek_esp_preview T a w = edited.esp_preview T a w :=
  ⟨rfl, rfl, rfl, rfl, rfl, rfl, rfl, rfl, rfl, rfl, rfl, rfl, rfl, rfl, rfl, rfl, rfl, rfl,
    rfl, rfl, rfl, rfl, rfl, rfl⟩

end wrapper

namespace stub

open ImGui

/-- C14: every function of standalone_ragnarek.cpp does nothing: for all arguments
the memory behind each pointer argument (checkbox flags, colours, slider values,
current item, multi-combo array, key code, ESP flags and hp) is unchanged on return
and no toolkit call is made. -/
theorem stub_does_nothing (σ : Type) (w : World σ)
    (s t : String) (b c : Bool) (n m p : Nat) (i j k : Int) (x y x2 y2 x3 y3 q r : ℚ)
    (col3 col3b : Color3) (col4 : Color4) (ref : Option Color4)
    (icon : Option String) (items : List String) (flagArray : Nat → Bool)
    (labels : Nat → String) (a : edited.EspArgs) :
    (ragnarek_begin_child s x y n m w).2 = w ∧
    ragnarek_end_child w = w ∧
    (ragnarek_tab b n icon x y w).2 = w ∧
    ((ragnarek_checkbox s b w).2 = w ∧ (ragnarek_checkbox s b w).1.out = b) ∧
    ((ragnarek_checkbox_clicked s b w).2 = w ∧ (ragnarek_checkbox_clicked s b w).1 = b) ∧
    ((ragnarek_checkbox_picker s b col3 n w).2 = w ∧
      (ragnarek_checkbox_picker s b col3 n w).1.v = b ∧
      (ragnarek_checkbox_picker s b col3 n w).1.col = col3) ∧
    ((ragnarek_checkbox_double_picker s b col3 col3b n w).2 = w ∧
      (ragnarek_checkbox_double_picker s b col3 col3b n w).1.v = b ∧
      (ragnarek_checkbox_double_picker s b col3 col3b n w).1.col1 = col3 ∧
      (ragnarek_checkbox_double_picker s b col3 col3b n w).1.col2 = col3b) ∧
    ((ragnarek_slider_int s i j k t n w).2 = w ∧ (ragnarek_slider_int s i j k t n w).1.out = i) ∧
    ((ragnarek_slider_float s x q r t n w).2 = w ∧
      (ragnarek_slider_float s x q r t n w).1.out = x) ∧
    ((ragnarek_range_slider_float s x y q r t x2 w).2 = w ∧
      (ragnarek_range_slider_float s x y q r t x2 w).1.v1 = x ∧
      (ragnarek_range_slider_float s x y q r t x2 w).1.v2 = y) ∧
    ((ragnarek_color_edit4 s col4 n w).2 = w ∧ (ragnarek_color_edit4 s col4 n w).1.out = col4) ∧
    ((ragnarek_color_picker4 s col4 n ref w).2 = w ∧
      (ragnarek_color_picker4 s col4 n ref w).1.out = col4) ∧
    ((ragnarek_color_button s col4 n x y w).2 = w ∧
      (ragnarek_color_button s col4 n x y w).1.out = col4) ∧
    (ragnarek_selectable s b n x y w).2 = w ∧
    ((ragnarek_selectable_ptr s b n x y w).2 = w ∧
      (ragnarek_selectable_ptr s b n x y w).1.out = b) ∧
    (ragnarek_begin_combo s t i c n w).2 = w ∧
    ragnarek_end_combo w = w ∧
    ((ragnarek_multi_combo s flagArray labels i w).2 = w ∧
      (ragnarek_multi_combo s flagArray labels i w).1 = flagArray) ∧
    ((ragnarek_combo_array s i items j k w).2 = w ∧
      (ragnarek_combo_array s i items j k w).1.out = i) ∧
    ((ragnarek_keybind s i b w).2 = w ∧ (ragnarek_keybind s i b w).1.out = i) ∧
    ragnarek_text_center x y x2 y2 n s x3 y3 w = w ∧
    (ragnarek_icon_box icon x y n m p w).2 = w ∧
    (ragnarek_color_button_simple icon x y n w).2 = w ∧
    ((ragnarek_esp_preview a w).2 = w ∧ (ragnarek_esp_preview a w).1 = a) :=
  ⟨rfl, rfl, rfl, ⟨rfl, rfl⟩, ⟨rfl, rfl⟩, ⟨rfl, rfl, rfl⟩, ⟨rfl, rfl, rfl, rfl⟩, ⟨rfl, rfl⟩,
    ⟨rfl, rfl⟩, ⟨rfl, rfl, rfl⟩, ⟨rfl, rfl⟩, ⟨rfl, rfl⟩, ⟨rfl, rfl⟩, rfl, ⟨rfl, rfl⟩, rfl, rfl,
    ⟨rfl, rfl⟩, ⟨rfl, rfl⟩, ⟨rfl, rfl⟩, rfl, rfl, rfl, ⟨rfl, rfl⟩⟩

/-- C15: the stubs return fixed defaults for all arguments: `ragnarek_begin_child`
returns true, `ragnarek_tab` and `ragnarek_selectable` return their `selected`
argument, and every other stub with a `bool` result returns false. -/
theorem stub_returns_defaults (σ : Type) (w : World σ)
    (s t : String) (b c : Bool) (n m p : Nat) (i j k : Int) (x y x2 q r : ℚ)
    (col3 col3b : Color3) (col4 : Color4) (ref : Option Color4)
    (icon : Option String) (items : List String) :
    (ragnarek_begin_child s x y n m w).1 = true ∧
    (ragnarek_tab b n icon x y w).1 = b ∧
    (ragnarek_selectable s b n x y w).1 = b ∧
    (ragnarek_checkbox s b w).1.changed = false ∧
    (ragnarek_checkbox_picker s b col3 n w).1.changed = false ∧
    (ragnarek_checkbox_double_picker s b col3 col3b n w).1.changed = false ∧
    (ragnarek_slider_int s i j k t n w).1.changed = false ∧
    (ragnarek_slider_float s x q r t n w).1.changed = false ∧
    (ragnarek_range_slider_float s x y q r t x2 w).1.changed = false ∧
    (ragnarek_color_edit4 s col4 n w).1.changed = false ∧
    (ragnarek_color_picker4 s col4 n ref w).1.changed = false ∧
    (ragnarek_color_button s col4 n x y w).1.changed = false ∧
    (ragnarek_selectable_ptr s b n x y w).1.changed = false ∧
    (ragnarek_begin_combo s t i c n w).1 = false ∧
    (ragnarek_combo_array s i items j k w).1.changed = false ∧
    (ragnarek_keybind s i b w).1.changed = false ∧
    (ragnarek_icon_box icon x y n m p w).1 = false ∧
    (ragnarek_color_button_simple icon x y n w).1 = false :=
  ⟨rfl, rfl, rfl, rfl, rfl, rfl, rfl, rfl, rfl, rfl, rfl, rfl, rfl, rfl, rfl, rfl, rfl, rfl⟩

end stub

namespace Bootstrap

theorem CreateDeviceD3D_calls (P : Platform) (m : Machine) :
    callsSince m (CreateDeviceD3D P m).2 =
      [Call.D3D11CreateDeviceAndSwapChain DriverType.HARDWARE (P.create DriverType.HARDWARE).res] ++
      (if (P.create DriverType.HARDWARE).res = HRESULT.DXGI_ERROR_UNSUPPORTED then
        [Call.D3D11CreateDeviceAndSwapChain DriverType.WARP (P.create DriverType.WARP).res]
       else []) ++
      (if (CreateDeviceD3D P m).1 = true then
        [Call.GetBuffer, Call.CreateRenderTargetView P.view,
         Call.Release Resource.BackBuffer P.backBuffer]
       else []) := by
  unfold callsSince CreateDeviceD3D
  by_cases h1 : (P.create DriverType.HARDWARE).res = HRESULT.DXGI_ERROR_UNSUPPORTED
  · by_cases h2 : (P.create DriverType.WARP).res = HRESULT.S_OK
    · simp [createDeviceAndSwapChain, CreateRenderTarget, Machine.call, h1, h2]
    · simp [createDeviceAndSwapChain, CreateRenderTarget, Machine.call, h1, h2]
  · by_cases h2 : (P.create DriverType.HARDWARE).res = HRESULT.S_OK
    · simp [createDeviceAndSwapChain, CreateRenderTarget, Machine.call, h1, h2]
    · simp [createDeviceAndSwapChain, CreateRenderTarget, Machine.call, h1, h2]

theorem CreateDeviceD3D_result (P : Platform) (m : Machine) :
    (CreateDeviceD3D P m).1 =
      decide ((if (P.create DriverType.HARDWARE).res = HRESULT.DXGI_ERROR_UNSUPPORTED then
        (P.create DriverType.WARP).res else (P.create DriverType.HARDWARE).res) =
          HRESULT.S_OK) := by
  unfold CreateDeviceD3D
  by_cases h1 : (P.create DriverType.HARDWARE).res = HRESULT.DXGI_ERROR_UNSUPPORTED
  · by_cases h2 : (P.create DriverType.WARP).res = HRESULT.S_OK
    · simp [createDeviceAndSwapChain, h1, h2]
    · simp [createDeviceAndSwapChain, h1, h2]
  · by_cases h2 : (P.create DriverType.HARDWARE).res = HRESULT.S_OK
    · simp [createDeviceAndSwapChain, h1, h2]
    · simp [createDeviceAndSwapChain, h1, h2]

theorem CreateDeviceD3D_retries_unsupported :
    (warpOnlyPlatform.create DriverType.HARDWARE).res.FAILED = true ∧
    (CreateDeviceD3D warpOnlyPlatform boot).1 = true ∧
    callsSince boot (CreateDeviceD3D warpOnlyPlatform boot).2 =
      [Call.D3D11CreateDeviceAndSwapChain DriverType.HARDWARE HRESULT.DXGI_ERROR_UNSUPPORTED,
       Call.D3D11CreateDeviceAndSwapChain DriverType.WARP HRESULT.S_OK,
       Call.GetBuffer, Call.CreateRenderTargetView (some 24),
       Call.Release Resource.BackBuffer 23] := by
  decide

/-- C16, amended: whenever the first device-creation call returns a failure code
other than `DXGI_ERROR_UNSUPPORTED`, `CreateDeviceD3D` returns false and that call is
its only call; when the first call returns `DXGI_ERROR_UNSUPPORTED`, device creation
is called exactly once more, with the WARP driver; it is never called a third
time. -/
theorem CreateDeviceD3D_retry_rule (P : Platform) (m : Machine) :
    ((P.create DriverType.HARDWARE).res.FAILED = true →
      (P.create DriverType.HARDWARE).res ≠ HRESULT.DXGI_ERROR_UNSUPPORTED →
      (CreateDeviceD3D P m).1 = false ∧
      callsSince m (CreateDeviceD3D P m).2 =
        [Call.D3D11CreateDeviceAndSwapChain DriverType.HARDWARE
          (P.create DriverType.HARDWARE).res]) ∧
    ((P.create DriverType.HARDWARE).res = HRESULT.DXGI_ERROR_UNSUPPORTED →
      (callsSince m (CreateDeviceD3D P m).2).filter Call.isCreate =
        [Call.D3D11CreateDeviceAndSwapChain DriverType.HARDWARE HRESULT.DXGI_ERROR_UNSUPPORTED,
         Call.D3D11CreateDeviceAndSwapChain DriverType.WARP (P.create DriverType.WARP).res]) ∧
    ((callsSince m (CreateDeviceD3D P m).2).filter Call.isCreate).length ≤ 2 := by
  have hcalls := CreateDeviceD3D_calls P m
  have hres := CreateDeviceD3D_result P m
  refine ⟨?_, ?_, ?_⟩
  · intro hfail hne
    have hnok : (P.create DriverType.HARDWARE).res ≠ HRESULT.S_OK := by
      intro h; rw [h] at hfail; exact absurd hfail (by decide)
    have hfalse : (CreateDeviceD3D P m).1 = false := by
      rw [hres]; simp [hne, hnok]
    refine ⟨hfalse, ?_⟩
    rw [hcalls, hfalse]; simp [hne]
  · intro h
    rw [hcalls]
    by_cases hok : (CreateDeviceD3D P m).1 = true <;> simp [h, hok, Call.isCreate]
  · rw [hcalls]
    by_cases h : (P.create DriverType.HARDWARE).res = HRESULT.DXGI_ERROR_UNSUPPORTED <;>
      by_cases hok : (CreateDeviceD3D P m).1 = true <;> simp [h, hok, Call.isCreate]

theorem CreateDeviceD3D_retry_rule_witness :
    (CreateDeviceD3D failingPlatform boot).1 = false ∧
    callsSince boot (CreateDeviceD3D failingPlatform boot).2 =
      [Call.D3D11CreateDeviceAndSwapChain DriverType.HARDWARE (HRESULT.other (-2147467259))] :=
  (CreateDeviceD3D_retry_rule failingPlatform boot).1 (by decide) (by decide)

/-- C17: `CreateDeviceD3D` returns true exactly when the result of its last
device-creation call is `S_OK`, and it creates the render target (`GetBuffer`,
`CreateRenderTargetView`, release of the back buffer, after the device-creation
calls) exactly when it returns true. -/
theorem CreateDeviceD3D_true_iff (P : Platform) (m : Machine) :
    (∃ d r, ((callsSince m (CreateDeviceD3D P m).2).filter Call.isCreate).getLast? =
        some (Call.D3D11CreateDeviceAndSwapChain d r) ∧
      ((CreateDeviceD3D P m).1 = true ↔ r = HRESULT.S_OK)) ∧
    (((callsSince m (CreateDeviceD3D P m).2).filter Call.isCreateView).length =
      if (CreateDeviceD3D P m).1 = true then 1 else 0) ∧
    ((∃ v, Call.CreateRenderTargetView v ∈ callsSince m (CreateDeviceD3D P m).2) ↔
      (CreateDeviceD3D P m).1 = true) ∧
    ((CreateDeviceD3D P m).1 = true →
      (CreateDeviceD3D P m).2.g.g_mainRenderTargetView = P.view ∧
      ∃ creates, (∀ c ∈ creates, c.isCreate = true) ∧
        callsSince m (CreateDeviceD3D P m).2 =
          creates ++ [Call.GetBuffer, Call.CreateRenderTargetView P.view,
            Call.Release Resource.BackBuffer P.backBuffer]) := by
  have hcalls := CreateDeviceD3D_calls P m
  have hres := CreateDeviceD3D_result P m
  refine ⟨?_, ?_, ?_, ?_⟩
  · by_cases h : (P.create DriverType.HARDWARE).res = HRESULT.DXGI_ERROR_UNSUPPORTED
    · refine ⟨DriverType.WARP, (P.create DriverType.WARP).res, ?_, ?_⟩
      · rw [hcalls]
        by_cases hok : (CreateDeviceD3D P m).1 = true <;> simp [h, hok, Call.isCreate]
      · rw [hres]; simp [h]
    · refine ⟨DriverType.HARDWARE, (P.create DriverType.HARDWARE).res, ?_, ?_⟩
      · rw [hcalls]
        by_cases hok : (CreateDeviceD3D P m).1 = true <;> simp [h, hok, Call.isCreate]
      · rw [hres]; simp [h]
  · rw [hcalls]
    by_cases h : (P.create DriverType.HARDWARE).res = HRESULT.DXGI_ERROR_UNSUPPORTED <;>
      by_cases hok : (CreateDeviceD3D P m).1 = true <;> simp [h, hok, Call.isCreateView]
  · rw [hcalls]
    by_cases h : (P.create DriverType.HARDWARE).res = HRESULT.DXGI_ERROR_UNSUPPORTED <;>
      by_cases hok : (CreateDeviceD3D P m).1 = true <;> simp [h, hok]
  · intro hok
    constructor
    · unfold CreateDeviceD3D at hok ⊢
      by_cases h1 : (P.create DriverType.HARDWARE).res = HRESULT.DXGI_ERROR_UNSUPPORTED
      · by_cases h2 : (P.create DriverType.WARP).res = HRESULT.S_OK
        · simp [createDeviceAndSwapChain, CreateRenderTarget, Machine.call, h1, h2]
        · simp [createDeviceAndSwapChain, h1, h2] at hok
      · by_cases h2 : (P.create DriverType.HARDWARE).res = HRESULT.S_OK
        · simp [createDeviceAndSwapChain, CreateRenderTarget, Machine.call, h1, h2]
        · simp [createDeviceAndSwapChain, h1, h2] at hok
    · refine ⟨[Call.D3D11CreateDeviceAndSwapChain DriverType.HARDWARE
          (P.create DriverType.HARDWARE).res] ++
        (if (P.create DriverType.HARDWARE).res = HRESULT.DXGI_ERROR_UNSUPPORTED then
          [Call.D3D11CreateDeviceAndSwapChain DriverType.WARP (P.create DriverType.WARP).res]
         else []), ?_, ?_⟩
      · intro c hc
        by_cases h : (P.create DriverType.HARDWARE).res = HRESULT.DXGI_ERROR_UNSUPPORTED
        · simp only [h, if_true, List.mem_append, List.mem_singleton] at hc
          rcases hc with rfl | rfl <;> rfl
        · simp only [h, if_false, List.append_nil, List.mem_singleton] at hc
          subst hc; rfl
      · rw [hcalls]; simp [hok]

theorem CreateDeviceD3D_true_iff_witness :
    (CreateDeviceD3D workingPlatform boot).1 = true ∧
    (CreateDeviceD3D workingPlatform boot).2.g.g_mainRenderTargetView = some 14 ∧
    (CreateDeviceD3D brokenPlatform boot).1 = false :=
  ⟨by decide,
   ((CreateDeviceD3D_true_iff workingPlatform boot).2.2.2 (by decide)).1,
   by decide⟩

/-- C18: inside `CONTAINER` the frame layout opens exactly the panels fixed for the
current `active_tab`, one after the other: for 0 Weapons, Additions, Anti Aim,
General, Selection, Extrended; for 2 Players, Models, World, ESP PREVIEW, ESP
MANAGE ELEMENTS; for 6 GUI, Styles, Others, Miscellaneous; and for every other
value, 1, 3, 4 and 5 included, no panel at all. -/
theorem CONTAINER_panels (t : Int) :
    panels (CONTAINER 0) =
      ["Weapons", "Additions", "Anti Aim", "General", "Selection", "Extrended"] ∧
    panels (CONTAINER 2) =
      ["Players", "Models", "World", "ESP PREVIEW", "ESP MANAGE ELEMENTS"] ∧
    panels (CONTAINER 6) = ["GUI", "Styles", "Others", "Miscellaneous"] ∧
    panels (CONTAINER 1) = [] ∧ panels (CONTAINER 3) = [] ∧ panels (CONTAINER 4) = [] ∧
    panels (CONTAINER 5) = [] ∧
    (t ≠ 0 ∧ t ≠ 2 ∧ t ≠ 6 → panels (CONTAINER t) = []) ∧
    panelDepth (CONTAINER t) 0 = some 0 ∧
    (CONTAINER t).head? = some (LayoutCall.ImGui_BeginChild "CONTAINER") ∧
    (CONTAINER t).getLast? = some LayoutCall.ImGui_EndChild := by
  refine ⟨by decide, by decide, by decide, by decide, by decide, by decide, by decide,
    ?_, ?_, ?_, ?_⟩
  · rintro ⟨h0, h2, h6⟩
    simp [CONTAINER, h0, h2, h6, panels]
  · by_cases h0 : t = 0
    · subst h0; decide
    · by_cases h2 : t = 2
      · subst h2; decide
      · by_cases h6 : t = 6
        · subst h6; decide
        · simp [CONTAINER, h0, h2, h6, panelDepth]
  · simp [CONTAINER]
  · have hsplit : CONTAINER t =
        ([LayoutCall.ImGui_BeginChild "CONTAINER"] ++
          (if t = 0 then tab0 else if t = 2 then tab2 else if t = 6 then tab6 else []) ++
          [LayoutCall.SetCursorPosY]) ++ [LayoutCall.ImGui_EndChild] := by
      simp [CONTAINER]
    rw [hsplit, List.getLast?_concat]

end Bootstrap

namespace Bootstrap

theorem handleResize_step (backBuffer : Handle) (view : Option Handle) (m : Machine) :
    (m.g.g_ResizeWidth ≠ 0 ∧ m.g.g_ResizeHeight ≠ 0 →
      callsSince m (handleResize backBuffer view m) = resizeCalls backBuffer view m.g ∧
      (handleResize backBuffer view m).g =
        { m.g with g_ResizeWidth := 0, g_ResizeHeight := 0, g_mainRenderTargetView := view }) ∧
    (¬ (m.g.g_ResizeWidth ≠ 0 ∧ m.g.g_ResizeHeight ≠ 0) →
      handleResize backBuffer view m = m) := by
  obtain ⟨⟨d, c, sc, w, h, v⟩, t⟩ := m
  constructor
  · rintro ⟨hw, hh⟩
    simp only at hw hh
    cases v <;>
      simp [handleResize, callsSince, resizeCalls, hw, hh, CleanupRenderTarget,
        CreateRenderTarget, Machine.call]
  · intro hn
    simp only [handleResize, if_neg hn]

/-- C21: in each pass of the frame loop that goes on to render, the resize step
runs on the state the message pump left.  When both pending dimensions are non-zero
it releases the render-target view (if there is one), resizes the swap-chain
buffers to the pending width and height, creates the render target again, and
leaves both pending dimensions 0; when either pending dimension is 0 it makes no
call and changes nothing.  The pending dimensions are what `WndProc` stored on the
last `WM_SIZE` that was not a minimise. -/
theorem resize_recreates_render_target (sdk : WinSdk) (P : Platform) (p : Pass)
    (rest : List Pass) (m : Machine) (wParam lParam : Nat) :
    frameLoop sdk P (p :: rest) m =
      (if (pumpMessages sdk p.pump m false).2 = true then
        some (pumpMessages sdk p.pump m false).1
       else frameLoop sdk P rest
        (renderFrame (handleResize P.backBuffer p.view (pumpMessages sdk p.pump m false).1))) ∧
    (m.g.g_ResizeWidth ≠ 0 ∧ m.g.g_ResizeHeight ≠ 0 →
      callsSince m (handleResize P.backBuffer p.view m) =
        (m.g.g_mainRenderTargetView.map (Call.Release Resource.RenderTargetView)).toList ++
        [Call.ResizeBuffers m.g.g_ResizeWidth m.g.g_ResizeHeight, Call.GetBuffer,
         Call.CreateRenderTargetView p.view, Call.Release Resource.BackBuffer P.backBuffer] ∧
      (handleResize P.backBuffer p.view m).g.g_ResizeWidth = 0 ∧
      (handleResize P.backBuffer p.view m).g.g_ResizeHeight = 0 ∧
      (handleResize P.backBuffer p.view m).g.g_mainRenderTargetView = p.view ∧
      (handleResize P.backBuffer p.view m).g.g_pSwapChain = m.g.g_pSwapChain ∧
      (handleResize P.backBuffer p.view m).g.g_pd3dDevice = m.g.g_pd3dDevice ∧
      (handleResize P.backBuffer p.view m).g.g_pd3dDeviceContext = m.g.g_pd3dDeviceContext) ∧
    (m.g.g_ResizeWidth = 0 ∨ m.g.g_ResizeHeight = 0 →
      handleResize P.backBuffer p.view m = m ∧
      callsSince m (handleResize P.backBuffer p.view m) = []) ∧
    (WndProc sdk Message.WM_SIZE wParam lParam false m).g =
      (if wParam = sdk.SIZE_MINIMIZED then m.g
       else { m.g with g_ResizeWidth := sdk.LOWORD lParam,
                       g_ResizeHeight := sdk.HIWORD lParam }) := by
  have hstep := handleResize_step P.backBuffer p.view m
  refine ⟨?_, ?_, ?_, ?_⟩
  · rfl
  · intro hnz
    obtain ⟨hc, hg⟩ := hstep.1 hnz
    refine ⟨hc, ?_, ?_, ?_, ?_, ?_, ?_⟩ <;> rw [hg]
  · intro hz
    have hn : ¬ (m.g.g_ResizeWidth ≠ 0 ∧ m.g.g_ResizeHeight ≠ 0) := by
      rintro ⟨h1, h2⟩
      rcases hz with h | h
      · exact h1 h
      · exact h2 h
    have he := hstep.2 hn
    refine ⟨he, ?_⟩
    rw [he]; simp [callsSince]
  · unfold WndProc
    by_cases hmin : wParam = sdk.SIZE_MINIMIZED <;> simp [hmin]

theorem resize_recreates_render_target_witness :
    callsSince resizePending (handleResize 13 (some 15) resizePending) =
      [Call.Release Resource.RenderTargetView 14, Call.ResizeBuffers 800 600, Call.GetBuffer,
       Call.CreateRenderTargetView (some 15), Call.Release Resource.BackBuffer 13] ∧
    (handleResize 13 (some 15) resizePending).g.g_ResizeWidth = 0 ∧
    (WndProc winSdk Message.WM_SIZE 0 (600 * 65536 + 800) false Machine.init).g.g_ResizeWidth
      = 800 ∧
    (WndProc winSdk Message.WM_SIZE 0 (600 * 65536 + 800) false Machine.init).g.g_ResizeHeight
      = 600 := by
  have h := resize_recreates_render_target winSdk workingPlatform ⟨[], some 15⟩ []
    resizePending 0 (600 * 65536 + 800)
  refine ⟨?_, ?_, by decide, by decide⟩
  · exact (h.2.1 (by decide)).1
  · exact (h.2.1 (by decide)).2.1

end Bootstrap

namespace Bootstrap

theorem fadeUpdate32_active (s : TabFade) (page : Int) (dt : ℚ) :
    (fadeUpdate32 s page dt).active_tab =
      if (fadeUpdate32 s page dt).tab_alpha = 0 ∧ s.tab_add = 0 then page
      else s.active_tab := rfl

theorem fadeUpdate32_tab_add (s : TabFade) (page : Int) (dt : ℚ) :
    (fadeUpdate32 s page dt).tab_add = s.tab_add := rfl

theorem fadeUpdate32_alpha_mem (s : TabFade) (page : Int) (dt : ℚ) :
    0 ≤ (fadeUpdate32 s page dt).tab_alpha ∧ (fadeUpdate32 s page dt).tab_alpha ≤ 1 :=
  ImClamp_mem _ 0 1 (by norm_num)

theorem fadeUpdate32_active_eq (s : TabFade) (dt : ℚ) :
    (fadeUpdate32 s s.active_tab dt).active_tab = s.active_tab := by
  rw [fadeUpdate32_active]
  split_ifs <;> rfl

theorem runFrames32_hold_active (dts : List ℚ) :
    ∀ s : TabFade, (runFrames32 s (dts.map fun dt => (s.active_tab, dt))).active_tab =
      s.active_tab := by
  induction dts with
  | nil => intro s; rfl
  | cons dt rest ih =>
    intro s
    simp only [List.map_cons, runFrames32]
    have h := fadeUpdate32_active_eq s dt
    have h2 := ih (fadeUpdate32 s s.active_tab dt)
    rw [h] at h2
    exact h2

theorem fadeUpdate32_fall_bound (s : TabFade) (page : Int) (dt : ℚ)
    (hf : Binary32.roundNearest dt = dt) (hp : page ≠ s.active_tab)
    (hz : (fadeUpdate32 s page dt).tab_alpha ≠ 0) :
    0 < s.tab_alpha - 4 * dt ∧
      (fadeUpdate32 s page dt).tab_alpha ≤ s.tab_alpha - 4 * dt + 1 / 33554432 := by
  have hval := fadeUpdate32_alpha_fall s page dt hf hp
  have hpos : 0 < s.tab_alpha - 4 * dt := by
    by_contra hle
    apply hz
    rw [hval]
    have hr := Binary32.roundNearest_nonpos (not_lt.mp hle)
    unfold ImClamp
    split_ifs with h1 h2
    · rfl
    · exfalso; linarith
    · linarith
  refine ⟨hpos, ?_⟩
  rw [hval]
  have hr0 := Binary32.roundNearest_nonneg (le_of_lt hpos)
  by_cases hx1 : s.tab_alpha - 4 * dt ≤ 1
  · have herr := Binary32.roundNearest_unit_error _ (le_of_lt hpos) hx1
    unfold ImClamp
    split_ifs with h1 h2
    · linarith
    · linarith
    · linarith [herr.1]
  · have hc := (ImClamp_mem (Binary32.roundNearest (s.tab_alpha - 4 * dt)) 0 1 (by norm_num)).2
    linarith

theorem runFrames32_switch (page : Int) (dts : List ℚ) :
    ∀ s : TabFade, s.tab_add = 0 → 0 ≤ s.tab_alpha →
      (∀ dt ∈ dts, 0 ≤ dt ∧ Binary32.IsFloat32 dt) →
      s.tab_alpha + dts.length * (1 / 33554432) ≤ 4 * dts.sum → dts ≠ [] →
      (runFrames32 s (dts.map fun dt => (page, dt))).active_tab = page := by
  induction dts with
  | nil => intro s _ _ _ _ hne; exact absurd rfl hne
  | cons dt rest ih =>
    intro s hadd h0 hdts hsum _
    simp only [List.map_cons, runFrames32]
    have hdt := hdts dt (List.mem_cons_self _ _)
    have hrest : ∀ d ∈ rest, 0 ≤ d ∧ Binary32.IsFloat32 d :=
      fun d hd => hdts d (List.mem_cons_of_mem _ hd)
    rw [List.sum_cons, List.length_cons] at hsum
    push_cast at hsum
    by_cases hp : page = s.active_tab
    · have h1 : (fadeUpdate32 s page dt).active_tab = page := by
        rw [hp]; exact fadeUpdate32_active_eq s dt
      have h2 := runFrames32_hold_active rest (fadeUpdate32 s page dt)
      rw [h1] at h2
      exact h2
    · by_cases hz : (fadeUpdate32 s page dt).tab_alpha = 0
      · have h1 : (fadeUpdate32 s page dt).active_tab = page := by
          rw [fadeUpdate32_active, if_pos ⟨hz, hadd⟩]
        have h2 := runFrames32_hold_active rest (fadeUpdate32 s page dt)
        rw [h1] at h2
        exact h2
      · have hb := fadeUpdate32_fall_bound s page dt hdt.2.1 hp hz
        have hne : rest ≠ [] := by
          rintro rfl
          simp at hsum
          linarith [hb.1]
        exact ih (fadeUpdate32 s page dt) hadd (fadeUpdate32_alpha_mem s page dt).1 hrest
          (by linarith [hb.2]) hne

theorem fadeUpdate32_fall_eq (a dt b : ℚ) (active page : Int) (hp : page ≠ active)
    (hf : Binary32.roundNearest dt = dt) (hr : Binary32.roundNearest (a - 4 * dt) = b)
    (hb0 : 0 < b) (hb1 : b ≤ 1) :
    fadeUpdate32 ⟨a, 0, active⟩ page dt = ⟨b, 0, active⟩ := by
  have hα : (fadeUpdate32 ⟨a, 0, active⟩ page dt).tab_alpha = b := by
    rw [fadeUpdate32_alpha_fall _ _ _ hf hp]
    show ImClamp (Binary32.roundNearest (a - 4 * dt)) 0 1 = b
    rw [hr]
    unfold ImClamp
    split_ifs with h2 h3
    · exfalso; linarith
    · exfalso; linarith
    · rfl
  have hs : fadeUpdate32 ⟨a, 0, active⟩ page dt =
      ⟨(fadeUpdate32 ⟨a, 0, active⟩ page dt).tab_alpha, 0,
        if (fadeUpdate32 ⟨a, 0, active⟩ page dt).tab_alpha = 0 ∧ (0 : ℚ) = 0 then page
        else active⟩ := rfl
  rw [hs, hα]
  simp [ne_of_gt hb0]

theorem sixtyHertz_frame_1 :
    fadeUpdate32 ⟨1, 0, 0⟩ 5 sixtyHertz = ⟨15658735 / 16777216, 0, 0⟩ :=
  fadeUpdate32_fall_eq _ _ _ _ _ (by decide) isFloat32_sixtyHertz.1
    (by
      rw [Binary32.roundNearest_eq_of_near_pos (1 - 4 * sixtyHertz) (-1) 15658735
      (by norm_num [sixtyHertz]) (by norm_num [sixtyHertz]) (by norm_num [sixtyHertz])
      (by norm_num [sixtyHertz])]
      norm_num)
    (by norm_num) (by norm_num)

theorem sixtyHertz_frame_2 :
    fadeUpdate32 ⟨15658735 / 16777216, 0, 0⟩ 5 sixtyHertz = ⟨7270127 / 8388608, 0, 0⟩ :=
  fadeUpdate32_fall_eq _ _ _ _ _ (by decide) isFloat32_sixtyHertz.1
    (by
      rw [Binary32.roundNearest_eq_of_near_pos (15658735 / 16777216 - 4 * sixtyHertz) (-1) 14540254
      (by norm_num [sixtyHertz]) (by norm_num [sixtyHertz]) (by norm_num [sixtyHertz])
      (by norm_num [sixtyHertz])]
      norm_num)
    (by norm_num) (by norm_num)

theorem sixtyHertz_frame_3 :
    fadeUpdate32 ⟨7270127 / 8388608, 0, 0⟩ 5 sixtyHertz = ⟨13421773 / 16777216, 0, 0⟩ :=
  fadeUpdate32_fall_eq _ _ _ _ _ (by decide) isFloat32_sixtyHertz.1
    (by
      rw [Binary32.roundNearest_eq_of_near_pos (7270127 / 8388608 - 4 * sixtyHertz) (-1) 13421773
      (by norm_num [sixtyHertz]) (by norm_num [sixtyHertz]) (by norm_num [sixtyHertz])
      (by norm_num [sixtyHertz])]
      norm_num)
    (by norm_num) (by norm_num)

theorem sixtyHertz_frame_4 :
    fadeUpdate32 ⟨13421773 / 16777216, 0, 0⟩ 5 sixtyHertz = ⟨3075823 / 4194304, 0, 0⟩ :=
  fadeUpdate32_fall_eq _ _ _ _ _ (by decide) isFloat32_sixtyHertz.1
    (by
      rw [Binary32.roundNearest_eq_of_near_pos (13421773 / 16777216 - 4 * sixtyHertz) (-1) 12303292
      (by norm_num [sixtyHertz]) (by norm_num [sixtyHertz]) (by norm_num [sixtyHertz])
      (by norm_num [sixtyHertz])]
      norm_num)
    (by norm_num) (by norm_num)

theorem sixtyHertz_frame_5 :
    fadeUpdate32 ⟨3075823 / 4194304, 0, 0⟩ 5 sixtyHertz = ⟨11184811 / 16777216, 0, 0⟩ :=
  fadeUpdate32_fall_eq _ _ _ _ _ (by decide) isFloat32_sixtyHertz.1
    (by
      rw [Binary32.roundNearest_eq_of_near_pos (3075823 / 4194304 - 4 * sixtyHertz) (-1) 11184811
      (by norm_num [sixtyHertz]) (by norm_num [sixtyHertz]) (by norm_num [sixtyHertz])
      (by norm_num [sixtyHertz])]
      norm_num)
    (by norm_num) (by norm_num)

theorem sixtyHertz_frame_6 :
    fadeUpdate32 ⟨11184811 / 16777216, 0, 0⟩ 5 sixtyHertz = ⟨5033165 / 8388608, 0, 0⟩ :=
  fadeUpdate32_fall_eq _ _ _ _ _ (by decide) isFloat32_sixtyHertz.1
    (by
      rw [Binary32.roundNearest_eq_of_near_pos (11184811 / 16777216 - 4 * sixtyHertz) (-1) 10066330
      (by norm_num [sixtyHertz]) (by norm_num [sixtyHertz]) (by norm_num [sixtyHertz])
      (by norm_num [sixtyHertz])]
      norm_num)
    (by norm_num) (by norm_num)

theorem sixtyHertz_frame_7 :
    fadeUpdate32 ⟨5033165 / 8388608, 0, 0⟩ 5 sixtyHertz = ⟨8947849 / 16777216, 0, 0⟩ :=
  fadeUpdate32_fall_eq _ _ _ _ _ (by decide) isFloat32_sixtyHertz.1
    (by
      rw [Binary32.roundNearest_eq_of_near_pos (5033165 / 8388608 - 4 * sixtyHertz) (-1) 8947849
      (by norm_num [sixtyHertz]) (by norm_num [sixtyHertz]) (by norm_num [sixtyHertz])
      (by norm_num [sixtyHertz])]
      norm_num)
    (by norm_num) (by norm_num)

theorem sixtyHertz_frame_8 :
    fadeUpdate32 ⟨8947849 / 16777216, 0, 0⟩ 5 sixtyHertz = ⟨978671 / 2097152, 0, 0⟩ :=
  fadeUpdate32_fall_eq _ _ _ _ _ (by decide) isFloat32_sixtyHertz.1
    (by
      rw [Binary32.roundNearest_eq_of_near_pos (8947849 / 16777216 - 4 * sixtyHertz) (-2) 15658736
      (by norm_num [sixtyHertz]) (by norm_num [sixtyHertz]) (by norm_num [sixtyHertz])
      (by norm_num [sixtyHertz])]
      norm_num)
    (by norm_num) (by norm_num)

theorem sixtyHertz_frame_9 :
    fadeUpdate32 ⟨978671 / 2097152, 0, 0⟩ 5 sixtyHertz = ⟨6710887 / 16777216, 0, 0⟩ :=
  fadeUpdate32_fall_eq _ _ _ _ _ (by decide) isFloat32_sixtyHertz.1
    (by
      rw [Binary32.roundNearest_eq_of_near_pos (978671 / 2097152 - 4 * sixtyHertz) (-2) 13421774
      (by norm_num [sixtyHertz]) (by norm_num [sixtyHertz]) (by norm_num [sixtyHertz])
      (by norm_num [sixtyHertz])]
      norm_num)
    (by norm_num) (by norm_num)

theorem sixtyHertz_frame_10 :
    fadeUpdate32 ⟨6710887 / 16777216, 0, 0⟩ 5 sixtyHertz = ⟨2796203 / 8388608, 0, 0⟩ :=
  fadeUpdate32_fall_eq _ _ _ _ _ (by decide) isFloat32_sixtyHertz.1
    (by
      rw [Binary32.roundNearest_eq_of_near_pos (6710887 / 16777216 - 4 * sixtyHertz) (-2) 11184812
      (by norm_num [sixtyHertz]) (by norm_num [sixtyHertz]) (by norm_num [sixtyHertz])
      (by norm_num [sixtyHertz])]
      norm_num)
    (by norm_num) (by norm_num)

theorem sixtyHertz_frame_11 :
    fadeUpdate32 ⟨2796203 / 8388608, 0, 0⟩ 5 sixtyHertz = ⟨4473925 / 16777216, 0, 0⟩ :=
  fadeUpdate32_fall_eq _ _ _ _ _ (by decide) isFloat32_sixtyHertz.1
    (by
      rw [Binary32.roundNearest_eq_of_near_pos (2796203 / 8388608 - 4 * sixtyHertz) (-2) 8947850
      (by norm_num [sixtyHertz]) (by norm_num [sixtyHertz]) (by norm_num [sixtyHertz])
      (by norm_num [sixtyHertz])]
      norm_num)
    (by norm_num) (by norm_num)

theorem sixtyHertz_frame_12 :
    fadeUpdate32 ⟨4473925 / 16777216, 0, 0⟩ 5 sixtyHertz = ⟨838861 / 4194304, 0, 0⟩ :=
  fadeUpdate32_fall_eq _ _ _ _ _ (by decide) isFloat32_sixtyHertz.1
    (by
      rw [Binary32.roundNearest_eq_of_tie_pos (4473925 / 16777216 - 4 * sixtyHertz) (-3) 13421776
      (by norm_num [sixtyHertz]) (by norm_num [sixtyHertz]) (by decide)
      (Or.inr (by norm_num [sixtyHertz]))]
      norm_num)
    (by norm_num) (by norm_num)

theorem sixtyHertz_frame_13 :
    fadeUpdate32 ⟨838861 / 4194304, 0, 0⟩ 5 sixtyHertz = ⟨2236963 / 16777216, 0, 0⟩ :=
  fadeUpdate32_fall_eq _ _ _ _ _ (by decide) isFloat32_sixtyHertz.1
    (by
      rw [Binary32.roundNearest_eq_of_tie_pos (838861 / 4194304 - 4 * sixtyHertz) (-3) 8947852
      (by norm_num [sixtyHertz]) (by norm_num [sixtyHertz]) (by decide)
      (Or.inr (by norm_num [sixtyHertz]))]
      norm_num)
    (by norm_num) (by norm_num)

theorem sixtyHertz_frame_14 :
    fadeUpdate32 ⟨2236963 / 16777216, 0, 0⟩ 5 sixtyHertz = ⟨8947855 / 134217728, 0, 0⟩ :=
  fadeUpdate32_fall_eq _ _ _ _ _ (by decide) isFloat32_sixtyHertz.1
    (by
      rw [Binary32.roundNearest_eq_of_near_pos (2236963 / 16777216 - 4 * sixtyHertz) (-4) 8947855
      (by norm_num [sixtyHertz]) (by norm_num [sixtyHertz]) (by norm_num [sixtyHertz])
      (by norm_num [sixtyHertz])]
      norm_num)
    (by norm_num) (by norm_num)

theorem sixtyHertz_frame_15 :
    fadeUpdate32 ⟨8947855 / 134217728, 0, 0⟩ 5 sixtyHertz = ⟨3 / 67108864, 0, 0⟩ :=
  fadeUpdate32_fall_eq _ _ _ _ _ (by decide) isFloat32_sixtyHertz.1
    (by
      rw [Binary32.roundNearest_eq_of_near_pos (8947855 / 134217728 - 4 * sixtyHertz) (-25) 12582912
      (by norm_num [sixtyHertz]) (by norm_num [sixtyHertz]) (by norm_num [sixtyHertz])
      (by norm_num [sixtyHertz])]
      norm_num)
    (by norm_num) (by norm_num)

/-- Fifteen frames at 60 Hz from alpha 1, with page 5 selected and tab 0 active: the
elapsed times are non-negative and sum to at least 1/4, yet the frames end with alpha
3 * 2^-26 and the active tab still 0. -/
theorem fade32_stalls_at_sixtyHertz :
    (∀ dt ∈ List.replicate 15 sixtyHertz, 0 ≤ dt) ∧
    1 / 4 ≤ (List.replicate 15 sixtyHertz).sum ∧
    (5 : Int) ≠ (TabFade.mk 1 0 0).active_tab ∧
    runFrames32 ⟨1, 0, 0⟩ ((List.replicate 15 sixtyHertz).map fun dt => ((5 : Int), dt)) =
      ⟨3 / 67108864, 0, 0⟩ ∧
    (runFrames32 ⟨1, 0, 0⟩
      ((List.replicate 15 sixtyHertz).map fun dt => ((5 : Int), dt))).active_tab ≠ 5 := by
  have hrun : runFrames32 ⟨1, 0, 0⟩
      ((List.replicate 15 sixtyHertz).map fun dt => ((5 : Int), dt)) = ⟨3 / 67108864, 0, 0⟩ := by
    simp only [List.replicate, List.map, runFrames32, sixtyHertz_frame_1, sixtyHertz_frame_2, sixtyHertz_frame_3, sixtyHertz_frame_4, sixtyHertz_frame_5, sixtyHertz_frame_6, sixtyHertz_frame_7, sixtyHertz_frame_8, sixtyHertz_frame_9, sixtyHertz_frame_10, sixtyHertz_frame_11, sixtyHertz_frame_12, sixtyHertz_frame_13, sixtyHertz_frame_14, sixtyHertz_frame_15]
  refine ⟨?_, ?_, by decide, hrun, ?_⟩
  · intro dt hdt
    rw [List.eq_of_mem_replicate hdt]
    norm_num [sixtyHertz]
  · rw [List.sum_replicate]
    norm_num [sixtyHertz]
  · rw [hrun]
    decide

/-- C22: from any state with `0 ≤ tab_alpha ≤ 1` (and `tab_add` at its only value 0),
holding `page` fixed over n frames whose elapsed times are non-negative float32
values summing to at least 1/4 + n * 2^-27 ends with `active_tab = page`; and
`active_tab` stays `page` over any further frames with the same `page`, whatever
their elapsed times. -/
theorem fade32_completes_switch (alpha : ℚ) (active page : Int) (dts more : List ℚ)
    (h0 : 0 ≤ alpha) (h1 : alpha ≤ 1)
    (hdts : ∀ dt ∈ dts, 0 ≤ dt ∧ Binary32.IsFloat32 dt)
    (hsum : 1 / 4 + dts.length * (1 / 134217728) ≤ dts.sum) :
    (runFrames32 { tab_alpha := alpha, tab_add := 0, active_tab := active }
      (dts.map fun dt => (page, dt))).active_tab = page ∧
    (runFrames32 (runFrames32 { tab_alpha := alpha, tab_add := 0, active_tab := active }
      (dts.map fun dt => (page, dt))) (more.map fun dt => (page, dt))).active_tab = page := by
  have hnil : dts ≠ [] := by
    rintro rfl
    simp at hsum
    linarith
  have hfirst := runFrames32_switch page dts
    { tab_alpha := alpha, tab_add := 0, active_tab := active } rfl h0 hdts
    (by show alpha + dts.length * (1 / 33554432) ≤ 4 * dts.sum; linarith) hnil
  refine ⟨hfirst, ?_⟩
  have h2 := runFrames32_hold_active more
    (runFrames32 { tab_alpha := alpha, tab_add := 0, active_tab := active }
      (dts.map fun dt => (page, dt)))
  rw [hfirst] at h2
  exact h2

theorem fade32_completes_switch_witness :
    (runFrames32 { tab_alpha := 1, tab_add := 0, active_tab := 0 }
      ((List.replicate 16 sixtyHertz).map fun dt => ((5 : Int), dt))).active_tab = 5 ∧
    (runFrames32 (runFrames32 { tab_alpha := 1, tab_add := 0, active_tab := 0 }
      ((List.replicate 16 sixtyHertz).map fun dt => ((5 : Int), dt)))
      ([sixtyHertz, 1 / 2].map fun dt => ((5 : Int), dt))).active_tab = 5 :=
  fade32_completes_switch 1 0 5 (List.replicate 16 sixtyHertz) [sixtyHertz, 1 / 2]
    (by norm_num) (by norm_num)
    (by
      intro dt hdt
      rw [List.eq_of_mem_replicate hdt]
      exact ⟨by norm_num [sixtyHertz], isFloat32_sixtyHertz⟩)
    (by
      rw [List.sum_replicate, List.length_replicate]
      norm_num [sixtyHertz])

end Bootstrap

namespace Bootstrap

theorem tabRow_range (page : Int) (r : Fin 7 → Bool) (h : 0 ≤ page ∧ page ≤ 6) :
    0 ≤ tabRow page r ∧ tabRow page r ≤ 6 := by
  simp only [tabRow]
  split_ifs <;> omega

theorem tabRow_last (page : Int) (r : Fin 7 → Bool) :
    (∀ i : Fin 7, r i = true → (∀ j : Fin 7, i < j → r j = false) →
      tabRow page r = (i.val : Int)) ∧
    ((∀ i : Fin 7, r i = false) → tabRow page r = page) := by
  constructor
  · intro i hi hj
    have e1 := hj 1
    have e2 := hj 2
    have e3 := hj 3
    have e4 := hj 4
    have e5 := hj 5
    have e6 := hj 6
    fin_cases i <;> simp [tabRow] at * <;> simp_all
  · intro h
    simp [tabRow, h]

theorem fadeUpdate_active_range (s : TabFade) (page : Int) (dt : ℚ)
    (hs : 0 ≤ s.active_tab ∧ s.active_tab ≤ 6) (hp : 0 ≤ page ∧ page ≤ 6) :
    0 ≤ (fadeUpdate s page dt).active_tab ∧ (fadeUpdate s page dt).active_tab ≤ 6 := by
  simp only [fadeUpdate]
  split_ifs <;> first | exact hp | exact hs

theorem runUi_range (frames : List ((Fin 7 → Bool) × ℚ)) :
    ∀ s : UiState, (0 ≤ s.page ∧ s.page ≤ 6) → (0 ≤ s.fade.active_tab ∧ s.fade.active_tab ≤ 6) →
      (0 ≤ (runUi s frames).page ∧ (runUi s frames).page ≤ 6) ∧
      (0 ≤ (runUi s frames).fade.active_tab ∧ (runUi s frames).fade.active_tab ≤ 6) := by
  induction frames with
  | nil => intro s hp ha; exact ⟨hp, ha⟩
  | cons f rest ih =>
    intro s hp ha
    have hp2 := tabRow_range s.page f.1 hp
    exact ih (frame s f.1 f.2) hp2 (fadeUpdate_active_range s.fade _ f.2 ha hp2)

/-- C23: in every state reachable from the initial one by frames with arbitrary
tab-button results and elapsed times, `page` and `active_tab` lie in 0..6; and the
tab row of one frame leaves `page` at the largest index whose `Tab` call returned
true, or at its previous value when none did. -/
theorem page_and_active_tab_range (frames : List ((Fin 7 → Bool) × ℚ)) (page : Int)
    (r : Fin 7 → Bool) :
    (0 ≤ (runUi UiState.init frames).page ∧ (runUi UiState.init frames).page ≤ 6) ∧
    (0 ≤ (runUi UiState.init frames).fade.active_tab ∧
      (runUi UiState.init frames).fade.active_tab ≤ 6) ∧
    (∀ i : Fin 7, r i = true → (∀ j : Fin 7, i < j → r j = false) →
      tabRow page r = (i.val : Int)) ∧
    ((∀ i : Fin 7, r i = false) → tabRow page r = page) :=
  ⟨(runUi_range frames UiState.init (by decide) (by decide)).1,
   (runUi_range frames UiState.init (by decide) (by decide)).2,
   (tabRow_last page r).1, (tabRow_last page r).2⟩

end Bootstrap

namespace KeybindSpec
open edited

theorem sprintf_d_length (k : Int) (hk : -2147483648 ≤ k ∧ k ≤ 2147483647) :
    (sprintf_d k).length ≤ 11 := by
  unfold sprintf_d
  cases k with
  | ofNat m =>
    have hm : m < 10 ^ 10 := by
      have : (m : Int) ≤ 2147483647 := hk.2
      omega
    have := Nat.repr_length m 10 (by decide) hm
    show (Nat.repr m).length ≤ 11
    omega
  | negSucc m =>
    have hm : m + 1 < 10 ^ 10 := by
      have hlow : Int.negSucc m ≥ -2147483648 := hk.1
      rw [Int.negSucc_eq] at hlow
      omega
    have := Nat.repr_length (m + 1) 10 (by decide) hm
    show ("-" ++ Nat.repr (m + 1)).length ≤ 11
    rw [String.length_append]
    have h1 : "-".length = 1 := rfl
    omega

end KeybindSpec

namespace KeybindSpec
open edited

theorem digitChar_inj : ∀ a b : Fin 10, Nat.digitChar a.val = Nat.digitChar b.val → a = b := by
  decide

theorem digitChar_ne_minus : ∀ a : Fin 10, Nat.digitChar a.val ≠ '-' := by
  decide

theorem map_digitChar_inj : ∀ l1 l2 : List Nat, (∀ d ∈ l1, d < 10) → (∀ d ∈ l2, d < 10) →
    l1.map Nat.digitChar = l2.map Nat.digitChar → l1 = l2 := by
  intro l1
  induction l1 with
  | nil =>
    intro l2 _ _ h
    cases l2 with
    | nil => rfl
    | cons b t => simp at h
  | cons a t ih =>
    intro l2 h1 h2 h
    cases l2 with
    | nil => simp at h
    | cons b t2 =>
      simp only [List.map_cons, List.cons.injEq] at h
      have ha : a < 10 := h1 a (List.mem_cons_self _ _)
      have hb : b < 10 := h2 b (List.mem_cons_self _ _)
      have hab : a = b := by
        have := digitChar_inj ⟨a, ha⟩ ⟨b, hb⟩ h.1
        exact congrArg Fin.val this
      have ht := ih t2 (fun d hd => h1 d (List.mem_cons_of_mem _ hd))
        (fun d hd => h2 d (List.mem_cons_of_mem _ hd)) h.2
      rw [hab, ht]

theorem decimalDigits_of_pos (n : Nat) (h : n ≠ 0) :
    decimalDigits n = (Nat.digits 10 n).reverse.map Nat.digitChar := by
  simp [decimalDigits, h]

theorem decimalDigits_inj (n m : Nat) (h : decimalDigits n = decimalDigits m) : n = m := by
  have key : ∀ a b : Nat, a ≠ 0 → b ≠ 0 → decimalDigits a = decimalDigits b → a = b := by
    intro a b ha hb hab
    rw [decimalDigits_of_pos a ha, decimalDigits_of_pos b hb] at hab
    have hrev := map_digitChar_inj _ _
      (fun d hd => Nat.digits_lt_base (by decide) (List.mem_reverse.mp hd))
      (fun d hd => Nat.digits_lt_base (by decide) (List.mem_reverse.mp hd)) hab
    have hdig : Nat.digits 10 a = Nat.digits 10 b := List.reverse_injective hrev
    have := congrArg (Nat.ofDigits 10) hdig
    rwa [Nat.ofDigits_digits, Nat.ofDigits_digits] at this
  have zero : ∀ b : Nat, b ≠ 0 → decimalDigits 0 ≠ decimalDigits b := by
    intro b hb hz
    rw [decimalDigits_of_pos b hb] at hz
    have h0 : decimalDigits 0 = [0].map Nat.digitChar := by decide
    rw [h0] at hz
    have hrev := map_digitChar_inj _ _ (by simp)
      (fun d hd => Nat.digits_lt_base (by decide) (List.mem_reverse.mp hd)) hz
    have hdig : Nat.digits 10 b = [0] := by
      have := congrArg List.reverse hrev
      simpa using this.symm
    have := congrArg (Nat.ofDigits 10) hdig
    rw [Nat.ofDigits_digits] at this
    simp at this
    exact hb this
  by_cases hn : n = 0
  · by_cases hm : m = 0
    · rw [hn, hm]
    · exact absurd (hn ▸ h) (zero m hm)
  · by_cases hm : m = 0
    · exact absurd (hm ▸ h.symm) (zero n hn)
    · exact key n m hn hm h

theorem decimalDigits_no_minus (n : Nat) : ∀ c ∈ decimalDigits n, c ≠ '-' := by
  intro c hc
  by_cases hn : n = 0
  · subst hn
    have : decimalDigits 0 = ['0'] := by decide
    rw [this] at hc
    simp at hc
    subst hc
    decide
  · rw [decimalDigits_of_pos n hn] at hc
    obtain ⟨d, hd, rfl⟩ := List.mem_map.mp hc
    have hlt : d < 10 := Nat.digits_lt_base (by decide) (List.mem_reverse.mp hd)
    exact digitChar_ne_minus ⟨d, hlt⟩

theorem decimalRendering_data (k : Int) :
    (decimalRendering k).data =
      if k < 0 then '-' :: decimalDigits k.natAbs else decimalDigits k.natAbs := by
  unfold decimalRendering
  split_ifs <;> simp [String.data_append]

theorem decimalRendering_inj (k1 k2 : Int) (h : decimalRendering k1 = decimalRendering k2) :
    k1 = k2 := by
  have hd := congrArg String.data h
  rw [decimalRendering_data, decimalRendering_data] at hd
  by_cases h1 : k1 < 0 <;> by_cases h2 : k2 < 0
  · simp only [h1, h2, if_true, List.cons.injEq, true_and] at hd
    have := decimalDigits_inj _ _ hd
    omega
  · simp only [h1, h2, if_true, if_false] at hd
    have hmem : '-' ∈ decimalDigits k2.natAbs := by rw [← hd]; exact List.mem_cons_self _ _
    exact absurd rfl (decimalDigits_no_minus _ _ hmem)
  · simp only [h1, h2, if_true, if_false] at hd
    have hmem : '-' ∈ decimalDigits k1.natAbs := by rw [hd]; exact List.mem_cons_self _ _
    exact absurd rfl (decimalDigits_no_minus _ _ hmem)
  · simp only [h1, h2, if_false] at hd
    have := decimalDigits_inj _ _ hd
    omega



theorem key_name_data (k : Int) :
    (key_name k).data =
      if k = 0 then ['N', 'o', 'n', 'e']
      else if k = 1 then ['L', 'M', 'B']
      else if k = 2 then ['R', 'M', 'B']
      else if 65 ≤ k ∧ k ≤ 90 then [Char.ofNat k.toNat]
      else 'K' :: 'e' :: 'y' :: ' ' :: (decimalRendering k).data := by
  unfold key_name
  split_ifs with h0 h1 h2 h3
  · rfl
  · rfl
  · rfl
  · have hmod : (k % 256).toNat = k.toNat := by omega
    simp [sprintf_c, String.singleton, hmod]
  · rw [sprintf_d_eq_decimalRendering, String.data_append]
    rfl

theorem letter_inj : ∀ a b : Fin 26, Char.ofNat (a.val + 65) = Char.ofNat (b.val + 65) → a = b := by
  decide

theorem key_name_inj (k1 k2 : Int) (h : key_name k1 = key_name k2) : k1 = k2 := by
  have hd := congrArg String.data h
  rw [key_name_data, key_name_data] at hd
  split_ifs at hd with a0 b0 b1 b2 b3 a1 c0 c1 c2 c3 a2 d0 d1 d2 d3 a3 e0 e1 e2 e3 f0 f1 f2 f3
  all_goals first
    | omega
    | (exfalso; revert hd; decide)
    | (exfalso; simp at hd; done)
    | skip
  · have hr1 : 65 ≤ k1 ∧ k1 ≤ 90 := by assumption
    have hr2 : 65 ≤ k2 ∧ k2 ≤ 90 := by assumption
    have hc : Char.ofNat k1.toNat = Char.ofNat k2.toNat := by simpa using hd
    have hn1 : k1.toNat = (k1.toNat - 65) + 65 := by omega
    have hn2 : k2.toNat = (k2.toNat - 65) + 65 := by omega
    rw [hn1, hn2] at hc
    have hfin := letter_inj ⟨k1.toNat - 65, by omega⟩ ⟨k2.toNat - 65, by omega⟩ hc
    have hval := congrArg Fin.val hfin
    simp only at hval
    omega
  · have hdata : (decimalRendering k1).data = (decimalRendering k2).data := by simpa using hd
    exact decimalRendering_inj k1 k2 (String.ext hdata)

theorem utf8ByteSize_go_ascii (l : List Char) (h : ∀ c ∈ l, c.utf8Size = 1) :
    String.utf8ByteSize.go l = l.length := by
  induction l with
  | nil => rfl
  | cons c t ih =>
    simp only [String.utf8ByteSize.go, List.length_cons]
    rw [ih (fun d hd => h d (List.mem_cons_of_mem _ hd)), h c (List.mem_cons_self _ _)]

theorem digitChar_ascii : ∀ a : Fin 10, (Nat.digitChar a.val).utf8Size = 1 := by
  decide

theorem letter_ascii : ∀ a : Fin 26, (Char.ofNat (a.val + 65)).utf8Size = 1 := by
  decide

theorem decimalDigits_ascii (n : Nat) : ∀ c ∈ decimalDigits n, c.utf8Size = 1 := by
  intro c hc
  by_cases hn : n = 0
  · subst hn
    have h0 : decimalDigits 0 = ['0'] := by decide
    rw [h0] at hc
    simp at hc
    subst hc
    decide
  · rw [decimalDigits_of_pos n hn] at hc
    obtain ⟨d, hd, rfl⟩ := List.mem_map.mp hc
    have hlt : d < 10 := Nat.digits_lt_base (by decide) (List.mem_reverse.mp hd)
    exact digitChar_ascii ⟨d, hlt⟩

theorem key_name_ascii (k : Int) : ∀ c ∈ (key_name k).data, c.utf8Size = 1 := by
  intro c hc
  rw [key_name_data] at hc
  split_ifs at hc with h0 h1 h2 h3
  · simp at hc; rcases hc with rfl | rfl | rfl | rfl <;> decide
  · simp at hc; rcases hc with rfl | rfl | rfl <;> decide
  · simp at hc; rcases hc with rfl | rfl | rfl <;> decide
  · simp only [List.mem_singleton] at hc
    subst hc
    have hn : k.toNat = (k.toNat - 65) + 65 := by omega
    rw [hn]
    exact letter_ascii ⟨k.toNat - 65, by omega⟩
  · rw [decimalRendering_data] at hc
    simp only [List.mem_cons] at hc
    rcases hc with rfl | rfl | rfl | rfl | hc
    · decide
    · decide
    · decide
    · decide
    · split_ifs at hc
      · simp only [List.mem_cons] at hc
        rcases hc with rfl | hc
        · decide
        · exact decimalDigits_ascii _ c hc
      · exact decimalDigits_ascii _ c hc

theorem key_name_bytes (k : Int) : (key_name k).utf8ByteSize = (key_name k).length := by
  have h := utf8ByteSize_go_ascii (key_name k).data (key_name_ascii k)
  cases hk : key_name k with
  | mk l =>
    rw [hk] at h
    exact h

/-- C24: for every 32-bit key code the text `edited::Keybind` formats is at most 15
characters long, the bound being attained by "Key -2147483648"; every character
takes one byte, so with its terminator the text fits the 32-byte buffer `key_name`. -/
theorem key_name_length (k : Int) (hk : -2147483648 ≤ k ∧ k ≤ 2147483647) :
    (key_name k).length ≤ 15 ∧ (key_name k).utf8ByteSize + 1 ≤ 32 ∧
      key_name (-2147483648) = "Key -2147483648" ∧ (key_name (-2147483648)).length = 15 := by
  have hlen : (key_name k).length ≤ 15 := by
    unfold key_name
    split_ifs with h0 h1 h2 h3
    · decide
    · decide
    · decide
    · simp [sprintf_c, String.length, String.singleton]
    · rw [String.length_append]
      have := sprintf_d_length k hk
      have h4 : "Key ".length = 4 := rfl
      omega
  exact ⟨hlen, by rw [key_name_bytes]; omega, by decide, by decide⟩

theorem key_name_length_witness :
    (key_name 2147483647).length ≤ 15 ∧ (key_name 2147483647).utf8ByteSize + 1 ≤ 32 :=
  ⟨(key_name_length 2147483647 (by decide)).1, (key_name_length 2147483647 (by decide)).2.1⟩

/-- C25: the display name determines the key code: for all integer codes `k1 ≠ k2`,
in particular all 32-bit ones, the texts `edited::Keybind` formats for `k1` and `k2`
are different. -/
theorem key_name_injective (k1 k2 : Int) (hne : k1 ≠ k2) : key_name k1 ≠ key_name k2 :=
  fun h => hne (key_name_inj k1 k2 h)

theorem key_name_injective_witness :
    key_name 75 ≠ key_name (-75) ∧ key_name 1 ≠ key_name 2 :=
  ⟨key_name_injective 75 (-75) (by decide), key_name_injective 1 2 (by decide)⟩

end KeybindSpec

namespace edited
open ImGui
variable {σ : Type}

/-- C26: two calls of `edited::esp_preview` from the same toolkit state whose
arguments agree on `nickname`, `nick_color`, `weapon`, `weapon_color`, `hp` and
`hp_color` make the same sequence of toolkit calls and leave the same toolkit state,
whatever the texture handle and the zoom, bomb, c4, money, hit, box and hp-line
flags and colours are; and each call leaves all its argument memory as it was. -/
theorem esp_preview_independent (T : Toolkit σ) (a b : EspArgs) (w : World σ)
    (h1 : a.nickname = b.nickname) (h2 : a.nick_color = b.nick_color)
    (h3 : a.weapon = b.weapon) (h4 : a.weapon_color = b.weapon_color)
    (h5 : a.hp = b.hp) (h6 : a.hp_color = b.hp_color) :
    issued w.log (esp_preview T a w).2 = issued w.log (esp_preview T b w).2 ∧
    (esp_preview T a w).2 = (esp_preview T b w).2 ∧
    (esp_preview T a w).1 = a ∧ (esp_preview T b w).1 = b := by
  have hw : (esp_preview T a w).2 = (esp_preview T b w).2 := by
    simp only [esp_preview, h1, h2, h3, h4, h5, h6]
  exact ⟨by rw [hw], hw, rfl, rfl⟩

theorem esp_preview_independent_witness :
    issued [] (esp_preview quietToolkit espDefaults ⟨(), []⟩).2 =
      issued [] (esp_preview quietToolkit espOthers ⟨(), []⟩).2 ∧
    espDefaults ≠ espOthers ∧
    issued [] (esp_preview quietToolkit espDefaults ⟨(), []⟩).2 =
      [Event.BeginChild "ESP Preview" (200, 300) 1 0 true, Event.Text "ESP Preview",
       Event.Separator, Event.TextColored (1, 1, 1, 1) "Player Name",
       Event.TextColored (1, 1, 1, 1) "AK-47", Event.TextColored (1, 1, 1, 1) "HP: 85",
       Event.EndChild] := by
  refine ⟨(esp_preview_independent quietToolkit espDefaults espOthers ⟨(), []⟩
    rfl rfl rfl rfl rfl rfl).1, by decide, ?_⟩
  simp [issued, esp_preview, espDefaults, quietToolkit, ImGui.BeginChild, ImGui.Text,
    ImGui.Separator, ImGui.TextColored, ImGui.EndChild]
  decide

/-- C27: the identifier strings the composite widgets pass to their sliders and
colour editors are fixed: "##min" and "##max" for `edited::RangeSliderFloat`,
"##color" for `edited::CheckboxPicker`, "##color1" and "##color2" for
`edited::CheckboxDoublePicker`, whatever the label; so calls with two different
labels hand the toolkit identical sub-widget identifiers. -/
theorem sub_widget_ids_fixed (T : Toolkit σ) (label label2 : String) (v1 v2 v_min v_max : ℚ)
    (fmt : String) (power : ℚ) (v : Bool) (col col1 col2 : Color3) (flags : Nat)
    (w w2 : World σ) :
    (issued w.log (RangeSliderFloat T label v1 v2 v_min v_max fmt power w).2).filterMap
        Event.editorId = ["##min", "##max"] ∧
    (issued w.log (CheckboxPicker T label v col flags w).2).filterMap Event.editorId =
      ["##color"] ∧
    (issued w.log (CheckboxDoublePicker T label v col1 col2 flags w).2).filterMap
        Event.editorId = ["##color1", "##color2"] ∧
    (issued w.log (RangeSliderFloat T label v1 v2 v_min v_max fmt power w).2).filterMap
        Event.editorId =
      (issued w2.log (RangeSliderFloat T label2 v1 v2 v_min v_max fmt power w2).2).filterMap
        Event.editorId ∧
    (issued w.log (CheckboxPicker T label v col flags w).2).filterMap Event.editorId =
      (issued w2.log (CheckboxPicker T label2 v col flags w2).2).filterMap Event.editorId ∧
    (issued w.log (CheckboxDoublePicker T label v col1 col2 flags w).2).filterMap
        Event.editorId =
      (issued w2.log (CheckboxDoublePicker T label2 v col1 col2 flags w2).2).filterMap
        Event.editorId := by
  have hr : ∀ (l : String) (u : World σ),
      (issued u.log (RangeSliderFloat T l v1 v2 v_min v_max fmt power u).2).filterMap
        Event.editorId = ["##min", "##max"] := by
    intro l u
    obtain ⟨c1, c2, hlog, _⟩ := RangeSliderFloat_issued T l v1 v2 v_min v_max fmt power u
    rw [hlog]; simp [Event.editorId]
  have hp : ∀ (l : String) (u : World σ),
      (issued u.log (CheckboxPicker T l v col flags u).2).filterMap Event.editorId =
        ["##color"] := by
    intro l u
    obtain ⟨c1, c2, hlog, _⟩ := CheckboxPicker_issued T l v col flags u
    rw [hlog]; simp [Event.editorId]
  have hdp : ∀ (l : String) (u : World σ),
      (issued u.log (CheckboxDoublePicker T l v col1 col2 flags u).2).filterMap
        Event.editorId = ["##color1", "##color2"] := by
    intro l u
    obtain ⟨c1, c2, c3, hlog, _⟩ := CheckboxDoublePicker_issued T l v col1 col2 flags u
    rw [hlog]; simp [Event.editorId]
  exact ⟨hr _ _, hp _ _, hdp _ _, by rw [hr, hr], by rw [hp, hp], by rw [hdp, hdp]⟩

end edited

namespace edited
open ImGui
variable {σ : Type}

theorem selectableCalls_congr (labels : Nat → String) (flags : Nat) (ans : List (Bool × Bool)) :
    ∀ (i : Nat) (f g : Nat → Bool), (∀ j, i ≤ j → f j = g j) →
      selectableCalls labels f flags i ans = selectableCalls labels g flags i ans := by
  induction ans with
  | nil => intro i f g _; rfl
  | cons a rest ih =>
    intro i f g h
    simp only [selectableCalls]
    rw [h i (le_refl i), ih (i + 1) f g (fun j hj => h j (by omega))]

theorem selectableCalls_length (labels : Nat → String) (f : Nat → Bool) (flags : Nat)
    (ans : List (Bool × Bool)) :
    ∀ i : Nat, (selectableCalls labels f flags i ans).length = ans.length := by
  induction ans with
  | nil => intro i; rfl
  | cons a rest ih => intro i; simp [selectableCalls, ih]

theorem selectableCalls_get (labels : Nat → String) (f : Nat → Bool) (flags : Nat)
    (ans : List (Bool × Bool)) :
    ∀ (i k : Nat), k < ans.length →
      ∃ pressed out, (selectableCalls labels f flags i ans).get? k =
        some (Event.SelectablePtr (labels (i + k)) (f (i + k)) flags (0, 0) pressed out) := by
  induction ans with
  | nil => intro i k hk; simp at hk
  | cons a rest ih =>
    intro i k hk
    cases k with
    | zero => exact ⟨a.1, a.2, by simp [selectableCalls]⟩
    | succ k =>
      obtain ⟨p, o, h⟩ := ih (i + 1) k (by simpa using hk)
      refine ⟨p, o, ?_⟩
      simp only [selectableCalls, List.get?_cons_succ]
      rw [h]
      congr 3 <;> omega

theorem selectableCalls_all (labels : Nat → String) (f : Nat → Bool) (flags : Nat)
    (ans : List (Bool × Bool)) :
    ∀ i : Nat, ∀ e ∈ selectableCalls labels f flags i ans,
      e.isSelectablePtr = true ∧ e.isEndCombo = false := by
  induction ans with
  | nil => intro i e he; simp [selectableCalls] at he
  | cons a rest ih =>
    intro i e he
    simp only [selectableCalls, List.mem_cons] at he
    rcases he with rfl | he
    · exact ⟨rfl, rfl⟩
    · exact ih (i + 1) e he

theorem combo_log_facts (label : String) (opened : Bool) (calls : List Event)
    (hall : ∀ e ∈ calls, e.isSelectablePtr = true ∧ e.isEndCombo = false) :
    (([Event.BeginCombo label "Multi Select" 0 opened] ++ calls ++
        (if opened = true then [Event.EndCombo] else [])).filter
      Event.isSelectablePtr).length = calls.length ∧
    (([Event.BeginCombo label "Multi Select" 0 opened] ++ calls ++
        (if opened = true then [Event.EndCombo] else [])).filter
      Event.isEndCombo).length = (if opened = true then 1 else 0) ∧
    ∀ k : Nat, k < calls.length →
      ([Event.BeginCombo label "Multi Select" 0 opened] ++ calls ++
        (if opened = true then [Event.EndCombo] else [])).get? (k + 1) = calls.get? k := by
  have h1 : calls.filter Event.isSelectablePtr = calls :=
    List.filter_eq_self.mpr fun e he => (hall e he).1
  have h2 : calls.filter Event.isEndCombo = [] :=
    List.filter_eq_nil_iff.mpr fun e he => by simp [(hall e he).2]
  refine ⟨?_, ?_, ?_⟩
  · cases opened <;>
      simp [List.filter_append, h1, Event.isSelectablePtr, List.filter_cons]
  · cases opened <;>
      simp [List.filter_append, h2, Event.isEndCombo, List.filter_cons]
  · intro k hk
    simp only [List.singleton_append, List.cons_append, List.nil_append,
      List.get?_eq_getElem?, List.getElem?_cons_succ]
    exact List.getElem?_append_left hk

theorem MultiCombo_loop_spec (T : Toolkit σ) (labels : Nat → String) (n : Nat) :
    ∀ (i : Nat) (f : Nat → Bool) (w : World σ),
      ∃ ans : List (Bool × Bool), ans.length = n ∧
        (MultiCombo.loop T labels n i f w).2.log =
          w.log ++ selectableCalls labels f T.ImGuiSelectableFlags_DontClosePopups i ans ∧
        ∀ j, (j < i ∨ i + n ≤ j) → (MultiCombo.loop T labels n i f w).1 j = f j := by
  induction n with
  | zero =>
    intro i f w
    exact ⟨[], rfl, by simp [MultiCombo.loop, selectableCalls], fun j _ => rfl⟩
  | succ n ih =>
    intro i f w
    obtain ⟨ans, hlen, hlog, hkeep⟩ := ih (i + 1)
      (Function.update f i (ImGui.SelectablePtr T (labels i) (f i)
        T.ImGuiSelectableFlags_DontClosePopups (0, 0) w).1.out)
      (ImGui.SelectablePtr T (labels i) (f i)
        T.ImGuiSelectableFlags_DontClosePopups (0, 0) w).2
    refine ⟨((ImGui.SelectablePtr T (labels i) (f i)
        T.ImGuiSelectableFlags_DontClosePopups (0, 0) w).1.changed,
      (ImGui.SelectablePtr T (labels i) (f i)
        T.ImGuiSelectableFlags_DontClosePopups (0, 0) w).1.out) :: ans, by simp [hlen], ?_, ?_⟩
    · simp only [MultiCombo.loop, hlog, selectableCalls]
      rw [selectableCalls_congr labels _ ans (i + 1) _ f
        (fun j hj => Function.update_noteq (by omega) _ _)]
      simp [ImGui.SelectablePtr]
    · intro j hj
      simp only [MultiCombo.loop]
      rw [hkeep j (by omega)]
      exact Function.update_noteq (by omega) _ _



/-- C28: `edited::MultiCombo` calls `BeginCombo` once; when it returns true it calls
`Selectable` exactly once for each index 0, 1, ..., count-1 in increasing order, on
`labels[i]` and `&variable[i]`, and then `EndCombo`; when it returns false it calls
neither.  Hence the flag array is unchanged when the popup is closed or
`count ≤ 0`, and no element at an index `≥ count` is ever changed. -/
theorem MultiCombo_calls (T : Toolkit σ) (label : String) (flagArray : Nat → Bool)
    (labels : Nat → String) (count : Int) (w : World σ) :
    ∃ (opened : Bool) (ans : List (Bool × Bool)),
      ans.length = (if opened = true then count.toNat else 0) ∧
      issued w.log (MultiCombo T label flagArray labels count w).2 =
        [Event.BeginCombo label "Multi Select" 0 opened] ++
        selectableCalls labels flagArray T.ImGuiSelectableFlags_DontClosePopups 0 ans ++
        (if opened = true then [Event.EndCombo] else []) ∧
      (∀ k : Nat, k < ans.length → ∃ pressed out,
        (issued w.log (MultiCombo T label flagArray labels count w).2).get? (k + 1) =
          some (Event.SelectablePtr (labels k) (flagArray k)
            T.ImGuiSelectableFlags_DontClosePopups (0, 0) pressed out)) ∧
      ((issued w.log (MultiCombo T label flagArray labels count w).2).filter
        Event.isSelectablePtr).length = (if opened = true then count.toNat else 0) ∧
      ((issued w.log (MultiCombo T label flagArray labels count w).2).filter
        Event.isEndCombo).length = (if opened = true then 1 else 0) ∧
      (opened = false ∨ count ≤ 0 →
        (MultiCombo T label flagArray labels count w).1 = flagArray) ∧
      (∀ j : Nat, count ≤ (j : Int) →
        (MultiCombo T label flagArray labels count w).1 j = flagArray j) := by
  cases hopen : (ImGui.BeginCombo T label "Multi Select" 0 w).1 with
  | false =>
    have hM : MultiCombo T label flagArray labels count w =
        (flagArray, (ImGui.BeginCombo T label "Multi Select" 0 w).2) := by
      unfold MultiCombo; simp [hopen]
    have hiss : issued w.log (MultiCombo T label flagArray labels count w).2 =
        [Event.BeginCombo label "Multi Select" 0 false] ++
        selectableCalls labels flagArray T.ImGuiSelectableFlags_DontClosePopups 0 [] ++
        (if false = true then [Event.EndCombo] else []) := by
      rw [hM]
      simp only [ImGui.BeginCombo] at hopen
      simp [issued, ImGui.BeginCombo, hopen, selectableCalls]
    refine ⟨false, [], rfl, hiss, ?_, ?_, ?_, ?_, ?_⟩
    · intro k hk; simp at hk
    · rw [hiss]; simp [selectableCalls, Event.isSelectablePtr]
    · rw [hiss]; simp [selectableCalls, Event.isEndCombo]
    · intro _; rw [hM]
    · intro j _; rw [hM]
  | true =>
    obtain ⟨ans, hlen, hlog, hkeep⟩ := MultiCombo_loop_spec T labels count.toNat 0 flagArray
      (ImGui.BeginCombo T label "Multi Select" 0 w).2
    have hM : MultiCombo T label flagArray labels count w =
        ((MultiCombo.loop T labels count.toNat 0 flagArray
            (ImGui.BeginCombo T label "Multi Select" 0 w).2).1,
          ImGui.EndCombo T (MultiCombo.loop T labels count.toNat 0 flagArray
            (ImGui.BeginCombo T label "Multi Select" 0 w).2).2) := by
      unfold MultiCombo; simp [hopen]
    have hiss : issued w.log (MultiCombo T label flagArray labels count w).2 =
        [Event.BeginCombo label "Multi Select" 0 true] ++
        selectableCalls labels flagArray T.ImGuiSelectableFlags_DontClosePopups 0 ans ++
        (if true = true then [Event.EndCombo] else []) := by
      rw [hM]
      simp only [ImGui.BeginCombo] at hopen
      simp only [issued, ImGui.EndCombo, hlog]
      simp [ImGui.BeginCombo, hopen]
    have hall := selectableCalls_all labels flagArray T.ImGuiSelectableFlags_DontClosePopups
      ans 0
    have hfacts := combo_log_facts label true _ hall
    have hslen := selectableCalls_length labels flagArray
      T.ImGuiSelectableFlags_DontClosePopups ans 0
    refine ⟨true, ans, by simp [hlen], hiss, ?_, ?_, ?_, ?_, ?_⟩
    · intro k hk
      obtain ⟨p, o, hget⟩ := selectableCalls_get labels flagArray
        T.ImGuiSelectableFlags_DontClosePopups ans 0 k hk
      refine ⟨p, o, ?_⟩
      rw [hiss, hfacts.2.2 k (by rw [hslen]; exact hk), hget]
      simp
    · rw [hiss, hfacts.1, hslen, hlen]; simp
    · rw [hiss, hfacts.2.1]
    · intro hc
      rcases hc with hc | hc
      · exact absurd hc (by decide)
      · rw [hM]
        funext j
        have hz : count.toNat = 0 := by omega
        exact hkeep j (Or.inr (by omega))
    · intro j hj
      rw [hM]
      exact hkeep j (Or.inr (by omega))

theorem MultiCombo_calls_witness :
    issued [] (MultiCombo togglingToolkit "Hitboxes" hitboxFlags hitboxLabels 3 ⟨(), []⟩).2 =
      [Event.BeginCombo "Hitboxes" "Multi Select" 0 true,
       Event.SelectablePtr "Head" false 1 (0, 0) true true,
       Event.SelectablePtr "Chest" true 1 (0, 0) true false,
       Event.SelectablePtr "Stomatch" true 1 (0, 0) true false,
       Event.EndCombo] ∧
    (MultiCombo togglingToolkit "Hitboxes" hitboxFlags hitboxLabels 3 ⟨(), []⟩).1 3 =
      hitboxFlags 3 ∧
    (MultiCombo togglingToolkit "Hitboxes" hitboxFlags hitboxLabels 3 ⟨(), []⟩).1 0 = true := by
  obtain ⟨opened, ans, _, _, _, _, _, _, hkeep⟩ :=
    MultiCombo_calls togglingToolkit "Hitboxes" hitboxFlags hitboxLabels 3 ⟨(), []⟩
  refine ⟨?_, hkeep 3 (by decide), ?_⟩
  · simp [issued, MultiCombo, MultiCombo.loop, ImGui.BeginCombo, ImGui.SelectablePtr,
      ImGui.EndCombo, togglingToolkit, quietToolkit, hitboxFlags, hitboxLabels]
  · simp [MultiCombo, MultiCombo.loop, ImGui.BeginCombo, ImGui.SelectablePtr,
      ImGui.EndCombo, togglingToolkit, quietToolkit, hitboxFlags, hitboxLabels,
      Function.update]

end edited
